import Mathlib

/-!
# DNS transaction correlator of packetbeat/protos/dns/dns.go

A shallow embedding of the DNS tuple, the transaction map and the
request/response correlation of `dns.go`, followed by the properties
established about them.

Conventions of the embedding:
* `byte`, `uint16` and the `transport` type (`uint8`) are `Fin 256`,
  `Fin 65536` and `Fin 256`; `byte(x)` conversions are explicit `% 256`.
* `net.IP` is a byte slice of any length (4 bytes for IPv4 as delivered by
  the packet decoder, 16 for IPv6).
* `time.Time` is a number of nanoseconds (`Int`).
* Pointers to transactions held by the cache are modelled by writing the
  mutated transaction back under the key it was fetched from.
-/

namespace Dns

/-! ## Machine types -/

abbrev Byte := Fin 256

abbrev UInt16 := Fin 65536

/-- Go conversion `byte(x)` of a non-negative integer: truncation to 8 bits. -/
def byte (n : Nat) : Byte := ⟨n % 256, Nat.mod_lt n (by decide)⟩

/-- Go `net.IP`: a slice of bytes. -/
abbrev IP := List Byte

/-- Time of capture, in nanoseconds (`time.Time`). -/
abbrev Time := Int

/-! ## Transport -/

/-- Go `type transport uint8`. -/
abbrev transport := Fin 256

def transportTCP : transport := 0

def transportUDP : transport := 1

def transportNames : List String := ["tcp", "udp"]

def transport.String (t : transport) : String :=
  if t.val ≥ transportNames.length then "impossible"
  else transportNames.getD t.val "impossible"

/-! ## Tuples -/

def maxDNSTupleRawSize : Nat := 16 + 16 + 2 + 2 + 4 + 1

/-- Go `type hashableDNSTuple [maxDNSTupleRawSize]byte`. -/
abbrev hashableDNSTuple := List Byte

/-- The zero value of `hashableDNSTuple`. -/
def zeroHashable : hashableDNSTuple := List.replicate maxDNSTupleRawSize 0

/-- Modelled from the spec: the fields of libbeat `common.IPPortTuple` that
`dns.go` reads (addresses, ports and the address length). -/
structure IPPortTuple where
  IPLength : Int
  SrcIP : IP
  DstIP : IP
  SrcPort : UInt16
  DstPort : UInt16
deriving DecidableEq

/-- Modelled from the spec: libbeat `common.BaseTuple`, embedded in `dnsTuple`. -/
structure BaseTuple where
  SrcIP : IP
  DstIP : IP
  SrcPort : UInt16
  DstPort : UInt16
deriving DecidableEq

structure dnsTuple extends BaseTuple where
  ipLength : Int
  transport : transport
  id : UInt16
  raw : hashableDNSTuple
  revRaw : hashableDNSTuple
deriving DecidableEq

/-- Go builtin `copy(arr[lo:hi], src)` on an array `arr`: the first
`min (hi - lo) (len src)` bytes of `src` overwrite `arr` from index `lo`. -/
def copySlice (arr : List Byte) (lo hi : Nat) (src : List Byte) : List Byte :=
  let n := min (hi - lo) src.length
  arr.take lo ++ src.take n ++ arr.drop (lo + n)

def dnsTuple.computeHashables (t : dnsTuple) : dnsTuple :=
  let raw := copySlice t.raw 0 16 t.SrcIP
  let raw := copySlice raw 16 18 [byte (t.SrcPort.val >>> 8), byte t.SrcPort.val]
  let raw := copySlice raw 18 34 t.DstIP
  let raw := copySlice raw 34 36 [byte (t.DstPort.val >>> 8), byte t.DstPort.val]
  let raw := copySlice raw 36 38 [byte (t.id.val >>> 8), byte t.id.val]
  let raw := raw.set 39 (byte t.transport.val)
  let revRaw := copySlice t.revRaw 0 16 t.DstIP
  let revRaw := copySlice revRaw 16 18 [byte (t.DstPort.val >>> 8), byte t.DstPort.val]
  let revRaw := copySlice revRaw 18 34 t.SrcIP
  let revRaw := copySlice revRaw 34 36 [byte (t.SrcPort.val >>> 8), byte t.SrcPort.val]
  let revRaw := copySlice revRaw 36 38 [byte (t.id.val >>> 8), byte t.id.val]
  let revRaw := revRaw.set 39 (byte t.transport.val)
  { t with raw := raw, revRaw := revRaw }

def dnsTupleFromIPPort (t : IPPortTuple) (trans : transport) (id : UInt16) : dnsTuple :=
  let tuple : dnsTuple :=
    { ipLength := t.IPLength
      SrcIP := t.SrcIP
      DstIP := t.DstIP
      SrcPort := t.SrcPort
      DstPort := t.DstPort
      transport := trans
      id := id
      raw := zeroHashable
      revRaw := zeroHashable }
  tuple.computeHashables

def dnsTuple.reverse (t : dnsTuple) : dnsTuple :=
  { ipLength := t.ipLength
    SrcIP := t.DstIP
    DstIP := t.SrcIP
    SrcPort := t.DstPort
    DstPort := t.SrcPort
    transport := t.transport
    id := t.id
    raw := t.revRaw
    revRaw := t.raw }

def dnsTuple.hashable (t : dnsTuple) : hashableDNSTuple := t.raw

def dnsTuple.revHashable (t : dnsTuple) : hashableDNSTuple := t.revRaw

/-! ## DNS messages (the accessors of the wire parser that dns.go uses) -/

abbrev UInt32 := Fin 4294967296

/-- Modelled from the spec: a question entry of the DNS parser library
(name, type, class). -/
structure Question where
  Name : String
  Qtype : UInt16
  Qclass : UInt16
deriving DecidableEq

/-- Modelled from the spec: the header common to all resource records. -/
structure RR_Header where
  Name : String
  Rrtype : UInt16
  Class : UInt16
  Ttl : UInt32
deriving DecidableEq

/-- The EDNS0 option kinds that toOpt distinguishes. -/
inductive EDNS0Kind where
  | DAU | DHU | EXPIRE | LLQ | LOCAL | N3U | NSID | SUBNET | COOKIE | UL | unhandled
deriving DecidableEq

/-- Modelled from the spec: an EDNS0 option, with its kind and the text
that its String method renders. -/
structure EDNS0 where
  kind : EDNS0Kind
  text : String
deriving DecidableEq

/-- Modelled from the spec: the OPT pseudo-record, with the values of its
accessors Do, Version, UDPSize and ExtendedRcode, and its options. -/
structure OPT where
  Do : Bool
  Version : Byte
  UDPSize : UInt16
  ExtendedRcode : Int
  Option : List EDNS0
deriving DecidableEq

/-- Modelled from the spec: the sealed hierarchy of record kinds over which
dns.go dispatches, each with the fields that dns.go reads. The last case is
any other record type, with the outcome of its conversion to RFC3597 form
(the hexadecimal rdata, or nothing when the conversion fails). -/
inductive RData where
  | A (A : IP)
  | AAAA (AAAA : IP)
  | CNAME (Target : String)
  | DNSKEY (Flags : UInt16) (Protocol : Byte) (Algorithm : Byte) (PublicKey : String)
  | DS (KeyTag : UInt16) (Algorithm : Byte) (DigestType : Byte) (Digest : String)
  | MX (Preference : UInt16) (Mx : String)
  | NS (Ns : String)
  | NSEC (NextDomain : String) (TypeBitMap : List UInt16)
  | NSEC3 (Hash : Byte) (Flags : Byte) (Iterations : UInt16) (Salt : String)
      (NextDomain : String) (TypeBitMap : List UInt16)
  | NSEC3PARAM (Hash : Byte) (Flags : Byte) (Iterations : UInt16) (Salt : String)
  | OPT (opt : OPT)
  | PTR (Ptr : String)
  | RFC3597 (Rdata : String)
  | RRSIG (TypeCovered : UInt16) (Algorithm : Byte) (Labels : Byte) (OrigTtl : UInt32)
      (Expiration : UInt32) (Inception : UInt32) (KeyTag : UInt16) (SignerName : String)
      (Signature : String)
  | SOA (Ns : String) (Mbox : String) (Serial : UInt32) (Refresh : UInt32) (Retry : UInt32)
      (Expire : UInt32) (Minttl : UInt32)
  | SRV (Priority : UInt16) (Weight : UInt16) (Port : UInt16) (Target : String)
  | TXT (Txt : List String)
  | other (rfc3597 : Option String)
deriving DecidableEq

/-- Modelled from the spec: a resource record, its header and its typed body. -/
structure RR where
  Hdr : RR_Header
  body : RData
deriving DecidableEq

def RR.Header (rr : RR) : RR_Header := rr.Hdr

/-- Modelled from the spec: the parsed DNS message (header bits, question,
answer, authority and additional sections). -/
structure Msg where
  Id : UInt16
  Response : Bool
  Opcode : Int
  Authoritative : Bool
  Truncated : Bool
  RecursionDesired : Bool
  RecursionAvailable : Bool
  AuthenticatedData : Bool
  CheckingDisabled : Bool
  Rcode : Int
  Question : List Question
  Answer : List RR
  Ns : List RR
  Extra : List RR
deriving DecidableEq

/-- The OPT record of an RR, when it is one. -/
def RR.asOPT (rr : RR) : Option OPT :=
  match rr.body with
  | RData.OPT o => some o
  | _ => none

/-- Modelled from the spec: IsEdns0 of the parser library, the OPT pseudo-RR
of the additional section (searched from its end), or nothing. -/
def Msg.IsEdns0 (m : Msg) : Option OPT :=
  m.Extra.reverse.findSome? RR.asOPT

/-! ## External tables and helpers

The name tables of names.go, the internal-call predicate of the utils
package and the formatting routines of the standard library are not part
of dns.go; the embedding takes them as parameters. -/

structure Env where
  IsInternalCall : String → String → Bool
  ipString : IP → String
  formatRFC3339 : Time → String
  dnsOpCodeToString : Int → String
  dnsResponseCodeToString : Int → String
  dnsTypeToString : UInt16 → String
  dnsClassToString : UInt16 → String
  dnsAlgorithmToString : Byte → String
  dnsHashToString : Byte → String
  dnsTypeBitsMapToString : List UInt16 → String
  dnsSaltToString : String → String
  hexStringToString : String → String
  TimeToString : UInt32 → String
  ToUpper : String → String
  EffectiveTLDPlusOne : String → Option String

/-- Go strconv.Itoa / FormatInt / FormatUint in base 10, on a non-negative value. -/
def Itoa (n : Nat) : String := toString n

/-- Go strings.Join. -/
def stringsJoin (xs : List String) (sep : String) : String := sep.intercalate xs

/-- Go strings.TrimRight(s, "."): all trailing dots removed. -/
def trimRightDots (s : String) : String :=
  String.mk (s.toList.reverse.dropWhile (fun c => c == '.')).reverse

/-! ## Notes, status and size constants -/

/-- Modelled from the spec: the note constants of errors.go, by their note codes. -/
def duplicateQueryMsg : String := "duplicate_query"

/-- Modelled from the spec: note code of errors.go. -/
def noResponse : String := "no_response"

/-- Modelled from the spec: note code of errors.go. -/
def orphanedResponse : String := "orphaned_response"

/-- Modelled from the spec: note code of errors.go (udpPacketTooLarge.Error()). -/
def udpPacketTooLarge : String := "udp_oversize"

/-- Modelled from the spec: note code of errors.go (udpPacketTooLarge.responseError()). -/
def udpPacketTooLargeResponse : String := "udp_oversize_response"

/-- Modelled from the spec: note code of errors.go. -/
def respEdnsNoSupport : String := "resp_edns_no_support"

/-- Modelled from the spec: note code of errors.go. -/
def respEdnsUnexpected : String := "resp_edns_unexpected"

/-- Modelled from the spec: the maximum size of a DNS message over UDP without EDNS. -/
def maxDNSPacketSize : Int := 512

/-- Modelled from the spec: status value of the emitted record. -/
def ERROR_STATUS : String := "Error"

/-- Modelled from the spec: status value of the emitted record. -/
def OK_STATUS : String := "OK"

/-! ## Emitted record (package model) -/

/-- Modelled from the spec: an endpoint of the emitted record (ip, port, process). -/
structure Endpoint where
  IP : String
  Port : UInt16
  Proc : List Byte
deriving DecidableEq

/-- Modelled from the spec: the process names of the two ends of a flow. -/
structure CmdlineTuple where
  Src : List Byte
  Dst : List Byte
deriving DecidableEq

def CmdlineTuple.Reverse (c : CmdlineTuple) : CmdlineTuple := { Src := c.Dst, Dst := c.Src }

/-- Modelled from the spec: libbeat MakeEndpointPair, the source and
destination endpoints of a tuple. -/
def MakeEndpointPair (env : Env) (tuple : BaseTuple) (cmd : CmdlineTuple) : Endpoint × Endpoint :=
  ({ IP := env.ipString tuple.SrcIP, Port := tuple.SrcPort, Proc := cmd.Src },
   { IP := env.ipString tuple.DstIP, Port := tuple.DstPort, Proc := cmd.Dst })

/-- Modelled from the spec: the flags of the dns sub-record. -/
structure Flags where
  Authoritative : Bool := false
  TruncatedResponse : Bool := false
  RecursionDesired : Bool := false
  RecursionAvailable : Bool := false
  AuthenticData : Bool := false
  CheckingDisabled : Bool := false
deriving DecidableEq

/-- Modelled from the spec: the question of the dns sub-record. -/
structure RecQuestion where
  Name : String := ""
  Type_ : String := ""
  Class : String := ""
  EtldPlusOne : String := ""
deriving DecidableEq

/-- Modelled from the spec: the opt part of the dns sub-record. -/
structure Opt where
  Do : Bool := false
  Version : String := ""
  UDPSize : UInt16 := 0
  ExtRcode : String := ""
  DAU : String := ""
  DHU : String := ""
  LOCAL : String := ""
  LLQ : String := ""
  N3U : String := ""
  NSID : String := ""
  SUBNET : String := ""
  COOKIE : String := ""
  UL : String := ""
deriving DecidableEq

/-- Modelled from the spec: one resource record of the dns sub-record
(the struct that rrToDNSAnswer fills); every field starts at its zero value. -/
structure Answer where
  Name : String := ""
  Type_ : String := ""
  Class : String := ""
  TTL : String := ""
  Data : String := ""
  Flags : String := ""
  Protocol : String := ""
  Algorithm : String := ""
  KeyTag : String := ""
  DigestType : String := ""
  Preference : UInt16 := 0
  TypeBits : String := ""
  Hash : String := ""
  Iterations : String := ""
  Salt : String := ""
  TypeCovered : String := ""
  Labels : String := ""
  OriginalTTL : String := ""
  Expiration : String := ""
  Inception : String := ""
  SignerName : String := ""
  Rname : String := ""
  Serial : UInt32 := 0
  Refresh : UInt32 := 0
  Retry : UInt32 := 0
  Expire : UInt32 := 0
  Minimum : UInt32 := 0
  Priority : UInt16 := 0
  Weight : UInt16 := 0
  Port : UInt16 := 0
deriving DecidableEq

/-- Modelled from the spec: the dns sub-record. Pointer fields that the zero
value leaves nil are optional. -/
structure DNS where
  ID : UInt16 := 0
  OpCode : String := ""
  Flags : Option Flags := none
  ResponseCode : String := ""
  Question : Option RecQuestion := none
  Opt : Option Opt := none
  AnswersCount : Int := 0
  Answers : List Answer := []
  AuthoritiesCount : Int := 0
  Authorities : List Answer := []
  AdditionalsCount : Int := 0
  Additionals : List Answer := []
deriving DecidableEq

/-- Modelled from the spec: the emitted record. ResponseTime is in
milliseconds, as an exact quotient. -/
structure Record where
  Type_ : String := ""
  Timestamp : String := ""
  Transport : String := ""
  Src : Option Endpoint := none
  Dst : Option Endpoint := none
  Status : String := ""
  Notes : String := ""
  BytesIn : Int := 0
  BytesOut : Int := 0
  ResponseTime : Rat := 0
  Method : String := ""
  Query : String := ""
  Resource : String := ""
  DNS : DNS := {}
deriving DecidableEq

/-! ## Conversion of a parsed message to the dns sub-record -/

def toOpt (env : Env) (rrOPT : OPT) : Opt :=
  let opt : Opt :=
    { Do := rrOPT.Do
      Version := Itoa rrOPT.Version.val
      UDPSize := rrOPT.UDPSize
      ExtRcode := env.dnsResponseCodeToString rrOPT.ExtendedRcode }
  rrOPT.Option.foldl
    (fun opt o =>
      match o.kind with
      | EDNS0Kind.DAU => { opt with DAU := o.text }
      | EDNS0Kind.DHU => { opt with DHU := o.text }
      | EDNS0Kind.EXPIRE => { opt with LOCAL := o.text }
      | EDNS0Kind.LLQ => { opt with LLQ := o.text }
      | EDNS0Kind.LOCAL => { opt with LOCAL := o.text }
      | EDNS0Kind.N3U => { opt with N3U := o.text }
      | EDNS0Kind.NSID => { opt with NSID := o.text }
      | EDNS0Kind.SUBNET => { opt with SUBNET := o.text }
      | EDNS0Kind.COOKIE => { opt with COOKIE := o.text }
      | EDNS0Kind.UL => { opt with UL := o.text }
      | EDNS0Kind.unhandled => opt)
    opt

/-- The struct-based record converter; nothing (nil) for the OPT pseudo-record. -/
def rrToDNSAnswer (env : Env) (rr : RR) : Option Answer :=
  let mapStr : Answer := {}
  match rr.body with
  | RData.other none => some mapStr
  | RData.other (some rdata) => some { mapStr with Data := env.hexStringToString rdata }
  | RData.A a => some { mapStr with Data := env.ipString a }
  | RData.AAAA a => some { mapStr with Data := env.ipString a }
  | RData.CNAME target => some { mapStr with Data := target }
  | RData.DNSKEY flags protocol algorithm publicKey =>
    some { mapStr with
      Flags := Itoa flags.val
      Protocol := Itoa protocol.val
      Algorithm := env.dnsAlgorithmToString algorithm
      Data := publicKey }
  | RData.DS keyTag algorithm digestType digest =>
    some { mapStr with
      KeyTag := Itoa keyTag.val
      Algorithm := env.dnsAlgorithmToString algorithm
      DigestType := env.dnsHashToString digestType
      Data := env.ToUpper digest }
  | RData.MX preference mx => some { mapStr with Preference := preference, Data := mx }
  | RData.NS ns => some { mapStr with Data := ns }
  | RData.NSEC nextDomain typeBitMap =>
    some { mapStr with TypeBits := env.dnsTypeBitsMapToString typeBitMap, Data := nextDomain }
  | RData.NSEC3 hash flags iterations salt nextDomain typeBitMap =>
    some { mapStr with
      Hash := env.dnsHashToString hash
      Flags := Itoa flags.val
      Iterations := Itoa iterations.val
      Salt := env.dnsSaltToString salt
      TypeBits := env.dnsTypeBitsMapToString typeBitMap
      Data := nextDomain }
  | RData.NSEC3PARAM _hash flags iterations salt =>
    -- mapStr.Hash is assigned twice in the source; the second assignment stays
    some { mapStr with
      Hash := Itoa flags.val
      Iterations := Itoa iterations.val
      Data := env.dnsSaltToString salt }
  | RData.OPT _ => none
  | RData.PTR ptr => some { mapStr with Data := ptr }
  | RData.RFC3597 rdata => some { mapStr with Data := env.hexStringToString rdata }
  | RData.RRSIG typeCovered algorithm labels origTtl expiration inception keyTag signerName
      signature =>
    some { mapStr with
      TypeCovered := env.dnsTypeToString typeCovered
      Algorithm := env.dnsAlgorithmToString algorithm
      Labels := Itoa labels.val
      OriginalTTL := Itoa origTtl.val
      Expiration := env.TimeToString expiration
      Inception := env.TimeToString inception
      KeyTag := Itoa keyTag.val
      SignerName := signerName
      Data := signature }
  | RData.SOA ns mbox serial refresh retry expire minttl =>
    some { mapStr with
      Rname := mbox
      Serial := serial
      Refresh := refresh
      Retry := retry
      Expire := expire
      Minimum := minttl
      Data := ns }
  | RData.SRV priority weight port target =>
    some { mapStr with Priority := priority, Weight := weight, Port := port, Data := target }
  | RData.TXT txt => some { mapStr with Data := stringsJoin txt " " }

def rrsToDNSAnswers (env : Env) (records : List RR) : List Answer :=
  records.foldl
    (fun mapStrSlice rr =>
      let rrHeader := rr.Header
      match rrToDNSAnswer env rr with
      | some mapStr =>
        mapStrSlice ++
          [{ mapStr with
              Name := rrHeader.Name
              Type_ := env.dnsTypeToString rrHeader.Rrtype
              Class := env.dnsClassToString rrHeader.Class
              TTL := Itoa rrHeader.Ttl.val }]
      | none => mapStrSlice)
    []

/-- Converts a Question to a string: "class C, type T, NAME". -/
def dnsQuestionToString (env : Env) (q : Question) : String :=
  "class " ++ env.dnsClassToString q.Qclass ++ ", type " ++ env.dnsTypeToString q.Qtype ++
    ", " ++ q.Name

def toDNSRecord (env : Env) (dns : Msg) (authority : Bool) (additional : Bool) : DNS :=
  let r : DNS :=
    { Flags := some {}, Question := some {}, Opt := some {}, Answers := [], Authorities := [],
      Additionals := [] }
  let r := { r with ID := dns.Id, OpCode := env.dnsOpCodeToString dns.Opcode }
  let r := { r with
    Flags := some
      { Authoritative := dns.Authoritative
        TruncatedResponse := dns.Truncated
        RecursionDesired := dns.RecursionDesired
        RecursionAvailable := dns.RecursionAvailable
        AuthenticData := dns.AuthenticatedData
        CheckingDisabled := dns.CheckingDisabled } }
  let r := { r with ResponseCode := env.dnsResponseCodeToString dns.Rcode }
  let r :=
    match dns.Question with
    | q :: _ =>
      let qMapStr : RecQuestion :=
        { Name := q.Name
          Type_ := env.dnsTypeToString q.Qtype
          Class := env.dnsClassToString q.Qclass }
      let qMapStr :=
        match env.EffectiveTLDPlusOne (trimRightDots q.Name) with
        | some eTLDPlusOne => { qMapStr with EtldPlusOne := eTLDPlusOne ++ "." }
        | none => qMapStr
      { r with Question := some qMapStr }
    | [] => r
  let rrOPT := dns.IsEdns0
  let r :=
    match rrOPT with
    | some o => { r with Opt := some (toOpt env o) }
    | none => r
  let r := { r with AnswersCount := (dns.Answer.length : Int) }
  let r := if dns.Answer.length > 0 then { r with Answers := rrsToDNSAnswers env dns.Answer } else r
  let r := { r with AuthoritiesCount := (dns.Ns.length : Int) }
  let r :=
    if authority && decide (dns.Ns.length > 0) then
      { r with Authorities := rrsToDNSAnswers env dns.Ns }
    else r
  let r :=
    if rrOPT.isSome then { r with AdditionalsCount := (dns.Extra.length : Int) - 1 }
    else { r with AdditionalsCount := (dns.Extra.length : Int) }
  if additional && decide (dns.Extra.length > 0) then
    let rrsMapStrs := rrsToDNSAnswers env dns.Extra
    if rrsMapStrs.length > 0 then { r with Additionals := rrsMapStrs } else r
  else r

/-! ## The map-based record converter and its rendering -/

/-- A value held in a MapStr, with its Go dynamic type. rrToMapStr stores
strings and unsigned fields of 16 and 32 bits; the type switches of
rrToString name int and string. -/
inductive Value where
  | str (s : String)
  | int (n : Int)
  | uint16 (n : UInt16)
  | uint32 (n : UInt32)
deriving DecidableEq

/-- Modelled from the spec: common.MapStr, a map from string keys to values,
as the list of its entries, one per key. -/
structure MapStr where
  entries : List (String × Value) := []
deriving DecidableEq

/-- Go m[k], with its presence flag. -/
def MapStr.get (m : MapStr) (k : String) : Option Value :=
  (m.entries.find? (fun e => e.1 == k)).map (fun e => e.2)

/-- Go m[k] = v: the value under k is replaced, or the entry is added. -/
def MapStr.set (m : MapStr) (k : String) (v : Value) : MapStr :=
  if m.entries.any (fun e => e.1 == k) then
    { entries := m.entries.map (fun e => if e.1 == k then (k, v) else e) }
  else { entries := m.entries ++ [(k, v)] }

/-- Go delete(m, k). -/
def MapStr.delete (m : MapStr) (k : String) : MapStr :=
  { entries := m.entries.filter (fun e => e.1 != k) }

/-- The keys of the map, as a range over it yields them (in no order that
the callers rely on). -/
def MapStr.keys (m : MapStr) : List String := m.entries.map (fun e => e.1)

/-- The map-based record converter; nothing (a nil map) for the OPT
pseudo-record, and an empty map for a record of another type whose
conversion to the RFC3597 form fails. -/
def rrToMapStr (env : Env) (rr : RR) : Option MapStr :=
  let mapStr : MapStr := {}
  match rr.body with
  | RData.other none => some mapStr
  | RData.other (some rdata) =>
    some (mapStr.set "data" (Value.str (env.hexStringToString rdata)))
  | RData.A a => some (mapStr.set "data" (Value.str (env.ipString a)))
  | RData.AAAA a => some (mapStr.set "data" (Value.str (env.ipString a)))
  | RData.CNAME target => some (mapStr.set "data" (Value.str target))
  | RData.DNSKEY flags protocol algorithm publicKey =>
    some (mapStr
      |>.set "flags" (Value.str (Itoa flags.val))
      |>.set "protocol" (Value.str (Itoa protocol.val))
      |>.set "algorithm" (Value.str (env.dnsAlgorithmToString algorithm))
      |>.set "data" (Value.str publicKey))
  | RData.DS keyTag algorithm digestType digest =>
    some (mapStr
      |>.set "key_tag" (Value.str (Itoa keyTag.val))
      |>.set "algorithm" (Value.str (env.dnsAlgorithmToString algorithm))
      |>.set "digest_type" (Value.str (env.dnsHashToString digestType))
      |>.set "data" (Value.str (env.ToUpper digest)))
  | RData.MX preference mx =>
    some (mapStr
      |>.set "preference" (Value.uint16 preference)
      |>.set "data" (Value.str mx))
  | RData.NS ns => some (mapStr.set "data" (Value.str ns))
  | RData.NSEC nextDomain typeBitMap =>
    some (mapStr
      |>.set "type_bits" (Value.str (env.dnsTypeBitsMapToString typeBitMap))
      |>.set "data" (Value.str nextDomain))
  | RData.NSEC3 hash flags iterations salt nextDomain typeBitMap =>
    some (mapStr
      |>.set "hash" (Value.str (env.dnsHashToString hash))
      |>.set "flags" (Value.str (Itoa flags.val))
      |>.set "iterations" (Value.str (Itoa iterations.val))
      |>.set "salt" (Value.str (env.dnsSaltToString salt))
      |>.set "type_bits" (Value.str (env.dnsTypeBitsMapToString typeBitMap))
      |>.set "data" (Value.str nextDomain))
  | RData.NSEC3PARAM hash flags iterations salt =>
    some (mapStr
      |>.set "hash" (Value.str (env.dnsHashToString hash))
      |>.set "flags" (Value.str (Itoa flags.val))
      |>.set "iterations" (Value.str (Itoa iterations.val))
      |>.set "data" (Value.str (env.dnsSaltToString salt)))
  | RData.OPT _ => none
  | RData.PTR ptr => some (mapStr.set "data" (Value.str ptr))
  | RData.RFC3597 rdata => some (mapStr.set "data" (Value.str (env.hexStringToString rdata)))
  | RData.RRSIG typeCovered algorithm labels origTtl expiration inception keyTag signerName
      signature =>
    some (mapStr
      |>.set "type_covered" (Value.str (env.dnsTypeToString typeCovered))
      |>.set "algorithm" (Value.str (env.dnsAlgorithmToString algorithm))
      |>.set "labels" (Value.str (Itoa labels.val))
      |>.set "original_ttl" (Value.str (Itoa origTtl.val))
      |>.set "expiration" (Value.str (env.TimeToString expiration))
      |>.set "inception" (Value.str (env.TimeToString inception))
      |>.set "key_tag" (Value.str (Itoa keyTag.val))
      |>.set "signer_name" (Value.str signerName)
      |>.set "data" (Value.str signature))
  | RData.SOA ns mbox serial refresh retry expire minttl =>
    some (mapStr
      |>.set "rname" (Value.str mbox)
      |>.set "serial" (Value.uint32 serial)
      |>.set "refresh" (Value.uint32 refresh)
      |>.set "retry" (Value.uint32 retry)
      |>.set "expire" (Value.uint32 expire)
      |>.set "minimum" (Value.uint32 minttl)
      |>.set "data" (Value.str ns))
  | RData.SRV priority weight port target =>
    some (mapStr
      |>.set "priority" (Value.uint16 priority)
      |>.set "weight" (Value.uint16 weight)
      |>.set "port" (Value.uint16 port)
      |>.set "data" (Value.str target))
  | RData.TXT txt => some (mapStr.set "data" (Value.str (stringsJoin txt " ")))

/-- Whether the first list of characters is before the second in the
lexicographic order of the code points. -/
def ltChars : List Char → List Char → Bool
  | [], [] => false
  | [], _ :: _ => true
  | _ :: _, [] => false
  | a :: as, b :: bs =>
    if a.toNat < b.toNat then true else if b.toNat < a.toNat then false else ltChars as bs

/-- Go a < b on strings: the strings are compared byte by byte, which on
UTF-8 text is the lexicographic order of their code points. -/
def stringLess (a b : String) : Bool := ltChars a.data b.data

/-- Insertion of a string before the first greater one. -/
def insertString (k : String) : List String → List String
  | [] => [k]
  | x :: xs => if stringLess k x then k :: x :: xs else x :: insertString k xs

/-- Go sort.Strings: ascending order of the strings compared byte by byte,
which on UTF-8 text is the order of their code points. -/
def sortStrings (keys : List String) : List String := keys.foldr insertString []

/-- Go strings.TrimSuffix: s without the suffix when it ends with it. -/
def TrimSuffix (s : String) (suffix : String) : String :=
  if suffix.data.isSuffixOf s.data then
    String.mk (s.data.take (s.data.length - suffix.data.length))
  else s

/-- Converts all RDATA fields of a record to a single string. The type
switches write a value of dynamic type int or string and nothing for a
value of another type; reading and deleting on the nil map of an OPT record
behave as on an empty map. -/
def rrToString (env : Env) (rr : RR) : String :=
  let mapStr : MapStr := (rrToMapStr env rr).getD {}
  let data := mapStr.get "data"
  let mapStr := mapStr.delete "data"
  let keys := sortStrings mapStr.keys
  let b : String :=
    keys.foldl
      (fun b k =>
        match mapStr.get k with
        | some (Value.int x) => b ++ (k ++ " " ++ toString x ++ ", ")
        | some (Value.str x) => b ++ (k ++ " " ++ x ++ ", ")
        | _ => b)
      ""
  match data with
  | none => TrimSuffix b ", "
  | some (Value.int x) => b ++ toString x
  | some (Value.str x) => b ++ x
  | some _ => b

/-! ## Messages, transactions and the plugin state -/

/-- A single DNS message. The pointers cmdlineTuple and data are always set
by the caller and are held by value. -/
structure dnsMessage where
  ts : Time
  tuple : IPPortTuple
  cmdlineTuple : CmdlineTuple
  data : Msg
  length : Int
deriving DecidableEq

structure dnsTransaction where
  ts : Time
  tuple : dnsTuple
  responseTime : Int
  src : Endpoint
  dst : Endpoint
  transport : transport
  notes : List String
  request : Option dnsMessage
  response : Option dnsMessage
deriving DecidableEq

/-- Modelled from the spec: the cache of active transactions (libbeat
common.Cache) as a mapping from the request key to at most one transaction.
Expiry is a separate step of the correlator, not part of an operation. -/
abbrev Cache := hashableDNSTuple → Option dnsTransaction

/-- Modelled from the spec: the cache holding no transaction. -/
def Cache.empty : Cache := fun _ => none

/-- Modelled from the spec: lookup in the cache. -/
def Cache.Get (c : Cache) (k : hashableDNSTuple) : Option dnsTransaction := c k

/-- Modelled from the spec: insertion in the cache, replacing any entry under the key. -/
def Cache.Put (c : Cache) (k : hashableDNSTuple) (v : dnsTransaction) : Cache :=
  fun k2 => if k2 = k then some v else c k2

/-- Modelled from the spec: removal from the cache. -/
def Cache.Delete (c : Cache) (k : hashableDNSTuple) : Cache :=
  fun k2 => if k2 = k then none else c k2

/-- The plugin: configuration, the transaction cache, and whether a reporter
is set (results is not nil). -/
structure dnsPlugin where
  ports : List Int
  sendRequest : Bool
  sendResponse : Bool
  includeAuthorities : Bool
  includeAdditionals : Bool
  transactions : Cache
  transactionTimeout : Int
  results : Bool
  dropDecodedPacket : Bool

/-- Modelled from the spec: a query statistic handed to the stats aggregator. -/
structure QueryDNS where
  SrcIP : String
  DstIP : String
  IsDuplicated : Bool
deriving DecidableEq

/-- Modelled from the spec: a question recorded for recursion inference
(arguments of AddRequestMsgMap). -/
structure RequestMsg where
  SrcIP : String
  DstIP : String
  id : UInt16
  question : List Question
deriving DecidableEq

/-- Modelled from the spec: a recursion inference request (arguments of
CalculateRecursiveMsg). -/
structure RecursiveMsg where
  SrcIP : String
  DstIP : String
  id : UInt16
  question : List Question
  response : Msg
deriving DecidableEq

/-- The plugin together with the package-level counters and what has been
handed to the stats aggregator, in order. The counters are 64-bit; their
wrap-around is out of reach of a per-packet increment and is not modelled. -/
structure State where
  dns : dnsPlugin
  unmatchedRequests : Int
  unmatchedResponses : Int
  records : List Record
  queries : List QueryDNS
  requestMsgs : List RequestMsg
  recursiveMsgs : List RecursiveMsg

def State.getTransaction (s : State) (k : hashableDNSTuple) : Option dnsTransaction :=
  s.dns.transactions.Get k

/-- Removes the entry under k; the removed transaction is read with getTransaction. -/
def State.deleteTransaction (s : State) (k : hashableDNSTuple) : State :=
  { s with dns := { s.dns with transactions := s.dns.transactions.Delete k } }

def State.putTransaction (s : State) (k : hashableDNSTuple) (t : dnsTransaction) : State :=
  { s with dns := { s.dns with transactions := s.dns.transactions.Put k t } }

def newTransaction (env : Env) (ts : Time) (tuple : dnsTuple) (cmd : CmdlineTuple) :
    dnsTransaction :=
  let ends := MakeEndpointPair env tuple.toBaseTuple cmd
  { ts := ts
    tuple := tuple
    responseTime := 0
    src := ends.1
    dst := ends.2
    transport := tuple.transport
    notes := []
    request := none
    response := none }

/-- Go Time.Sub followed by Nanoseconds: the difference, saturated to 64 bits. -/
def timeSub (a b : Time) : Int :=
  max (-(2 : Int) ^ 63) (min ((2 : Int) ^ 63 - 1) (a - b))

/-- The record that publishTransaction populates for a transaction, given the
two inclusion flags of the plugin, and whether control reaches the push at
the end of the function (it does not for a transaction with a request and
no response, where the function returns early). -/
def buildRecord (env : Env) (includeAuthorities : Bool) (includeAdditionals : Bool)
    (t : dnsTransaction) : Record × Bool :=
  let record : Record := { DNS := {} }
  let record := { record with
    Type_ := "dns"
    Timestamp := env.formatRFC3339 t.ts
    Transport := t.transport.String
    Src := some t.src
    Dst := some t.dst
    Status := ERROR_STATUS }
  let record :=
    if t.notes.length = 1 then { record with Notes := t.notes.headD "" }
    else if t.notes.length > 1 then { record with Notes := stringsJoin t.notes " " }
    else record
  match t.request, t.response with
  | some request, some response =>
    let record := { record with
      BytesIn := request.length
      BytesOut := response.length
      ResponseTime := ((timeSub response.ts t.ts : Int) : Rat) / 1000000
      Method := env.dnsOpCodeToString request.data.Opcode }
    let record :=
      match request.data.Question with
      | q :: _ => { record with Query := dnsQuestionToString env q, Resource := q.Name }
      | [] => record
    let dnsRec := toDNSRecord env response.data includeAuthorities includeAdditionals
    let record := if response.data.Rcode = 0 then { record with Status := OK_STATUS } else record
    ({ record with DNS := dnsRec }, true)
  | some request, none =>
    let record := { record with
      BytesIn := request.length
      Method := env.dnsOpCodeToString request.data.Opcode }
    let record :=
      match request.data.Question with
      | q :: _ => { record with Query := dnsQuestionToString env q, Resource := q.Name }
      | [] => record
    (record, false)
  | none, some response =>
    let record := { record with
      BytesOut := response.length
      Method := env.dnsOpCodeToString response.data.Opcode }
    let record :=
      match response.data.Question with
      | q :: _ => { record with Query := dnsQuestionToString env q, Resource := q.Name }
      | [] => record
    let dnsRec := toDNSRecord env response.data includeAuthorities includeAdditionals
    ({ record with DNS := dnsRec }, true)
  | none, none => (record, true)

def publishTransaction (env : Env) (s : State) (t : dnsTransaction) (isDrop : Bool) : State :=
  if s.dns.results = false then s
  else if s.dns.dropDecodedPacket then s
  else
    let built := buildRecord env s.dns.includeAuthorities s.dns.includeAdditionals t
    if built.2 = false then s
    else if !isDrop then { s with records := s.records ++ [built.1] }
    else s

/-- Lines 364 to 372 of receivedDNSRequest: the transaction created for a
query, with its oversize note and the query as its request. -/
def requestTransaction (env : Env) (tuple : dnsTuple) (msg : dnsMessage) : dnsTransaction :=
  let trans := newTransaction env msg.ts tuple msg.cmdlineTuple
  let trans :=
    if tuple.transport = transportUDP ∧ msg.data.IsEdns0.isSome ∧ msg.length > maxDNSPacketSize then
      { trans with notes := trans.notes ++ [udpPacketTooLarge] }
    else trans
  { trans with request := some msg }

/-- Lines 359 to 376 of receivedDNSRequest: the query statistic, the new
transaction, its insertion and the recording of the question. -/
def recordNewRequest (env : Env) (s : State) (tuple : dnsTuple) (msg : dnsMessage)
    (isDuplicated : Bool) : State :=
  let srcIP := env.ipString msg.tuple.SrcIP
  let dstIP := env.ipString msg.tuple.DstIP
  let queryDNS : QueryDNS := { SrcIP := srcIP, DstIP := dstIP, IsDuplicated := isDuplicated }
  let s := { s with queries := s.queries ++ [queryDNS] }
  let trans := requestTransaction env tuple msg
  let s := s.putTransaction tuple.hashable trans
  { s with requestMsgs := s.requestMsgs ++
      [{ SrcIP := trans.src.IP, DstIP := trans.dst.IP, id := tuple.id,
         question := msg.data.Question }] }

/-- The query path of the correlator. The result is none when the function
dereferences the nil request of a stored transaction. The two
reflect.DeepEqual tests are equality of the timestamps and equality of the
question lists. -/
def receivedDNSRequest (env : Env) (s : State) (tuple : dnsTuple) (msg : dnsMessage) :
    Option State :=
  let srcIP := env.ipString msg.tuple.SrcIP
  let dstIP := env.ipString msg.tuple.DstIP
  if env.IsInternalCall srcIP dstIP then some s
  else
    match s.getTransaction tuple.hashable with
    | some stored =>
      let s := s.deleteTransaction tuple.hashable
      let trans := { stored with notes := stored.notes ++ [duplicateQueryMsg] }
      match trans.request with
      | none => none
      | some request =>
        if request.ts = msg.ts then some (s.putTransaction tuple.hashable trans)
        else
          let isDuplicated := decide (request.data.Question = msg.data.Question)
          let s := publishTransaction env s trans false
          let s := s.deleteTransaction trans.tuple.hashable
          some (recordNewRequest env s tuple msg isDuplicated)
    | none => some (recordNewRequest env s tuple msg false)

/-- The notes that receivedDNSResponse appends for a response over UDP. -/
def responseNotes (tuple : dnsTuple) (msg : dnsMessage) (request : Option dnsMessage) :
    List String :=
  if tuple.transport = transportUDP then
    let respIsEdns := msg.data.IsEdns0.isSome
    let oversize :=
      if !respIsEdns ∧ msg.length > maxDNSPacketSize then [udpPacketTooLargeResponse] else []
    let edns :=
      match request with
      | some request =>
        let reqIsEdns := request.data.IsEdns0.isSome
        if reqIsEdns && !respIsEdns then [respEdnsNoSupport]
        else if !reqIsEdns && respIsEdns then [respEdnsUnexpected]
        else []
      | none => []
    oversize ++ edns
  else []

/-- Lines 390 to 422 of receivedDNSResponse: the transaction once the
response is attached. It is the transaction found in the cache, or else a
new one for the reversed tuple carrying the orphan note; then the notes for
a response over UDP are appended. -/
def respondedTransaction (env : Env) (found : Option dnsTransaction) (tuple : dnsTuple)
    (msg : dnsMessage) : dnsTransaction :=
  let trans :=
    match found with
    | some stored => stored
    | none =>
      let trans := newTransaction env msg.ts tuple.reverse msg.cmdlineTuple.Reverse
      { trans with notes := trans.notes ++ [orphanedResponse] }
  let trans := { trans with response := some msg }
  { trans with notes := trans.notes ++ responseNotes tuple msg trans.request }

/-- The response path of the correlator. A transaction found in the cache is
updated in place (it is the cache's own), then published and removed by its
own key; an orphan transaction is never put in the cache. -/
def receivedDNSResponse (env : Env) (s : State) (tuple : dnsTuple) (msg : dnsMessage) : State :=
  let srcIP := env.ipString msg.tuple.SrcIP
  let dstIP := env.ipString msg.tuple.DstIP
  if env.IsInternalCall srcIP dstIP then s
  else
    let found := s.getTransaction tuple.revHashable
    let isDrop := found.isNone
    let s := if found.isNone then { s with unmatchedResponses := s.unmatchedResponses + 1 } else s
    let trans := respondedTransaction env found tuple msg
    let s := if found.isSome then s.putTransaction tuple.revHashable trans else s
    let s :=
      match trans.request with
      | some request =>
        { s with recursiveMsgs := s.recursiveMsgs ++
            [{ SrcIP := trans.src.IP, DstIP := trans.dst.IP, id := tuple.id,
               question := request.data.Question, response := msg.data }] }
      | none => s
    let s := publishTransaction env s trans isDrop
    s.deleteTransaction trans.tuple.hashable

/-- The transaction is changed through its pointer: the result is the state
and the transaction as the function leaves it. -/
def expireTransaction (env : Env) (s : State) (t : dnsTransaction) : State × dnsTransaction :=
  let t := { t with notes := t.notes ++ [noResponse] }
  let s := publishTransaction env s t true
  ({ s with unmatchedRequests := s.unmatchedRequests + 1 }, t)

/-- Modelled from the spec: one expiry of the cache. The janitor removes the
entry under k and the removal listener set up by init calls
expireTransaction on the removed transaction. The result is the state and
the expired transaction, if there was one. -/
def expireKey (env : Env) (s : State) (k : hashableDNSTuple) : State × Option dnsTransaction :=
  match s.getTransaction k with
  | some t =>
    let r := expireTransaction env (s.deleteTransaction k) t
    (r.1, some r.2)
  | none => (s, none)

/-! ## Decoding of the payload

The DNS wire parser is an external library; the embedding takes its Unpack
and Len as parameters. Unpack either returns, leaving a message and
possibly an error, or aborts with a panic value, which is never nil. -/

/-- How a call that may panic ends. -/
inductive Outcome (α : Type) where
  | returned (a : α)
  | panicked (r : String)

structure Unpacker where
  Unpack : List Byte → Outcome (Msg × Option String)
  Len : Msg → Int

/-- The errors that the decoding functions return: the nonDNSMsg constant of
errors.go, or the error that the deferred function makes from a recovered
panic value. -/
inductive DecodeError where
  | nonDNSMsg
  | recovered (r : String)
deriving DecidableEq

/-- Modelled from the spec: the length of the prefix of a DNS message over TCP. -/
def decodeOffset : Nat := 2

/-- The pair (dns, err) that decodeDNSData returns. Slicing rawData from an
offset beyond its length panics; a panic leaves the named result dns nil
and the deferred function sets err. -/
def decodeDNSData (p : Unpacker) (transp : transport) (rawData : List Byte) :
    Option Msg × Option DecodeError :=
  let offset := if transp = transportTCP then decodeOffset else 0
  if offset > rawData.length then
    (none, some (DecodeError.recovered "slice bounds out of range"))
  else
    match p.Unpack (rawData.drop offset) with
    | Outcome.panicked r => (none, some (DecodeError.recovered r))
    | Outcome.returned (msg, err) =>
      if p.Len msg ≤ 12 ∨ err.isSome then (none, some DecodeError.nonDNSMsg)
      else (some msg, none)

/-- The slice rawData[offset:qrBit] that decodeDNSHeader hands to the
unpacker, with qrBit the smaller of 12 and the length of rawData, and the
offset 2 for TCP and 0 otherwise; nothing when the slice expression panics
(offset beyond qrBit). -/
def headerSlice (transp : transport) (rawData : List Byte) : Option (List Byte) :=
  let qrBit := if rawData.length < 12 then rawData.length else 12
  let offset := if transp = transportTCP then decodeOffset else 0
  if offset > qrBit then none else some ((rawData.take qrBit).drop offset)

/-- The pair (dns, err) that decodeDNSHeader returns: the message as Unpack
leaves it, with a nil error whatever Unpack reports; on a panic the named
result dns is still nil and the deferred function sets err. -/
def decodeDNSHeader (p : Unpacker) (transp : transport) (rawData : List Byte) :
    Option Msg × Option DecodeError :=
  match headerSlice transp rawData with
  | none => (none, some (DecodeError.recovered "slice bounds out of range"))
  | some data =>
    match p.Unpack data with
    | Outcome.panicked r => (none, some (DecodeError.recovered r))
    | Outcome.returned (msg, _) => (some msg, none)

/-- Modelled from the spec: the calls to the handlers of the stats
aggregator for undecodable messages, with their arguments. -/
inductive StatCall where
  | HandleResponseTruncated (a : String) (b : String)
  | HandleResponseDecodeErr (a : String) (b : String) (rcode : String)
  | HandleRequestDecodeErr (a : String) (b : String)
deriving DecidableEq

/-- The calls to the stats handlers that handleErrorMsg makes, in order;
nothing when it dereferences the nil header and panics. The tuple argument
is not used by the function. -/
def handleErrorMsg (env : Env) (p : Unpacker) (srcIP : String) (dstIP : String)
    (transp : transport) (rawData : List Byte) (_tuple : IPPortTuple) : Option (List StatCall) :=
  match (decodeDNSHeader p transp rawData).1 with
  | none => none
  | some dnsHdr =>
    if dnsHdr.Response then
      if dnsHdr.Truncated = true then some [StatCall.HandleResponseTruncated dstIP srcIP]
      else
        some [StatCall.HandleResponseDecodeErr dstIP srcIP
          (env.dnsResponseCodeToString dnsHdr.Rcode)]
    else some [StatCall.HandleRequestDecodeErr srcIP dstIP]

/-! ## IPv6 fragment reassembly

The defragmenter (package ip6defrag) is not among the sources, only its
test file is; it is modelled from the design given in the specification,
and the test file gives its entry point DefragIPv6 and the fixtures. -/

/-- Modelled from the spec: the named failures of the defragmenter, which is
not among the sources. -/
inductive DefragError where
  | MalformedFragment
  | OversizedDatagram
  | TooManyFragments
deriving DecidableEq

/-- Modelled from the spec: the IPv6 layer handed to the defragmenter, which
is not among the sources: addresses, next header, payload length and
payload (the payload starts with the Fragment extension header when the
next header is 44). -/
structure IPv6 where
  SrcIP : List Byte
  DstIP : List Byte
  NextHeader : Byte
  Length : Nat
  Payload : List Byte
deriving DecidableEq

/-- Modelled from the spec: the identity of an in-progress datagram
(Fragment-Key) of the defragmenter, which is not among the sources. -/
structure FragmentKey where
  src : List Byte
  dst : List Byte
  identification : UInt32
  nextProtocol : Byte
deriving DecidableEq

/-- Modelled from the spec: the fields of the Fragment extension header that
the defragmenter, which is not among the sources, reads: next header,
fragment offset in bytes (the 13-bit field times 8), the M bit and the
identification. -/
structure FragmentHeader where
  nextHeader : Byte
  offset : Nat
  more : Bool
  identification : UInt32
deriving DecidableEq

/-- Modelled from the spec: the decoding of the 8-byte Fragment extension
header at the start of the payload, for the defragmenter, which is not
among the sources; the result is the header and the fragment data, or
nothing when the payload has fewer than 8 bytes. -/
def parseFragmentHeader (payload : List Byte) : Option (FragmentHeader × List Byte) :=
  match payload with
  | nh :: _ :: o1 :: o2 :: i0 :: i1 :: i2 :: i3 :: data =>
    some ({ nextHeader := nh
            offset := (o1.val * 256 + o2.val) / 8 * 8
            more := o2.val % 2 = 1
            identification :=
              ⟨(i0.val * 16777216 + i1.val * 65536 + i2.val * 256 + i3.val) % 4294967296,
                Nat.mod_lt _ (by decide)⟩ },
          data)
  | _ => none

/-- Modelled from the spec: one stored fragment of the defragmenter, which is
not among the sources: offset, more flag, payload bytes and arrival time
(its length is that of its payload). -/
structure FragmentRecord where
  offset : Nat
  more : Bool
  payload : List Byte
  arrival : Time
deriving DecidableEq

/-- Modelled from the spec: the length of a stored fragment. -/
def FragmentRecord.length (f : FragmentRecord) : Nat := f.payload.length

/-- Modelled from the spec: the Fragment-List of the defragmenter, which is
not among the sources: the header template of the first-seen fragment, the
protocol after the fragment header, the fragments in offset order, the
highest end, the total length once the last fragment is seen, and the time
of the last insertion. -/
structure FragmentList where
  template : IPv6
  nextProtocol : Byte
  fragments : List FragmentRecord
  highestEnd : Nat
  totalLength : Option Nat
  lastSeen : Time
deriving DecidableEq

/-- Modelled from the spec: whether the byte ranges of two fragments overlap. -/
def FragmentRecord.overlaps (f g : FragmentRecord) : Bool :=
  decide (f.offset < g.offset + g.length) && decide (g.offset < f.offset + f.length)

/-- Modelled from the spec: insertion of a fragment at the position that
keeps the sequence ordered by offset. -/
def insertOrdered (f : FragmentRecord) : List FragmentRecord → List FragmentRecord
  | [] => [f]
  | g :: rest => if f.offset < g.offset then f :: g :: rest else g :: insertOrdered f rest

/-- Modelled from the spec: the insertion rule of a Fragment-List of the
defragmenter, which is not among the sources. The time of last insertion is
refreshed; an exact duplicate (same offset and length) is discarded; an
overlap, or a fragment that is not the last and whose length is not a
multiple of 8, is malformed; more than 64 fragments or more than 65535 - 40
bytes fail; otherwise the fragment is stored in offset order and the total
length is set by the fragment without the M bit. -/
def FragmentList.insert (fl : FragmentList) (f : FragmentRecord) (now : Time) :
    Except DefragError FragmentList :=
  let fl := { fl with lastSeen := now }
  if fl.fragments.any (fun g => decide (g.offset = f.offset ∧ g.length = f.length)) then
    Except.ok fl
  else if fl.fragments.any (fun g => f.overlaps g) then
    Except.error DefragError.MalformedFragment
  else if f.more = true ∧ f.length % 8 ≠ 0 then
    Except.error DefragError.MalformedFragment
  else if fl.fragments.length + 1 > 64 then
    Except.error DefragError.TooManyFragments
  else if (fl.fragments.map FragmentRecord.length).sum + f.length > 65535 - 40 then
    Except.error DefragError.OversizedDatagram
  else
    Except.ok { fl with
      fragments := insertOrdered f fl.fragments
      highestEnd := max fl.highestEnd (f.offset + f.length)
      totalLength := if f.more then fl.totalLength else some (f.offset + f.length) }

/-- Modelled from the spec: the end of the cover when the fragments, in
order, are contiguous from the given position; nothing when there is a gap. -/
def contiguousFrom (cur : Nat) : List FragmentRecord → Option Nat
  | [] => some cur
  | g :: rest => if g.offset = cur then contiguousFrom (cur + g.length) rest else none

/-- Modelled from the spec: a datagram is complete when its total length is
known and the stored ranges form a contiguous cover of it from 0. -/
def FragmentList.complete (fl : FragmentList) : Bool :=
  match fl.totalLength with
  | some total => decide (contiguousFrom 0 fl.fragments = some total)
  | none => false

/-- Modelled from the spec: the delivered packet of a complete list: the
payloads concatenated in offset order, under the header template with the
next header after the fragment header and the reassembled length. -/
def FragmentList.rebuild (fl : FragmentList) : IPv6 :=
  let payload := (fl.fragments.map (fun g => g.payload)).flatten
  { fl.template with NextHeader := fl.nextProtocol, Length := payload.length, Payload := payload }

/-- Modelled from the spec: the Defragmenter, which is not among the
sources: the in-progress lists by key. -/
structure IPv6Defragmenter where
  lists : List (FragmentKey × FragmentList)
deriving DecidableEq

/-- Modelled from the spec: the constructor of the defragmenter used by the tests. -/
def NewIPv6Defragmenter : IPv6Defragmenter := { lists := [] }

/-- Modelled from the spec: the list stored under a key. -/
def IPv6Defragmenter.find (d : IPv6Defragmenter) (k : FragmentKey) : Option FragmentList :=
  (d.lists.find? (fun e => decide (e.1 = k))).map (fun e => e.2)

/-- Modelled from the spec: removal of the list under a key. -/
def IPv6Defragmenter.remove (d : IPv6Defragmenter) (k : FragmentKey) : IPv6Defragmenter :=
  { lists := d.lists.filter (fun e => decide (e.1 ≠ k)) }

/-- Modelled from the spec: the list under a key is set, replacing any other. -/
def IPv6Defragmenter.store (d : IPv6Defragmenter) (k : FragmentKey) (fl : FragmentList) :
    IPv6Defragmenter :=
  { lists := (k, fl) :: (d.remove k).lists }

/-- Modelled from the spec: the earliest time of last insertion among the lists. -/
def oldestLastSeen : List (FragmentKey × FragmentList) → Option Time
  | [] => none
  | e :: rest =>
    match oldestLastSeen rest with
    | none => some e.2.lastSeen
    | some t => some (min e.2.lastSeen t)

/-- Modelled from the spec: the eviction policy; when a new list would exceed
500 active lists, the entry with the oldest last insertion is evicted. -/
def IPv6Defragmenter.evictIfFull (d : IPv6Defragmenter) : IPv6Defragmenter :=
  if d.lists.length < 500 then d
  else
    match oldestLastSeen d.lists with
    | none => d
    | some t => { lists := d.lists.eraseP (fun e => decide (e.2.lastSeen = t)) }

/-- Modelled from the spec: the expiry sweep, run by a timer: every list idle
for more than 30 seconds is dropped. -/
def IPv6Defragmenter.sweep (d : IPv6Defragmenter) (now : Time) : IPv6Defragmenter :=
  { lists := d.lists.filter (fun e => decide (now - e.2.lastSeen ≤ 30000000000)) }

/-- Modelled from the spec: the outcome of the defragmenter, which is not
among the sources. -/
inductive DefragOutcome where
  | Passthrough (ip : IPv6)
  | Buffered
  | Delivered (ip : IPv6)
  | Fails (e : DefragError)
deriving DecidableEq

/-- Modelled from the spec: the packet that DefragIPv6 returns to the tests
(nil when buffered or failed). -/
def DefragOutcome.out : DefragOutcome → Option IPv6
  | DefragOutcome.Passthrough ip => some ip
  | DefragOutcome.Buffered => none
  | DefragOutcome.Delivered ip => some ip
  | DefragOutcome.Fails _ => none

/-- Modelled from the spec: the error that DefragIPv6 returns to the tests. -/
def DefragOutcome.err : DefragOutcome → Option DefragError
  | DefragOutcome.Fails e => some e
  | _ => none

/-- Modelled from the spec: the operation of the defragmenter, which is not
among the sources, at time now. A packet without Fragment header passes
through; otherwise the key is extracted, the list is located or created,
the fragment inserted, and the datagram delivered (and its list removed)
when complete. A failed insertion invalidates the list. -/
def DefragIPv6 (d : IPv6Defragmenter) (ip : IPv6) (now : Time) :
    IPv6Defragmenter × DefragOutcome :=
  if ip.NextHeader ≠ 44 then (d, DefragOutcome.Passthrough ip)
  else
    match parseFragmentHeader ip.Payload with
    | none => (d, DefragOutcome.Fails DefragError.MalformedFragment)
    | some (hdr, data) =>
      let key : FragmentKey :=
        { src := ip.SrcIP, dst := ip.DstIP, identification := hdr.identification,
          nextProtocol := hdr.nextHeader }
      let f : FragmentRecord :=
        { offset := hdr.offset, more := hdr.more, payload := data, arrival := now }
      let located : IPv6Defragmenter × FragmentList :=
        match d.find key with
        | some fl => (d, fl)
        | none =>
          (d.evictIfFull,
            { template := ip, nextProtocol := hdr.nextHeader, fragments := [], highestEnd := 0,
              totalLength := none, lastSeen := now })
      match located.2.insert f now with
      | Except.error e => (located.1.remove key, DefragOutcome.Fails e)
      | Except.ok fl =>
        if fl.complete then (located.1.remove key, DefragOutcome.Delivered fl.rebuild)
        else (located.1.store key fl, DefragOutcome.Buffered)

/-- Modelled from the spec: the IPv6 layer that the packet library decodes
from an Ethernet frame, as the tests obtain it: the payload is the frame
from byte 54 on. -/
def ipv6OfFrame (frame : List Byte) : IPv6 :=
  { SrcIP := (frame.drop 22).take 16
    DstIP := (frame.drop 38).take 16
    NextHeader := frame.getD 20 0
    Length := (frame.getD 18 0).val * 256 + (frame.getD 19 0).val
    Payload := frame.drop 54 }

/-- The first fragment of the BCDNS fixture of test_defrag.go: an Ethernet frame of 1510 bytes. -/
def testBCDNSFrag1 : List Byte :=
  [0x00, 0x0c, 0x29, 0xec, 0x83, 0x48, 0x00, 0x0c, 0x29, 0x91, 0xb8, 0x19, 0x86, 0xdd, 0x60, 0x05,
   0x12, 0xe5, 0x05, 0xb0, 0x2c, 0x40, 0xfe, 0x80, 0x00, 0x00, 0x00, 0x00, 0x00, 0x00, 0x02, 0x0c,
   0x29, 0xff, 0xfe, 0x91, 0xb8, 0x19, 0xfe, 0x80, 0x00, 0x00, 0x00, 0x00, 0x00, 0x00, 0xb2, 0xd2,
   0xc8, 0xc8, 0xed, 0x81, 0x75, 0xa2, 0x11, 0x00, 0x00, 0x01, 0x76, 0x14, 0x35, 0x04, 0x00, 0x35,
   0xd0, 0x81, 0x05, 0xdb, 0x9f, 0x73, 0x08, 0x1f, 0x85, 0x80, 0x00, 0x01, 0x00, 0x06, 0x00, 0x01,
   0x00, 0x01, 0x12, 0x74, 0x65, 0x73, 0x74, 0x2d, 0x6e, 0x61, 0x70, 0x74, 0x72, 0x2d, 0x72, 0x65,
   0x63, 0x6f, 0x72, 0x64, 0x33, 0x07, 0x65, 0x78, 0x61, 0x6d, 0x70, 0x6c, 0x65, 0x03, 0x63, 0x6f,
   0x6d, 0x00, 0x00, 0x23, 0x00, 0x01, 0xc0, 0x0c, 0x00, 0x23, 0x00, 0x01, 0x00, 0x00, 0x0e, 0x10,
   0x00, 0xdd, 0x00, 0x00, 0x00, 0x00, 0x01, 0x53, 0x0a, 0x6d, 0x79, 0x2d, 0x73, 0x65, 0x72, 0x76,
   0x69, 0x63, 0x65, 0x3e, 0x21, 0x5e, 0x61, 0x62, 0x63, 0x64, 0x65, 0x66, 0x67, 0x68, 0x69, 0x6a,
   0x6b, 0x6c, 0x6d, 0x6e, 0x6f, 0x70, 0x71, 0x72, 0x62, 0x62, 0x31, 0x32, 0x33, 0x34, 0x35, 0x36,
   0x37, 0x38, 0x39, 0x30, 0x21, 0x41, 0x42, 0x43, 0x44, 0x45, 0x46, 0x47, 0x48, 0x49, 0x4a, 0x4b,
   0x4c, 0x4d, 0x4e, 0x4f, 0x50, 0x51, 0x52, 0x31, 0x32, 0x33, 0x34, 0x35, 0x36, 0x37, 0x38, 0x39,
   0x30, 0x21, 0x08, 0x74, 0x65, 0x73, 0x74, 0x68, 0x6f, 0x73, 0x74, 0x0a, 0x62, 0x31, 0x31, 0x31,
   0x31, 0x31, 0x31, 0x31, 0x31, 0x62, 0x0b, 0x62, 0x62, 0x62, 0x62, 0x62, 0x62, 0x62, 0x62, 0x62,
   0x62, 0x62, 0x0b, 0x68, 0x31, 0x32, 0x33, 0x34, 0x35, 0x36, 0x37, 0x38, 0x39, 0x68, 0x0b, 0x67,
   0x31, 0x32, 0x33, 0x34, 0x35, 0x36, 0x37, 0x38, 0x39, 0x67, 0x0b, 0x66, 0x31, 0x32, 0x33, 0x34,
   0x35, 0x36, 0x37, 0x38, 0x39, 0x66, 0x0b, 0x65, 0x31, 0x32, 0x33, 0x34, 0x35, 0x36, 0x37, 0x38,
   0x39, 0x65, 0x0b, 0x64, 0x31, 0x32, 0x33, 0x34, 0x35, 0x36, 0x37, 0x38, 0x39, 0x64, 0x0b, 0x63,
   0x31, 0x32, 0x33, 0x34, 0x35, 0x36, 0x37, 0x38, 0x39, 0x63, 0x0b, 0x62, 0x31, 0x32, 0x33, 0x34,
   0x35, 0x36, 0x37, 0x38, 0x39, 0x62, 0x0b, 0x61, 0x31, 0x32, 0x33, 0x34, 0x35, 0x36, 0x37, 0x38,
   0x39, 0x61, 0x07, 0x65, 0x78, 0x61, 0x6d, 0x70, 0x6c, 0x65, 0x03, 0x63, 0x6f, 0x6d, 0x00, 0xc0,
   0x0c, 0x00, 0x23, 0x00, 0x01, 0x00, 0x00, 0x0e, 0x10, 0x00, 0xdd, 0x00, 0x00, 0x00, 0x00, 0x01,
   0x53, 0x0a, 0x6d, 0x79, 0x2d, 0x73, 0x65, 0x72, 0x76, 0x69, 0x63, 0x65, 0x3e, 0x21, 0x5e, 0x61,
   0x62, 0x63, 0x64, 0x65, 0x66, 0x67, 0x68, 0x69, 0x6a, 0x6b, 0x6c, 0x6d, 0x6e, 0x6f, 0x70, 0x71,
   0x72, 0x65, 0x65, 0x31, 0x32, 0x33, 0x34, 0x35, 0x36, 0x37, 0x38, 0x39, 0x30, 0x21, 0x41, 0x42,
   0x43, 0x44, 0x45, 0x46, 0x47, 0x48, 0x49, 0x4a, 0x4b, 0x4c, 0x4d, 0x4e, 0x4f, 0x50, 0x51, 0x52,
   0x31, 0x32, 0x33, 0x34, 0x35, 0x36, 0x37, 0x38, 0x39, 0x30, 0x21, 0x08, 0x74, 0x65, 0x73, 0x74,
   0x68, 0x6f, 0x73, 0x74, 0x0a, 0x65, 0x31, 0x31, 0x31, 0x31, 0x31, 0x31, 0x31, 0x31, 0x65, 0x0b,
   0x65, 0x65, 0x65, 0x65, 0x65, 0x65, 0x65, 0x65, 0x65, 0x65, 0x65, 0x0b, 0x68, 0x31, 0x32, 0x33,
   0x34, 0x35, 0x36, 0x37, 0x38, 0x39, 0x68, 0x0b, 0x67, 0x31, 0x32, 0x33, 0x34, 0x35, 0x36, 0x37,
   0x38, 0x39, 0x67, 0x0b, 0x66, 0x31, 0x32, 0x33, 0x34, 0x35, 0x36, 0x37, 0x38, 0x39, 0x66, 0x0b,
   0x65, 0x31, 0x32, 0x33, 0x34, 0x35, 0x36, 0x37, 0x38, 0x39, 0x65, 0x0b, 0x64, 0x31, 0x32, 0x33,
   0x34, 0x35, 0x36, 0x37, 0x38, 0x39, 0x64, 0x0b, 0x63, 0x31, 0x32, 0x33, 0x34, 0x35, 0x36, 0x37,
   0x38, 0x39, 0x63, 0x0b, 0x62, 0x31, 0x32, 0x33, 0x34, 0x35, 0x36, 0x37, 0x38, 0x39, 0x62, 0x0b,
   0x61, 0x31, 0x32, 0x33, 0x34, 0x35, 0x36, 0x37, 0x38, 0x39, 0x61, 0x07, 0x65, 0x78, 0x61, 0x6d,
   0x70, 0x6c, 0x65, 0x03, 0x63, 0x6f, 0x6d, 0x00, 0xc0, 0x0c, 0x00, 0x23, 0x00, 0x01, 0x00, 0x00,
   0x0e, 0x10, 0x00, 0xdd, 0x00, 0x00, 0x00, 0x00, 0x01, 0x53, 0x0a, 0x6d, 0x79, 0x2d, 0x73, 0x65,
   0x72, 0x76, 0x69, 0x63, 0x65, 0x3e, 0x21, 0x5e, 0x61, 0x62, 0x63, 0x64, 0x65, 0x66, 0x67, 0x68,
   0x69, 0x6a, 0x6b, 0x6c, 0x6d, 0x6e, 0x6f, 0x70, 0x71, 0x72, 0x64, 0x64, 0x31, 0x32, 0x33, 0x34,
   0x35, 0x36, 0x37, 0x38, 0x39, 0x30, 0x21, 0x41, 0x42, 0x43, 0x44, 0x45, 0x46, 0x47, 0x48, 0x49,
   0x4a, 0x4b, 0x4c, 0x4d, 0x4e, 0x4f, 0x50, 0x51, 0x52, 0x31, 0x32, 0x33, 0x34, 0x35, 0x36, 0x37,
   0x38, 0x39, 0x30, 0x21, 0x08, 0x74, 0x65, 0x73, 0x74, 0x68, 0x6f, 0x73, 0x74, 0x0a, 0x64, 0x31,
   0x31, 0x31, 0x31, 0x31, 0x31, 0x31, 0x31, 0x64, 0x0b, 0x64, 0x64, 0x64, 0x64, 0x64, 0x64, 0x64,
   0x64, 0x64, 0x64, 0x64, 0x0b, 0x68, 0x31, 0x32, 0x33, 0x34, 0x35, 0x36, 0x37, 0x38, 0x39, 0x68,
   0x0b, 0x67, 0x31, 0x32, 0x33, 0x34, 0x35, 0x36, 0x37, 0x38, 0x39, 0x67, 0x0b, 0x66, 0x31, 0x32,
   0x33, 0x34, 0x35, 0x36, 0x37, 0x38, 0x39, 0x66, 0x0b, 0x65, 0x31, 0x32, 0x33, 0x34, 0x35, 0x36,
   0x37, 0x38, 0x39, 0x65, 0x0b, 0x64, 0x31, 0x32, 0x33, 0x34, 0x35, 0x36, 0x37, 0x38, 0x39, 0x64,
   0x0b, 0x63, 0x31, 0x32, 0x33, 0x34, 0x35, 0x36, 0x37, 0x38, 0x39, 0x63, 0x0b, 0x62, 0x31, 0x32,
   0x33, 0x34, 0x35, 0x36, 0x37, 0x38, 0x39, 0x62, 0x0b, 0x61, 0x31, 0x32, 0x33, 0x34, 0x35, 0x36,
   0x37, 0x38, 0x39, 0x61, 0x07, 0x65, 0x78, 0x61, 0x6d, 0x70, 0x6c, 0x65, 0x03, 0x63, 0x6f, 0x6d,
   0x00, 0xc0, 0x0c, 0x00, 0x23, 0x00, 0x01, 0x00, 0x00, 0x0e, 0x10, 0x00, 0xdd, 0x00, 0x00, 0x00,
   0x00, 0x01, 0x53, 0x0a, 0x6d, 0x79, 0x2d, 0x73, 0x65, 0x72, 0x76, 0x69, 0x63, 0x65, 0x3e, 0x21,
   0x5e, 0x61, 0x62, 0x63, 0x64, 0x65, 0x66, 0x67, 0x68, 0x69, 0x6a, 0x6b, 0x6c, 0x6d, 0x6e, 0x6f,
   0x70, 0x71, 0x72, 0x61, 0x61, 0x31, 0x32, 0x33, 0x34, 0x35, 0x36, 0x37, 0x38, 0x39, 0x30, 0x21,
   0x41, 0x42, 0x43, 0x44, 0x45, 0x46, 0x47, 0x48, 0x49, 0x4a, 0x4b, 0x4c, 0x4d, 0x4e, 0x4f, 0x50,
   0x51, 0x52, 0x31, 0x32, 0x33, 0x34, 0x35, 0x36, 0x37, 0x38, 0x39, 0x30, 0x21, 0x08, 0x74, 0x65,
   0x73, 0x74, 0x68, 0x6f, 0x73, 0x74, 0x0a, 0x61, 0x31, 0x31, 0x31, 0x31, 0x31, 0x31, 0x31, 0x31,
   0x61, 0x0b, 0x61, 0x61, 0x61, 0x61, 0x61, 0x61, 0x61, 0x61, 0x61, 0x61, 0x61, 0x0b, 0x68, 0x31,
   0x32, 0x33, 0x34, 0x35, 0x36, 0x37, 0x38, 0x39, 0x68, 0x0b, 0x67, 0x31, 0x32, 0x33, 0x34, 0x35,
   0x36, 0x37, 0x38, 0x39, 0x67, 0x0b, 0x66, 0x31, 0x32, 0x33, 0x34, 0x35, 0x36, 0x37, 0x38, 0x39,
   0x66, 0x0b, 0x65, 0x31, 0x32, 0x33, 0x34, 0x35, 0x36, 0x37, 0x38, 0x39, 0x65, 0x0b, 0x64, 0x31,
   0x32, 0x33, 0x34, 0x35, 0x36, 0x37, 0x38, 0x39, 0x64, 0x0b, 0x63, 0x31, 0x32, 0x33, 0x34, 0x35,
   0x36, 0x37, 0x38, 0x39, 0x63, 0x0b, 0x62, 0x31, 0x32, 0x33, 0x34, 0x35, 0x36, 0x37, 0x38, 0x39,
   0x62, 0x0b, 0x61, 0x31, 0x32, 0x33, 0x34, 0x35, 0x36, 0x37, 0x38, 0x39, 0x61, 0x07, 0x65, 0x78,
   0x61, 0x6d, 0x70, 0x6c, 0x65, 0x03, 0x63, 0x6f, 0x6d, 0x00, 0xc0, 0x0c, 0x00, 0x23, 0x00, 0x01,
   0x00, 0x00, 0x0e, 0x10, 0x00, 0xe7, 0x00, 0x00, 0x00, 0x00, 0x01, 0x53, 0x0a, 0x6d, 0x79, 0x2d,
   0x73, 0x65, 0x72, 0x76, 0x69, 0x63, 0x65, 0x40, 0x21, 0x5e, 0x61, 0x62, 0x63, 0x64, 0x65, 0x66,
   0x67, 0x68, 0x69, 0x6a, 0x6b, 0x6c, 0x6d, 0x6e, 0x6f, 0x70, 0x71, 0x72, 0x61, 0x61, 0x31, 0x31,
   0x32, 0x32, 0x33, 0x33, 0x34, 0x34, 0x31, 0x31, 0x30, 0x21, 0x41, 0x42, 0x43, 0x44, 0x45, 0x46,
   0x47, 0x48, 0x49, 0x4a, 0x4b, 0x4c, 0x4d, 0x4e, 0x4f, 0x50, 0x51, 0x52, 0x31, 0x31, 0x32, 0x32,
   0x33, 0x33, 0x34, 0x34, 0x31, 0x31, 0x30, 0x21, 0x08, 0x74, 0x65, 0x73, 0x74, 0x68, 0x6f, 0x73,
   0x74, 0x0a, 0x61, 0x31, 0x31, 0x31, 0x31, 0x31, 0x31, 0x31, 0x31, 0x61, 0x0b, 0x61, 0x61, 0x61,
   0x61, 0x61, 0x61, 0x61, 0x61, 0x61, 0x61, 0x61, 0x0c, 0x68, 0x31, 0x31, 0x32, 0x32, 0x33, 0x33,
   0x34, 0x34, 0x31, 0x31, 0x68, 0x0c, 0x67, 0x31, 0x31, 0x32, 0x32, 0x33, 0x33, 0x34, 0x34, 0x31,
   0x31, 0x67, 0x0c, 0x66, 0x31, 0x31, 0x32, 0x32, 0x33, 0x33, 0x34, 0x34, 0x31, 0x31, 0x66, 0x0c,
   0x65, 0x31, 0x31, 0x32, 0x32, 0x33, 0x33, 0x34, 0x34, 0x31, 0x31, 0x65, 0x0c, 0x64, 0x31, 0x31,
   0x32, 0x32, 0x33, 0x33, 0x34, 0x34, 0x31, 0x31, 0x64, 0x0c, 0x63, 0x31, 0x31, 0x32, 0x32, 0x33,
   0x33, 0x34, 0x34, 0x31, 0x31, 0x63, 0x0c, 0x62, 0x31, 0x31, 0x32, 0x32, 0x33, 0x33, 0x34, 0x34,
   0x31, 0x31, 0x62, 0x0c, 0x61, 0x31, 0x31, 0x32, 0x32, 0x33, 0x33, 0x34, 0x34, 0x31, 0x31, 0x61,
   0x07, 0x65, 0x78, 0x61, 0x6d, 0x70, 0x6c, 0x65, 0x03, 0x63, 0x6f, 0x6d, 0x00, 0xc0, 0x0c, 0x00,
   0x23, 0x00, 0x01, 0x00, 0x00, 0x0e, 0x10, 0x00, 0xdd, 0x00, 0x00, 0x00, 0x00, 0x01, 0x53, 0x0a,
   0x6d, 0x79, 0x2d, 0x73, 0x65, 0x72, 0x76, 0x69, 0x63, 0x65, 0x3e, 0x21, 0x5e, 0x61, 0x62, 0x63,
   0x64, 0x65, 0x66, 0x67, 0x68, 0x69, 0x6a, 0x6b, 0x6c, 0x6d, 0x6e, 0x6f, 0x70, 0x71, 0x72, 0x63,
   0x63, 0x31, 0x32, 0x33, 0x34, 0x35, 0x36, 0x37, 0x38, 0x39, 0x30, 0x21, 0x41, 0x42, 0x43, 0x44,
   0x45, 0x46, 0x47, 0x48, 0x49, 0x4a, 0x4b, 0x4c, 0x4d, 0x4e, 0x4f, 0x50, 0x51, 0x52, 0x31, 0x32,
   0x33, 0x34, 0x35, 0x36, 0x37, 0x38, 0x39, 0x30, 0x21, 0x08, 0x74, 0x65, 0x73, 0x74, 0x68, 0x6f,
   0x73, 0x74, 0x0a, 0x63, 0x31, 0x31, 0x31, 0x31, 0x31, 0x31, 0x31, 0x31, 0x63, 0x0b, 0x63, 0x63,
   0x63, 0x63, 0x63, 0x63, 0x63, 0x63, 0x63, 0x63, 0x63, 0x0b, 0x68, 0x31, 0x32, 0x33, 0x34, 0x35,
   0x36, 0x37, 0x38, 0x39, 0x68, 0x0b, 0x67, 0x31, 0x32, 0x33, 0x34, 0x35, 0x36, 0x37, 0x38, 0x39,
   0x67, 0x0b, 0x66, 0x31, 0x32, 0x33, 0x34, 0x35, 0x36, 0x37, 0x38, 0x39, 0x66, 0x0b, 0x65, 0x31,
   0x32, 0x33, 0x34, 0x35, 0x36, 0x37, 0x38, 0x39, 0x65, 0x0b, 0x64, 0x31, 0x32, 0x33, 0x34, 0x35,
   0x36, 0x37, 0x38, 0x39, 0x64, 0x0b, 0x63, 0x31, 0x32, 0x33, 0x34, 0x35, 0x36, 0x37, 0x38, 0x39,
   0x63, 0x0b, 0x62, 0x31, 0x32, 0x33, 0x34, 0x35, 0x36, 0x37, 0x38, 0x39, 0x62, 0x0b, 0x61, 0x31,
   0x32, 0x33, 0x34, 0x35, 0x36, 0x37]

/-- The second fragment of the BCDNS fixture of test_defrag.go: an Ethernet frame of 113 bytes. -/
def testBCDNSFrag2 : List Byte :=
  [0x00, 0x0c, 0x29, 0xec, 0x83, 0x48, 0x00, 0x0c, 0x29, 0x91, 0xb8, 0x19, 0x86, 0xdd, 0x60, 0x05,
   0x12, 0xe5, 0x00, 0x3b, 0x2c, 0x40, 0xfe, 0x80, 0x00, 0x00, 0x00, 0x00, 0x00, 0x00, 0x02, 0x0c,
   0x29, 0xff, 0xfe, 0x91, 0xb8, 0x19, 0xfe, 0x80, 0x00, 0x00, 0x00, 0x00, 0x00, 0x00, 0xb2, 0xd2,
   0xc8, 0xc8, 0xed, 0x81, 0x75, 0xa2, 0x11, 0x00, 0x05, 0xa8, 0x76, 0x14, 0x35, 0x04, 0x38, 0x39,
   0x61, 0x07, 0x65, 0x78, 0x61, 0x6d, 0x70, 0x6c, 0x65, 0x03, 0x63, 0x6f, 0x6d, 0x00, 0xc5, 0xa3,
   0x00, 0x02, 0x00, 0x01, 0x00, 0x01, 0x51, 0x80, 0x00, 0x0c, 0x0a, 0x62, 0x64, 0x64, 0x73, 0x38,
   0x38, 0x2d, 0x32, 0x33, 0x39, 0x00, 0x00, 0x00, 0x29, 0x10, 0x00, 0x00, 0x00, 0x00, 0x00, 0x00,
   0x00]

/-- The unfragmented BCDNS fixture of test_defrag.go: an Ethernet frame of 121 bytes. -/
def testBCDNSDontFrag : List Byte :=
  [0x00, 0x0c, 0x29, 0x91, 0xb8, 0x19, 0x00, 0x0c, 0x29, 0xec, 0x83, 0x48, 0x86, 0xdd, 0x60, 0x0f,
   0x3f, 0x15, 0x00, 0x43, 0x11, 0x40, 0xfe, 0x80, 0x00, 0x00, 0x00, 0x00, 0x00, 0x00, 0xb2, 0xd2,
   0xc8, 0xc8, 0xed, 0x81, 0x75, 0xa2, 0xfe, 0x80, 0x00, 0x00, 0x00, 0x00, 0x00, 0x00, 0x02, 0x0c,
   0x29, 0xff, 0xfe, 0x91, 0xb8, 0x19, 0xd0, 0x81, 0x00, 0x35, 0x00, 0x43, 0xbe, 0xcc, 0x08, 0x1f,
   0x01, 0x20, 0x00, 0x01, 0x00, 0x00, 0x00, 0x00, 0x00, 0x01, 0x12, 0x74, 0x65, 0x73, 0x74, 0x2d,
   0x6e, 0x61, 0x70, 0x74, 0x72, 0x2d, 0x72, 0x65, 0x63, 0x6f, 0x72, 0x64, 0x33, 0x07, 0x65, 0x78,
   0x61, 0x6d, 0x70, 0x6c, 0x65, 0x03, 0x63, 0x6f, 0x6d, 0x00, 0x00, 0x23, 0x00, 0x01, 0x00, 0x00,
   0x29, 0x10, 0x00, 0x00, 0x00, 0x00, 0x00, 0x00, 0x00]

/-! ## Reference layout and sample values -/

/-- The tuple with source and destination address and port exchanged. -/
def IPPortTuple.swapped (p : IPPortTuple) : IPPortTuple :=
  { p with SrcIP := p.DstIP, DstIP := p.SrcIP, SrcPort := p.DstPort, DstPort := p.SrcPort }

/-- The canonical byte sequence as the specification words it: source
address, source port, destination address, destination port, DNS id (ports
and id big-endian), transport, and nothing else. -/
def specCanonical (p : IPPortTuple) (tr : transport) (id : UInt16) : List Byte :=
  p.SrcIP ++ [byte (p.SrcPort.val >>> 8), byte p.SrcPort.val] ++ p.DstIP ++
    [byte (p.DstPort.val >>> 8), byte p.DstPort.val] ++ [byte (id.val >>> 8), byte id.val] ++
    [byte tr.val]

def sampleEnv : Env :=
  { IsInternalCall := fun a b => a == b
    ipString := fun ip => String.mk (ip.map (fun b => Char.ofNat b.val))
    formatRFC3339 := fun _ => "1970-01-01T00:00:00Z"
    dnsOpCodeToString := fun _ => "QUERY"
    dnsResponseCodeToString := fun _ => "NOERROR"
    dnsTypeToString := fun _ => "A"
    dnsClassToString := fun _ => "IN"
    dnsAlgorithmToString := fun _ => "RSASHA256"
    dnsHashToString := fun _ => "SHA1"
    dnsTypeBitsMapToString := fun _ => ""
    dnsSaltToString := fun s => s
    hexStringToString := fun s => s
    TimeToString := fun _ => "19700101000000"
    ToUpper := fun s => s.toUpper
    EffectiveTLDPlusOne := fun _ => none }

def samplePlugin : dnsPlugin :=
  { ports := [53]
    sendRequest := false
    sendResponse := false
    includeAuthorities := false
    includeAdditionals := false
    transactions := Cache.empty
    transactionTimeout := 10000000000
    results := true
    dropDecodedPacket := false }

def sampleState : State :=
  { dns := samplePlugin
    unmatchedRequests := 0
    unmatchedResponses := 0
    records := []
    queries := []
    requestMsgs := []
    recursiveMsgs := [] }

/-- A client at fe80::1 port 40000 asking a server at fe80::2 port 53. -/
def sampleQueryIPPort : IPPortTuple :=
  { IPLength := 16
    SrcIP := [0xfe, 0x80, 0, 0, 0, 0, 0, 0, 0, 0, 0, 0, 0, 0, 0, 1]
    DstIP := [0xfe, 0x80, 0, 0, 0, 0, 0, 0, 0, 0, 0, 0, 0, 0, 0, 2]
    SrcPort := 40000
    DstPort := 53 }

def sampleQueryTuple : dnsTuple := dnsTupleFromIPPort sampleQueryIPPort transportUDP 0x0100

def sampleResponseTuple : dnsTuple :=
  dnsTupleFromIPPort sampleQueryIPPort.swapped transportUDP 0x0100

def sampleQuestion : Question := { Name := "example.com.", Qtype := 1, Qclass := 1 }

def sampleQueryData : Msg :=
  { Id := 0x0100, Response := false, Opcode := 0, Authoritative := false, Truncated := false,
    RecursionDesired := true, RecursionAvailable := false, AuthenticatedData := false,
    CheckingDisabled := false, Rcode := 0, Question := [sampleQuestion], Answer := [], Ns := [],
    Extra := [] }

def sampleResponseData : Msg :=
  { sampleQueryData with
    Response := true
    RecursionAvailable := true
    Answer := [{ Hdr := { Name := "example.com.", Rrtype := 1, Class := 1, Ttl := 300 },
                 body := RData.A [93, 184, 216, 34] }] }

def sampleQuery : dnsMessage :=
  { ts := 1000, tuple := sampleQueryIPPort, cmdlineTuple := { Src := [], Dst := [] },
    data := sampleQueryData, length := 29 }

/-- The same query seen again one microsecond later. -/
def sampleQueryLater : dnsMessage := { sampleQuery with ts := 2000 }

def sampleResponse : dnsMessage :=
  { ts := 3000, tuple := sampleQueryIPPort.swapped, cmdlineTuple := { Src := [], Dst := [] },
    data := sampleResponseData, length := 45 }

/-- The transaction that the correlator stores for sampleQuery. -/
def sampleStored : dnsTransaction :=
  { newTransaction sampleEnv sampleQuery.ts sampleQueryTuple sampleQuery.cmdlineTuple with
    request := some sampleQuery }

/-- The state in which sampleQuery is outstanding. -/
def sampleStateOutstanding : State :=
  sampleState.putTransaction sampleQueryTuple.hashable sampleStored

/-- An IPv4 flow, with the 4-byte addresses that the packet decoder delivers. -/
def sampleIPv4 : IPPortTuple :=
  { IPLength := 4, SrcIP := [10, 0, 0, 1], DstIP := [10, 0, 0, 2], SrcPort := 40000, DstPort := 53 }

/-- An IPv6 flow between a00:1:: and a00:2::, with the same ports. -/
def sampleIPv6Colliding : IPPortTuple :=
  { IPLength := 16
    SrcIP := [10, 0, 0, 1, 0, 0, 0, 0, 0, 0, 0, 0, 0, 0, 0, 0]
    DstIP := [10, 0, 0, 2, 0, 0, 0, 0, 0, 0, 0, 0, 0, 0, 0, 0]
    SrcPort := 40000
    DstPort := 53 }

/-- A UDP query of 700 bytes without an OPT record. -/
def sampleBigQuery : dnsMessage := { sampleQuery with length := 700 }

def sampleOPT : RR :=
  { Hdr := { Name := ".", Rrtype := 41, Class := 4096, Ttl := 0 },
    body := RData.OPT { Do := false, Version := 0, UDPSize := 4096, ExtendedRcode := 0,
                        Option := [] } }

/-- A UDP query of 700 bytes with an OPT record. -/
def sampleBigQueryEdns : dnsMessage :=
  { sampleQuery with length := 700, data := { sampleQueryData with Extra := [sampleOPT] } }

/-- A UDP response of 700 bytes without an OPT record. -/
def sampleBigResponse : dnsMessage := { sampleResponse with length := 700 }

/-- A response whose capture timestamp is earlier than that of sampleQuery. -/
def sampleEarlyResponse : dnsMessage := { sampleResponse with ts := 500 }

/-- A transaction holding only a response. -/
def sampleOrphan : dnsTransaction :=
  respondedTransaction sampleEnv none sampleResponseTuple sampleResponse

/-- A parser that accepts payloads of more than 12 bytes, panics on the
empty payload and reports an error otherwise. -/
def sampleUnpacker : Unpacker :=
  { Unpack := fun data =>
      if data.length = 0 then Outcome.panicked "index out of range"
      else if data.length ≤ 12 then Outcome.returned (sampleQueryData, some "short buffer")
      else Outcome.returned (sampleQueryData, none)
    Len := fun _ => 29 }

/-- A query between two equal addresses, which sampleEnv classifies as an
internal call. -/
def sampleInternalQuery : dnsMessage :=
  { sampleQuery with tuple := { sampleQueryIPPort with DstIP := sampleQueryIPPort.SrcIP } }

/-- The initial state with dropDecodedPacket set. -/
def sampleStateDropping : State :=
  { sampleState with dns := { samplePlugin with dropDecodedPacket := true } }

/-- A payload of 16 bytes numbered from 0. -/
def samplePayload : List Byte := [0, 1, 2, 3, 4, 5, 6, 7, 8, 9, 10, 11, 12, 13, 14, 15]

/-- The address field of the key as the specification words it for an IPv4
address: ten zero bytes, 0xff 0xff, then the four address bytes. -/
def specMappedIPv4 (a b c d : Byte) : List Byte :=
  [0, 0, 0, 0, 0, 0, 0, 0, 0, 0, 0xff, 0xff, a, b, c, d]

/-- The state after the sample query is received in the initial state. -/
def sampleStateAfterQuery : State :=
  recordNewRequest sampleEnv sampleState sampleQueryTuple sampleQuery false

/-- A response whose additional section holds two OPT pseudo-records. -/
def sampleTwoOPT : Msg := { sampleResponseData with Extra := [sampleOPT, sampleOPT] }

/-! ## The rendering and the agreement of the converters, as the claims word them -/

/-- The text of a value, as the verbs %s and %d print it. -/
def Value.text : Value → String
  | Value.str s => s
  | Value.int n => toString n
  | Value.uint16 n => toString n.val
  | Value.uint32 n => toString n.val

/-- The rendering of a map as the documentation of rrToString words it:
every field other than data as "key value", in ascending order of the keys,
then the data value, all separated by ", ". -/
def specRendering (m : MapStr) : String :=
  let fields := (sortStrings (m.delete "data").keys).filterMap
    (fun k => (m.get k).map (fun v => k ++ " " ++ v.text))
  match m.get "data" with
  | some d => ", ".intercalate (fields ++ [d.text])
  | none => ", ".intercalate fields

/-- The entries of a map whose values are strings. -/
def MapStr.strings (m : MapStr) : MapStr :=
  { entries := m.entries.filter
      (fun e => match e.2 with
        | Value.str _ => true
        | _ => false) }

/-- An MX record with preference 10. -/
def sampleMX : RR :=
  { Hdr := { Name := "example.com.", Rrtype := 15, Class := 1, Ttl := 300 },
    body := RData.MX 10 "mail.example.com." }

/-- A DNSKEY record. -/
def sampleDNSKEY : RR :=
  { Hdr := { Name := "example.com.", Rrtype := 48, Class := 1, Ttl := 300 },
    body := RData.DNSKEY 257 3 8 "AwEAAa" }

/-- Whether rrToMapStr stores an unsigned field (of Go type uint16 or
uint32) for the record: it does for MX, SOA and SRV. -/
def RData.hasUnsignedField : RData → Bool
  | RData.MX _ _ => true
  | RData.SOA _ _ _ _ _ _ _ => true
  | RData.SRV _ _ _ _ => true
  | _ => false

/-- The keys under which rrToMapStr stores the RDATA fields of a record; to
each corresponds the field of the answer struct of that name. -/
inductive AnswerKey where
  | data | flags | protocol | algorithm | key_tag | digest_type | preference | type_bits
  | hash | iterations | salt | type_covered | labels | original_ttl | expiration | inception
  | signer_name | rname | serial | refresh | retry | expire | minimum | priority | weight | port
deriving DecidableEq

/-- The key of the map, as rrToMapStr writes it. -/
def AnswerKey.name : AnswerKey → String
  | AnswerKey.data => "data"
  | AnswerKey.flags => "flags"
  | AnswerKey.protocol => "protocol"
  | AnswerKey.algorithm => "algorithm"
  | AnswerKey.key_tag => "key_tag"
  | AnswerKey.digest_type => "digest_type"
  | AnswerKey.preference => "preference"
  | AnswerKey.type_bits => "type_bits"
  | AnswerKey.hash => "hash"
  | AnswerKey.iterations => "iterations"
  | AnswerKey.salt => "salt"
  | AnswerKey.type_covered => "type_covered"
  | AnswerKey.labels => "labels"
  | AnswerKey.original_ttl => "original_ttl"
  | AnswerKey.expiration => "expiration"
  | AnswerKey.inception => "inception"
  | AnswerKey.signer_name => "signer_name"
  | AnswerKey.rname => "rname"
  | AnswerKey.serial => "serial"
  | AnswerKey.refresh => "refresh"
  | AnswerKey.retry => "retry"
  | AnswerKey.expire => "expire"
  | AnswerKey.minimum => "minimum"
  | AnswerKey.priority => "priority"
  | AnswerKey.weight => "weight"
  | AnswerKey.port => "port"

/-- The field of the answer struct that corresponds to a key, as a value of
its Go type. -/
def Answer.field (a : Answer) : AnswerKey → Value
  | AnswerKey.data => Value.str a.Data
  | AnswerKey.flags => Value.str a.Flags
  | AnswerKey.protocol => Value.str a.Protocol
  | AnswerKey.algorithm => Value.str a.Algorithm
  | AnswerKey.key_tag => Value.str a.KeyTag
  | AnswerKey.digest_type => Value.str a.DigestType
  | AnswerKey.preference => Value.uint16 a.Preference
  | AnswerKey.type_bits => Value.str a.TypeBits
  | AnswerKey.hash => Value.str a.Hash
  | AnswerKey.iterations => Value.str a.Iterations
  | AnswerKey.salt => Value.str a.Salt
  | AnswerKey.type_covered => Value.str a.TypeCovered
  | AnswerKey.labels => Value.str a.Labels
  | AnswerKey.original_ttl => Value.str a.OriginalTTL
  | AnswerKey.expiration => Value.str a.Expiration
  | AnswerKey.inception => Value.str a.Inception
  | AnswerKey.signer_name => Value.str a.SignerName
  | AnswerKey.rname => Value.str a.Rname
  | AnswerKey.serial => Value.uint32 a.Serial
  | AnswerKey.refresh => Value.uint32 a.Refresh
  | AnswerKey.retry => Value.uint32 a.Retry
  | AnswerKey.expire => Value.uint32 a.Expire
  | AnswerKey.minimum => Value.uint32 a.Minimum
  | AnswerKey.priority => Value.uint16 a.Priority
  | AnswerKey.weight => Value.uint16 a.Weight
  | AnswerKey.port => Value.uint16 a.Port

/-- The zero value of its Go type: the empty string, or 0. -/
def Value.isZero : Value → Bool
  | Value.str s => decide (s = "")
  | Value.int n => decide (n = 0)
  | Value.uint16 n => decide (n = 0)
  | Value.uint32 n => decide (n = 0)

/-- The agreement of the two converters at a key, as the claim words it:
the field of the answer is the value stored under the key, and is empty
when the map has no such key. -/
def agreesAt (a : Answer) (m : MapStr) (k : AnswerKey) : Prop :=
  match m.get k.name with
  | some v => a.field k = v
  | none => (a.field k).isZero = true

/-- An NSEC3PARAM record with hash algorithm 1, flags 0 and 10 iterations. -/
def sampleNSEC3PARAM : RR :=
  { Hdr := { Name := "example.com.", Rrtype := 51, Class := 1, Ttl := 300 },
    body := RData.NSEC3PARAM 1 0 10 "AABB" }

/-- The data of the first fragment of a datagram of 65496 bytes. -/
def sampleOversizeData1 : List Byte := List.replicate 65488 0

/-- The data of the last fragment of a datagram of 65496 bytes. -/
def sampleOversizeData2 : List Byte := List.replicate 8 0

/-- The first fragment of a datagram of 65496 bytes from fe80::1 to fe80::2:
protocol 17 after the Fragment header, offset 0, the M bit set,
identification 7, and 65488 bytes of data. -/
def sampleOversizeFrag1 : IPv6 :=
  { SrcIP := [0xfe, 0x80, 0, 0, 0, 0, 0, 0, 0, 0, 0, 0, 0, 0, 0, 1]
    DstIP := [0xfe, 0x80, 0, 0, 0, 0, 0, 0, 0, 0, 0, 0, 0, 0, 0, 2]
    NextHeader := 44
    Length := 65496
    Payload := [17, 0, 0, 1, 0, 0, 0, 7] ++ sampleOversizeData1 }

/-- The last fragment of the same datagram: offset 65488 (the field 0xffd0),
the M bit clear, and 8 bytes of data. -/
def sampleOversizeFrag2 : IPv6 :=
  { SrcIP := [0xfe, 0x80, 0, 0, 0, 0, 0, 0, 0, 0, 0, 0, 0, 0, 0, 1]
    DstIP := [0xfe, 0x80, 0, 0, 0, 0, 0, 0, 0, 0, 0, 0, 0, 0, 0, 2]
    NextHeader := 44
    Length := 16
    Payload := [17, 0, 0xff, 0xd0, 0, 0, 0, 7] ++ sampleOversizeData2 }

/-! ## Shape of the stored entries -/

/-- The shape of an entry that the correlator stores under key k: the
transaction is keyed by its own tuple, holds its request and no response,
and its timestamp is that of its request. -/
def StoredEntry (k : hashableDNSTuple) (t : dnsTransaction) : Prop :=
  t.tuple.hashable = k ∧ t.response = none ∧ ∃ r, t.request = some r ∧ t.ts = r.ts

/-- Every entry of the transaction map has the shape of a stored entry. -/
def State.WellKeyed (s : State) : Prop :=
  ∀ k t, s.getTransaction k = some t → StoredEntry k t

/-- The states of the correlator that a run reaches: the start is any state
whose transaction map is empty, and a step is a call of receivedDNSRequest
that returns, a call of receivedDNSResponse, or the expiry of a key. -/
inductive Reachable (env : Env) : State → Prop where
  | start (s : State) (h : s.dns.transactions = Cache.empty) : Reachable env s
  | request (s s1 : State) (tuple : dnsTuple) (msg : dnsMessage) (h : Reachable env s)
      (hstep : receivedDNSRequest env s tuple msg = some s1) : Reachable env s1
  | response (s : State) (tuple : dnsTuple) (msg : dnsMessage) (h : Reachable env s) :
      Reachable env (receivedDNSResponse env s tuple msg)
  | expiry (s : State) (k : hashableDNSTuple) (h : Reachable env s) :
      Reachable env (expireKey env s k).1

/-! ## The cache -/

@[simp] theorem Cache.Get_Put_self (c : Cache) (k : hashableDNSTuple) (v : dnsTransaction) :
    (c.Put k v).Get k = some v := by
  simp [Cache.Get, Cache.Put]

theorem Cache.Get_Put_of_ne (c : Cache) (k k2 : hashableDNSTuple) (v : dnsTransaction)
    (h : k2 ≠ k) : (c.Put k v).Get k2 = c.Get k2 := by
  simp [Cache.Get, Cache.Put, h]

@[simp] theorem Cache.Get_Delete_self (c : Cache) (k : hashableDNSTuple) :
    (c.Delete k).Get k = none := by
  simp [Cache.Get, Cache.Delete]

theorem Cache.Get_Delete_of_ne (c : Cache) (k k2 : hashableDNSTuple) (h : k2 ≠ k) :
    (c.Delete k).Get k2 = c.Get k2 := by
  simp [Cache.Get, Cache.Delete, h]

/-- Removing a key that has no entry leaves the cache as it was. -/
theorem Cache.Delete_of_Get_none (c : Cache) (k : hashableDNSTuple) (h : c.Get k = none) :
    c.Delete k = c := by
  funext k2
  by_cases hk : k2 = k
  · subst hk
    simpa [Cache.Delete, Cache.Get] using h.symm
  · simp [Cache.Delete, hk]

/-! ## publishTransaction -/

/-- The only effect of publishTransaction is to push at most one record,
the one built from the transaction. -/
theorem publishTransaction_cases (env : Env) (s : State) (t : dnsTransaction) (isDrop : Bool) :
    publishTransaction env s t isDrop = s ∨
    publishTransaction env s t isDrop =
      { s with records := s.records ++
          [(buildRecord env s.dns.includeAuthorities s.dns.includeAdditionals t).1] } := by
  simp only [publishTransaction]
  split_ifs <;> simp

theorem publishTransaction_dns (env : Env) (s : State) (t : dnsTransaction) (isDrop : Bool) :
    (publishTransaction env s t isDrop).dns = s.dns := by
  rcases publishTransaction_cases env s t isDrop with h | h <;> rw [h]

theorem publishTransaction_unmatchedResponses (env : Env) (s : State) (t : dnsTransaction)
    (isDrop : Bool) :
    (publishTransaction env s t isDrop).unmatchedResponses = s.unmatchedResponses := by
  rcases publishTransaction_cases env s t isDrop with h | h <;> rw [h]

theorem publishTransaction_queries (env : Env) (s : State) (t : dnsTransaction)
    (isDrop : Bool) :
    (publishTransaction env s t isDrop).queries = s.queries := by
  rcases publishTransaction_cases env s t isDrop with h | h <;> rw [h]

/-- With isDrop set, publishTransaction pushes nothing. -/
theorem publishTransaction_drop (env : Env) (s : State) (t : dnsTransaction) :
    publishTransaction env s t true = s := by
  simp only [publishTransaction]
  split_ifs <;> simp_all

/-- A transaction with a request and no response is never pushed. -/
theorem publishTransaction_request_only (env : Env) (s : State) (t : dnsTransaction)
    (isDrop : Bool) (request : dnsMessage) (hreq : t.request = some request)
    (hresp : t.response = none) : publishTransaction env s t isDrop = s := by
  have h2 : (buildRecord env s.dns.includeAuthorities s.dns.includeAdditionals t).2 = false := by
    simp [buildRecord, hreq, hresp]
  unfold publishTransaction
  simp [h2]

/-- A transaction with both sides is pushed when a reporter is set, nothing
is dropped and isDrop is off. -/
theorem publishTransaction_both (env : Env) (s : State) (t : dnsTransaction)
    (request response : dnsMessage) (hreq : t.request = some request)
    (hresp : t.response = some response) (hres : s.dns.results = true)
    (hdrop : s.dns.dropDecodedPacket = false) :
    publishTransaction env s t false =
      { s with records := s.records ++
          [(buildRecord env s.dns.includeAuthorities s.dns.includeAdditionals t).1] } := by
  have h2 : (buildRecord env s.dns.includeAuthorities s.dns.includeAdditionals t).2 = true := by
    simp [buildRecord, hreq, hresp]
  unfold publishTransaction
  simp [h2, hres, hdrop]

/-! ## The tuple and its keys -/

theorem length_sixteen {α : Type} (l : List α) (h : l.length = 16) :
    ∃ a0 a1 a2 a3 a4 a5 a6 a7 a8 a9 a10 a11 a12 a13 a14 a15,
      l = [a0, a1, a2, a3, a4, a5, a6, a7, a8, a9, a10, a11, a12, a13, a14, a15] := by
  match l, h with
  | [a0, a1, a2, a3, a4, a5, a6, a7, a8, a9, a10, a11, a12, a13, a14, a15], _ =>
    exact ⟨a0, a1, a2, a3, a4, a5, a6, a7, a8, a9, a10, a11, a12, a13, a14, a15, rfl⟩

theorem byte_val (b : Byte) : byte b.val = b :=
  Fin.ext (Nat.mod_eq_of_lt b.isLt)

/-- The layout of the key for 16-byte addresses: 41 bytes, with a zero byte
between the DNS id and the transport and another after the transport. -/
theorem hashable_layout (p : IPPortTuple) (tr : transport) (id : UInt16)
    (hs : p.SrcIP.length = 16) (hd : p.DstIP.length = 16) :
    (dnsTupleFromIPPort p tr id).hashable =
      p.SrcIP ++ [byte (p.SrcPort.val >>> 8), byte p.SrcPort.val] ++ p.DstIP ++
        [byte (p.DstPort.val >>> 8), byte p.DstPort.val] ++
        [byte (id.val >>> 8), byte id.val] ++ [0, tr, 0] := by
  obtain ⟨a0, a1, a2, a3, a4, a5, a6, a7, a8, a9, a10, a11, a12, a13, a14, a15, hS⟩ :=
    length_sixteen _ hs
  obtain ⟨b0, b1, b2, b3, b4, b5, b6, b7, b8, b9, b10, b11, b12, b13, b14, b15, hD⟩ :=
    length_sixteen _ hd
  cases p
  simp only at hS hD
  subst hS hD
  simp [dnsTupleFromIPPort, dnsTuple.computeHashables, dnsTuple.hashable, copySlice, zeroHashable,
    maxDNSTupleRawSize, List.replicate, byte_val]

/-- A 16-bit value is determined by its two bytes. -/
theorem uint16_of_bytes (a b : UInt16) (hhi : byte (a.val >>> 8) = byte (b.val >>> 8))
    (hlo : byte a.val = byte b.val) : a = b := by
  have h1 : (a.val >>> 8) % 256 = (b.val >>> 8) % 256 := congrArg Fin.val hhi
  have h2 : a.val % 256 = b.val % 256 := congrArg Fin.val hlo
  have ha := a.isLt
  have hb := b.isLt
  simp only [Nat.shiftRight_eq_div_pow] at h1
  apply Fin.ext
  omega

/-- Among tuples with 16-byte addresses the key identifies the tuple. -/
theorem hashable_injective_sixteen (p q : IPPortTuple) (tr tr2 : transport) (id id2 : UInt16)
    (hps : p.SrcIP.length = 16) (hpd : p.DstIP.length = 16)
    (hqs : q.SrcIP.length = 16) (hqd : q.DstIP.length = 16)
    (h : (dnsTupleFromIPPort p tr id).hashable = (dnsTupleFromIPPort q tr2 id2).hashable) :
    p.SrcIP = q.SrcIP ∧ p.SrcPort = q.SrcPort ∧ p.DstIP = q.DstIP ∧ p.DstPort = q.DstPort ∧
      tr = tr2 ∧ id = id2 := by
  rw [hashable_layout p tr id hps hpd, hashable_layout q tr2 id2 hqs hqd] at h
  simp only [List.append_assoc] at h
  obtain ⟨h1, h⟩ := List.append_inj h (by rw [hps, hqs])
  simp only [List.cons_append, List.nil_append, List.cons.injEq] at h
  obtain ⟨h2, h3, h⟩ := h
  obtain ⟨h4, h⟩ := List.append_inj h (by rw [hpd, hqd])
  simp only [List.cons.injEq, and_true] at h
  obtain ⟨h5, h6, h7, h8, h9⟩ := h
  exact ⟨h1, uint16_of_bytes _ _ h2 h3, h4, uint16_of_bytes _ _ h5 h6, h9.2,
    uint16_of_bytes _ _ h7 h8⟩

/-! ## Claims on the tuple -/

/-- C2, as stated, fails: for the sample IPv6 flow the key is not the 39-byte
concatenation of the specification (it has 41 bytes). -/
theorem C2_key_is_not_the_39_byte_concatenation :
    sampleQueryIPPort.SrcIP.length = 16 ∧ sampleQueryIPPort.DstIP.length = 16 ∧
    (dnsTupleFromIPPort sampleQueryIPPort transportUDP 0x0100).hashable ≠
      specCanonical sampleQueryIPPort transportUDP 0x0100 ∧
    (dnsTupleFromIPPort sampleQueryIPPort transportUDP 0x0100).hashable.length = 41 := by
  decide

/-- C2, amended: for every tuple built by dnsTupleFromIPPort from 16-byte
addresses, hashable() is the 41-byte sequence src_addr (16 bytes), src_port
(2 bytes big-endian), dst_addr (16 bytes), dst_port (2 bytes big-endian),
dns_id (2 bytes big-endian), one zero byte, transport (1 byte), one zero
byte. -/
theorem C2_key_layout (p : IPPortTuple) (tr : transport) (id : UInt16)
    (hs : p.SrcIP.length = 16) (hd : p.DstIP.length = 16) :
    (dnsTupleFromIPPort p tr id).hashable =
      p.SrcIP ++ [byte (p.SrcPort.val >>> 8), byte p.SrcPort.val] ++ p.DstIP ++
        [byte (p.DstPort.val >>> 8), byte p.DstPort.val] ++
        [byte (id.val >>> 8), byte id.val] ++ [0] ++ [tr] ++ [0] ∧
    (dnsTupleFromIPPort p tr id).hashable.length = 41 := by
  have h := hashable_layout p tr id hs hd
  refine ⟨by simpa using h, ?_⟩
  rw [h]
  simp [hs, hd]

theorem C2_key_layout_witness :
    sampleQueryIPPort.SrcIP.length = 16 ∧ sampleQueryIPPort.DstIP.length = 16 ∧
    ((dnsTupleFromIPPort sampleQueryIPPort transportUDP 0x0100).hashable =
      sampleQueryIPPort.SrcIP ++
        [byte (sampleQueryIPPort.SrcPort.val >>> 8), byte sampleQueryIPPort.SrcPort.val] ++
        sampleQueryIPPort.DstIP ++
        [byte (sampleQueryIPPort.DstPort.val >>> 8), byte sampleQueryIPPort.DstPort.val] ++
        [byte ((0x0100 : UInt16).val >>> 8), byte (0x0100 : UInt16).val] ++ [0] ++
        [transportUDP] ++ [0] ∧
    (dnsTupleFromIPPort sampleQueryIPPort transportUDP 0x0100).hashable.length = 41) :=
  ⟨by decide, by decide,
    C2_key_layout sampleQueryIPPort transportUDP 0x0100 (by decide) (by decide)⟩

/-- C3: reversing the tuple built from p gives, field by field, the tuple
built from p with source and destination exchanged; hence the reversed key
of a response tuple is the forward key of the request tuple it answers. -/
theorem C3_reverse_is_tuple_of_swapped (p : IPPortTuple) (tr : transport) (id : UInt16) :
    (dnsTupleFromIPPort p tr id).reverse = dnsTupleFromIPPort p.swapped tr id ∧
    (dnsTupleFromIPPort p.swapped tr id).revHashable = (dnsTupleFromIPPort p tr id).hashable := by
  constructor
  · simp only [dnsTupleFromIPPort, dnsTuple.computeHashables, dnsTuple.reverse,
      IPPortTuple.swapped]
  · simp only [dnsTupleFromIPPort, dnsTuple.computeHashables, dnsTuple.revHashable,
      dnsTuple.hashable, IPPortTuple.swapped]

/-- C4, at the failing input: the IPv4 flow 10.0.0.1:40000 to 10.0.0.2:53 and
the IPv6 flow a00:1:: port 40000 to a00:2:: port 53 (same transport and id)
have different addresses and the same key. -/
theorem C4_ipv4_and_ipv6_tuples_share_a_key :
    (dnsTupleFromIPPort sampleIPv4 transportUDP 0x0100).hashable =
      (dnsTupleFromIPPort sampleIPv6Colliding transportUDP 0x0100).hashable ∧
    sampleIPv4.SrcIP ≠ sampleIPv6Colliding.SrcIP ∧
    sampleIPv4.DstIP ≠ sampleIPv6Colliding.DstIP := by
  decide

/-! ## The correlator -/

theorem getTransaction_putTransaction_self (s : State) (k : hashableDNSTuple)
    (t : dnsTransaction) : (s.putTransaction k t).getTransaction k = some t := by
  simp [State.getTransaction, State.putTransaction]

theorem getTransaction_putTransaction_of_ne (s : State) (k k2 : hashableDNSTuple)
    (t : dnsTransaction) (h : k2 ≠ k) :
    (s.putTransaction k t).getTransaction k2 = s.getTransaction k2 := by
  simp [State.getTransaction, State.putTransaction, Cache.Get_Put_of_ne _ _ _ _ h]

theorem getTransaction_deleteTransaction_self (s : State) (k : hashableDNSTuple) :
    (s.deleteTransaction k).getTransaction k = none := by
  simp [State.getTransaction, State.deleteTransaction]

theorem getTransaction_deleteTransaction_of_ne (s : State) (k k2 : hashableDNSTuple)
    (h : k2 ≠ k) : (s.deleteTransaction k).getTransaction k2 = s.getTransaction k2 := by
  simp [State.getTransaction, State.deleteTransaction, Cache.Get_Delete_of_ne _ _ _ h]

theorem getTransaction_publishTransaction (env : Env) (s : State) (t : dnsTransaction)
    (isDrop : Bool) (k : hashableDNSTuple) :
    (publishTransaction env s t isDrop).getTransaction k = s.getTransaction k := by
  simp [State.getTransaction, publishTransaction_dns]

/-- The transaction created for a query holds the query as its request, no
response, the timestamp and the tuple of the query, and no duplicate note. -/
theorem requestTransaction_fields (env : Env) (tuple : dnsTuple) (msg : dnsMessage) :
    (requestTransaction env tuple msg).request = some msg ∧
    (requestTransaction env tuple msg).response = none ∧
    (requestTransaction env tuple msg).ts = msg.ts ∧
    (requestTransaction env tuple msg).tuple = tuple ∧
    duplicateQueryMsg ∉ (requestTransaction env tuple msg).notes := by
  unfold requestTransaction newTransaction
  split_ifs <;> simp [duplicateQueryMsg, udpPacketTooLarge]

theorem recordNewRequest_getTransaction_self (env : Env) (s : State) (tuple : dnsTuple)
    (msg : dnsMessage) (d : Bool) :
    (recordNewRequest env s tuple msg d).getTransaction tuple.hashable =
      some (requestTransaction env tuple msg) := by
  simp [recordNewRequest, State.getTransaction, State.putTransaction]

theorem recordNewRequest_getTransaction_of_ne (env : Env) (s : State) (tuple : dnsTuple)
    (msg : dnsMessage) (d : Bool) (k : hashableDNSTuple) (h : k ≠ tuple.hashable) :
    (recordNewRequest env s tuple msg d).getTransaction k = s.getTransaction k := by
  simp [recordNewRequest, State.getTransaction, State.putTransaction,
    Cache.Get_Put_of_ne _ _ _ _ h]

theorem recordNewRequest_records (env : Env) (s : State) (tuple : dnsTuple)
    (msg : dnsMessage) (d : Bool) :
    (recordNewRequest env s tuple msg d).records = s.records := by
  simp [recordNewRequest, State.putTransaction]

theorem recordNewRequest_queries (env : Env) (s : State) (tuple : dnsTuple)
    (msg : dnsMessage) (d : Bool) :
    (recordNewRequest env s tuple msg d).queries = s.queries ++
      [{ SrcIP := env.ipString msg.tuple.SrcIP, DstIP := env.ipString msg.tuple.DstIP,
         IsDuplicated := d }] := by
  simp [recordNewRequest, State.putTransaction]

theorem recordNewRequest_config (env : Env) (s : State) (tuple : dnsTuple)
    (msg : dnsMessage) (d : Bool) :
    (recordNewRequest env s tuple msg d).dns.results = s.dns.results ∧
    (recordNewRequest env s tuple msg d).dns.dropDecodedPacket = s.dns.dropDecodedPacket ∧
    (recordNewRequest env s tuple msg d).dns.includeAuthorities = s.dns.includeAuthorities ∧
    (recordNewRequest env s tuple msg d).dns.includeAdditionals = s.dns.includeAdditionals := by
  simp [recordNewRequest, State.putTransaction]

/-- A query whose key has no entry is recorded as a new request. -/
theorem receivedDNSRequest_of_absent (env : Env) (s : State) (tuple : dnsTuple)
    (msg : dnsMessage)
    (hint : env.IsInternalCall (env.ipString msg.tuple.SrcIP) (env.ipString msg.tuple.DstIP)
      = false)
    (hnone : s.getTransaction tuple.hashable = none) :
    receivedDNSRequest env s tuple msg = some (recordNewRequest env s tuple msg false) := by
  simp [receivedDNSRequest, hint, hnone]

/-- A query with the timestamp of the stored request puts the stored
transaction back, with the duplicate note appended. -/
theorem receivedDNSRequest_of_same_ts (env : Env) (s : State) (tuple : dnsTuple)
    (msg : dnsMessage) (stored : dnsTransaction) (request : dnsMessage)
    (hint : env.IsInternalCall (env.ipString msg.tuple.SrcIP) (env.ipString msg.tuple.DstIP)
      = false)
    (hst : s.getTransaction tuple.hashable = some stored)
    (hreq : stored.request = some request) (hts : request.ts = msg.ts) :
    receivedDNSRequest env s tuple msg =
      some ((s.deleteTransaction tuple.hashable).putTransaction tuple.hashable
        { stored with notes := stored.notes ++ [duplicateQueryMsg] }) := by
  simp [receivedDNSRequest, hint, hst, hreq, hts]

/-- A query whose key holds a request of another timestamp closes the stored
transaction and records the new one. -/
theorem receivedDNSRequest_of_other_ts (env : Env) (s : State) (tuple : dnsTuple)
    (msg : dnsMessage) (stored : dnsTransaction) (request : dnsMessage)
    (hint : env.IsInternalCall (env.ipString msg.tuple.SrcIP) (env.ipString msg.tuple.DstIP)
      = false)
    (hst : s.getTransaction tuple.hashable = some stored)
    (hreq : stored.request = some request) (hts : request.ts ≠ msg.ts) :
    receivedDNSRequest env s tuple msg =
      some (recordNewRequest env
        ((publishTransaction env (s.deleteTransaction tuple.hashable)
          { stored with notes := stored.notes ++ [duplicateQueryMsg] } false).deleteTransaction
            stored.tuple.hashable)
        tuple msg (decide (request.data.Question = msg.data.Question))) := by
  simp [receivedDNSRequest, hint, hst, hreq, hts]

/-- A response whose reversed key holds a transaction with a request: the
transaction is updated in the cache, published with isDrop off, and removed
by its own key. -/
theorem receivedDNSResponse_of_found (env : Env) (s : State) (tuple : dnsTuple)
    (msg : dnsMessage) (stored : dnsTransaction) (request : dnsMessage)
    (hint : env.IsInternalCall (env.ipString msg.tuple.SrcIP) (env.ipString msg.tuple.DstIP)
      = false)
    (hst : s.getTransaction tuple.revHashable = some stored)
    (hreq : stored.request = some request) :
    receivedDNSResponse env s tuple msg =
      (publishTransaction env
        { s.putTransaction tuple.revHashable (respondedTransaction env (some stored) tuple msg) with
          recursiveMsgs := s.recursiveMsgs ++
            [{ SrcIP := stored.src.IP, DstIP := stored.dst.IP, id := tuple.id,
               question := request.data.Question, response := msg.data }] }
        (respondedTransaction env (some stored) tuple msg) false).deleteTransaction
          stored.tuple.hashable := by
  have hr : (respondedTransaction env (some stored) tuple msg).request = some request := by
    simp [respondedTransaction, hreq]
  have hk : (respondedTransaction env (some stored) tuple msg).tuple = stored.tuple := by
    simp [respondedTransaction]
  have hsrc : (respondedTransaction env (some stored) tuple msg).src = stored.src := by
    simp [respondedTransaction]
  have hdst : (respondedTransaction env (some stored) tuple msg).dst = stored.dst := by
    simp [respondedTransaction]
  simp [receivedDNSResponse, hint, hst, hr, hk, hsrc, hdst, State.putTransaction]

/-- A response whose reversed key has no entry: the counter is incremented,
the orphan transaction is published with isDrop on, and the (absent) entry
under the reversed key is removed. -/
theorem receivedDNSResponse_of_absent (env : Env) (s : State) (tuple : dnsTuple)
    (msg : dnsMessage)
    (hint : env.IsInternalCall (env.ipString msg.tuple.SrcIP) (env.ipString msg.tuple.DstIP)
      = false)
    (hnone : s.getTransaction tuple.revHashable = none) :
    receivedDNSResponse env s tuple msg =
      (publishTransaction env { s with unmatchedResponses := s.unmatchedResponses + 1 }
        (respondedTransaction env none tuple msg) true).deleteTransaction tuple.revHashable := by
  have hr : (respondedTransaction env none tuple msg).request = none := by
    simp [respondedTransaction, newTransaction]
  have hk : (respondedTransaction env none tuple msg).tuple.hashable = tuple.revHashable := by
    simp [respondedTransaction, newTransaction, dnsTuple.reverse, dnsTuple.hashable,
      dnsTuple.revHashable]
  simp [receivedDNSResponse, hint, hnone, hr, hk]

/-- The notes of the record are the notes of the transaction joined by spaces. -/
theorem buildRecord_Notes (env : Env) (a b : Bool) (t : dnsTransaction) :
    (buildRecord env a b t).1.Notes = stringsJoin t.notes " " := by
  obtain ⟨ts, tuple, rt, src, dst, tr, notes, request, response⟩ := t
  unfold buildRecord
  rcases notes with _ | ⟨x, _ | ⟨y, l⟩⟩ <;> cases request <;> cases response <;>
    simp only [stringsJoin, String.intercalate, String.intercalate.go, List.length_nil,
      List.length_cons, List.headD_cons] <;>
    (repeat' split) <;> simp_all

/-- The byte counts of the record of a transaction with both sides. -/
theorem buildRecord_both_bytes (env : Env) (a b : Bool) (t : dnsTransaction)
    (request response : dnsMessage) (hreq : t.request = some request)
    (hresp : t.response = some response) :
    (buildRecord env a b t).1.BytesIn = request.length ∧
    (buildRecord env a b t).1.BytesOut = response.length := by
  obtain ⟨ts, tuple, rt, src, dst, tr, notes, req0, resp0⟩ := t
  simp only at hreq hresp
  subst hreq hresp
  unfold buildRecord
  constructor <;> simp only [] <;> (repeat' split) <;> simp_all

/-- The record of a transaction without a request has status Error. -/
theorem buildRecord_Status_of_no_request (env : Env) (a b : Bool) (t : dnsTransaction)
    (hreq : t.request = none) : (buildRecord env a b t).1.Status = ERROR_STATUS := by
  obtain ⟨ts, tuple, rt, src, dst, tr, notes, req0, resp0⟩ := t
  simp only at hreq
  subst hreq
  unfold buildRecord
  simp only []
  (repeat' split) <;> simp_all

/-! ## The stored entries keep their shape -/

theorem WellKeyed_of_empty (s : State) (h : s.dns.transactions = Cache.empty) : s.WellKeyed := by
  intro k t ht
  simp [State.getTransaction, Cache.Get, h, Cache.empty] at ht

theorem WellKeyed_deleteTransaction (s : State) (k0 : hashableDNSTuple) (h : s.WellKeyed) :
    (s.deleteTransaction k0).WellKeyed := by
  intro k t ht
  by_cases hk : k = k0
  · subst hk
    rw [getTransaction_deleteTransaction_self] at ht
    cases ht
  · rw [getTransaction_deleteTransaction_of_ne _ _ _ hk] at ht
    exact h k t ht

theorem WellKeyed_putTransaction (s : State) (k0 : hashableDNSTuple) (t0 : dnsTransaction)
    (h : s.WellKeyed) (h0 : StoredEntry k0 t0) : (s.putTransaction k0 t0).WellKeyed := by
  intro k t ht
  by_cases hk : k = k0
  · subst hk
    rw [getTransaction_putTransaction_self] at ht
    cases ht
    exact h0
  · rw [getTransaction_putTransaction_of_ne _ _ _ _ hk] at ht
    exact h k t ht

theorem WellKeyed_publishTransaction (env : Env) (s : State) (t : dnsTransaction)
    (isDrop : Bool) (h : s.WellKeyed) : (publishTransaction env s t isDrop).WellKeyed := by
  intro k t0 ht
  rw [getTransaction_publishTransaction] at ht
  exact h k t0 ht

theorem WellKeyed_recordNewRequest (env : Env) (s : State) (tuple : dnsTuple)
    (msg : dnsMessage) (d : Bool) (h : s.WellKeyed) :
    (recordNewRequest env s tuple msg d).WellKeyed := by
  obtain ⟨hq1, hq2, hq3, hq4, _⟩ := requestTransaction_fields env tuple msg
  intro k t ht
  by_cases hk : k = tuple.hashable
  · subst hk
    rw [recordNewRequest_getTransaction_self] at ht
    cases ht
    exact ⟨by rw [hq4], hq2, msg, hq1, hq3⟩
  · rw [recordNewRequest_getTransaction_of_ne _ _ _ _ _ k hk] at ht
    exact h k t ht

/-- From a state whose entries have the stored shape, receivedDNSRequest
returns (it dereferences no nil request) and the entries of the resulting
state have the stored shape. -/
theorem receivedDNSRequest_WellKeyed (env : Env) (s : State) (tuple : dnsTuple)
    (msg : dnsMessage) (h : s.WellKeyed) :
    ∃ s1, receivedDNSRequest env s tuple msg = some s1 ∧ s1.WellKeyed := by
  cases hint : env.IsInternalCall (env.ipString msg.tuple.SrcIP) (env.ipString msg.tuple.DstIP) with
  | true => exact ⟨s, by simp [receivedDNSRequest, hint], h⟩
  | false =>
    cases hst : s.getTransaction tuple.hashable with
    | none =>
      exact ⟨_, receivedDNSRequest_of_absent env s tuple msg hint hst,
        WellKeyed_recordNewRequest env s tuple msg false h⟩
    | some stored =>
      obtain ⟨hk0, hresp, r, hr, htsr⟩ := h _ _ hst
      by_cases hts : r.ts = msg.ts
      · refine ⟨_, receivedDNSRequest_of_same_ts env s tuple msg stored r hint hst hr hts, ?_⟩
        exact WellKeyed_putTransaction _ _ _ (WellKeyed_deleteTransaction _ _ h)
          ⟨hk0, hresp, r, hr, htsr⟩
      · refine ⟨_, receivedDNSRequest_of_other_ts env s tuple msg stored r hint hst hr hts, ?_⟩
        exact WellKeyed_recordNewRequest _ _ _ _ _
          (WellKeyed_deleteTransaction _ _
            (WellKeyed_publishTransaction _ _ _ _ (WellKeyed_deleteTransaction _ _ h)))

/-- The entries keep the stored shape across receivedDNSResponse: the matched
transaction, which now holds a response, is removed by its own key. -/
theorem receivedDNSResponse_WellKeyed (env : Env) (s : State) (tuple : dnsTuple)
    (msg : dnsMessage) (h : s.WellKeyed) : (receivedDNSResponse env s tuple msg).WellKeyed := by
  cases hint : env.IsInternalCall (env.ipString msg.tuple.SrcIP) (env.ipString msg.tuple.DstIP) with
  | true => simpa [receivedDNSResponse, hint] using h
  | false =>
    cases hst : s.getTransaction tuple.revHashable with
    | none =>
      rw [receivedDNSResponse_of_absent env s tuple msg hint hst, publishTransaction_drop]
      exact WellKeyed_deleteTransaction _ _ (fun k t ht => h k t ht)
    | some stored =>
      obtain ⟨hk0, _, r, hr, _⟩ := h _ _ hst
      rw [receivedDNSResponse_of_found env s tuple msg stored r hint hst hr, hk0]
      intro k t ht
      by_cases hk : k = tuple.revHashable
      · subst hk
        rw [getTransaction_deleteTransaction_self] at ht
        cases ht
      · rw [getTransaction_deleteTransaction_of_ne _ _ _ hk, getTransaction_publishTransaction] at ht
        have ht2 : s.getTransaction k = some t := by
          rw [← ht]
          simp [State.getTransaction, State.putTransaction, Cache.Get_Put_of_ne _ _ _ _ hk]
        exact h k t ht2

/-! ## Claims on the correlator -/

/-- C1: a request whose key is free, followed by a response whose reversed
key is the request key (no endpoint internal, reporter set, nothing
dropped): the request pushes no record, the response pushes exactly one,
built from a transaction holding both messages, with bytes_in the request
length and bytes_out the response length; afterwards the request key has no
entry in the transaction map. -/
theorem C1_request_then_response_publishes_once (env : Env) (s : State)
    (reqTuple respTuple : dnsTuple) (req resp : dnsMessage)
    (hkey : respTuple.revHashable = reqTuple.hashable)
    (hreqInt : env.IsInternalCall (env.ipString req.tuple.SrcIP) (env.ipString req.tuple.DstIP)
      = false)
    (hrespInt : env.IsInternalCall (env.ipString resp.tuple.SrcIP)
      (env.ipString resp.tuple.DstIP) = false)
    (hres : s.dns.results = true) (hdrop : s.dns.dropDecodedPacket = false)
    (hfree : s.getTransaction reqTuple.hashable = none) :
    ∃ s1 t, receivedDNSRequest env s reqTuple req = some s1 ∧
      s1.records = s.records ∧
      t.request = some req ∧ t.response = some resp ∧
      (receivedDNSResponse env s1 respTuple resp).records =
        s.records ++ [(buildRecord env s.dns.includeAuthorities s.dns.includeAdditionals t).1] ∧
      (buildRecord env s.dns.includeAuthorities s.dns.includeAdditionals t).1.BytesIn
        = req.length ∧
      (buildRecord env s.dns.includeAuthorities s.dns.includeAdditionals t).1.BytesOut
        = resp.length ∧
      (receivedDNSResponse env s1 respTuple resp).getTransaction reqTuple.hashable = none := by
  obtain ⟨hq1, hq2, _, hq4, _⟩ := requestTransaction_fields env reqTuple req
  obtain ⟨hc1, hc2, hc3, hc4⟩ := recordNewRequest_config env s reqTuple req false
  have hget : (recordNewRequest env s reqTuple req false).getTransaction respTuple.revHashable =
      some (requestTransaction env reqTuple req) := by
    rw [hkey]
    exact recordNewRequest_getTransaction_self env s reqTuple req false
  have htr : (respondedTransaction env (some (requestTransaction env reqTuple req)) respTuple
      resp).request = some req := by
    simp [respondedTransaction, hq1]
  have htp : (respondedTransaction env (some (requestTransaction env reqTuple req)) respTuple
      resp).response = some resp := by
    simp [respondedTransaction]
  refine ⟨recordNewRequest env s reqTuple req false,
    respondedTransaction env (some (requestTransaction env reqTuple req)) respTuple resp,
    receivedDNSRequest_of_absent env s reqTuple req hreqInt hfree,
    recordNewRequest_records env s reqTuple req false, htr, htp, ?_, ?_, ?_, ?_⟩
  · rw [receivedDNSResponse_of_found env _ respTuple resp _ req hrespInt hget hq1]
    rw [publishTransaction_both env _ _ req resp htr htp
      (by simpa [State.putTransaction] using hc1.trans hres)
      (by simpa [State.putTransaction] using hc2.trans hdrop)]
    simp [State.deleteTransaction, State.putTransaction, hc3, hc4,
      recordNewRequest_records env s reqTuple req false]
  · exact (buildRecord_both_bytes env _ _ _ req resp htr htp).1
  · exact (buildRecord_both_bytes env _ _ _ req resp htr htp).2
  · rw [receivedDNSResponse_of_found env _ respTuple resp _ req hrespInt hget hq1, hq4]
    exact getTransaction_deleteTransaction_self _ _

theorem C1_request_then_response_publishes_once_witness :
    sampleResponseTuple.revHashable = sampleQueryTuple.hashable ∧
    sampleEnv.IsInternalCall (sampleEnv.ipString sampleQuery.tuple.SrcIP)
      (sampleEnv.ipString sampleQuery.tuple.DstIP) = false ∧
    sampleEnv.IsInternalCall (sampleEnv.ipString sampleResponse.tuple.SrcIP)
      (sampleEnv.ipString sampleResponse.tuple.DstIP) = false ∧
    sampleState.dns.results = true ∧ sampleState.dns.dropDecodedPacket = false ∧
    sampleState.getTransaction sampleQueryTuple.hashable = none ∧
    ∃ s1 t, receivedDNSRequest sampleEnv sampleState sampleQueryTuple sampleQuery = some s1 ∧
      s1.records = sampleState.records ∧
      t.request = some sampleQuery ∧ t.response = some sampleResponse ∧
      (receivedDNSResponse sampleEnv s1 sampleResponseTuple sampleResponse).records =
        sampleState.records ++ [(buildRecord sampleEnv sampleState.dns.includeAuthorities
          sampleState.dns.includeAdditionals t).1] ∧
      (buildRecord sampleEnv sampleState.dns.includeAuthorities
        sampleState.dns.includeAdditionals t).1.BytesIn = sampleQuery.length ∧
      (buildRecord sampleEnv sampleState.dns.includeAuthorities
        sampleState.dns.includeAdditionals t).1.BytesOut = sampleResponse.length ∧
      (receivedDNSResponse sampleEnv s1 sampleResponseTuple sampleResponse).getTransaction
        sampleQueryTuple.hashable = none :=
  ⟨by decide, by decide, by decide, rfl, rfl, rfl,
    C1_request_then_response_publishes_once sampleEnv sampleState sampleQueryTuple
      sampleResponseTuple sampleQuery sampleResponse (by decide) (by decide) (by decide) rfl rfl
      rfl⟩

/-- C5: a response whose reversed key has no entry in the transaction map
(endpoints not internal) leaves the map exactly as it was and increases the
unmatchedResponses counter by exactly 1. -/
theorem C5_orphan_response_leaves_map (env : Env) (s : State) (tuple : dnsTuple)
    (msg : dnsMessage)
    (hint : env.IsInternalCall (env.ipString msg.tuple.SrcIP) (env.ipString msg.tuple.DstIP)
      = false)
    (hnone : s.getTransaction tuple.revHashable = none) :
    (receivedDNSResponse env s tuple msg).dns.transactions = s.dns.transactions ∧
    (receivedDNSResponse env s tuple msg).unmatchedResponses = s.unmatchedResponses + 1 := by
  rw [receivedDNSResponse_of_absent env s tuple msg hint hnone, publishTransaction_drop]
  constructor
  · simpa [State.deleteTransaction] using Cache.Delete_of_Get_none _ _ hnone
  · simp [State.deleteTransaction]

theorem C5_orphan_response_leaves_map_witness :
    sampleEnv.IsInternalCall (sampleEnv.ipString sampleResponse.tuple.SrcIP)
      (sampleEnv.ipString sampleResponse.tuple.DstIP) = false ∧
    sampleState.getTransaction sampleResponseTuple.revHashable = none ∧
    (receivedDNSResponse sampleEnv sampleState sampleResponseTuple sampleResponse).dns.transactions
      = sampleState.dns.transactions ∧
    (receivedDNSResponse sampleEnv sampleState sampleResponseTuple sampleResponse).unmatchedResponses
      = sampleState.unmatchedResponses + 1 :=
  ⟨by decide, rfl,
    C5_orphan_response_leaves_map sampleEnv sampleState sampleResponseTuple sampleResponse
      (by decide) rfl⟩

/-- C6, at the failing input: sampleQuery is outstanding with no notes and is
captured a second time with the same timestamp. The transaction put back
under the key carries a duplicate_query note that the stored one did not
have (request and timestamp are the same, and no record is pushed). -/
theorem C6_same_timestamp_duplicate_gains_note :
    sampleStateOutstanding.getTransaction sampleQueryTuple.hashable = some sampleStored ∧
    sampleStored.request = some sampleQuery ∧
    sampleStored.notes = [] ∧
    ∃ s1 t1, receivedDNSRequest sampleEnv sampleStateOutstanding sampleQueryTuple sampleQuery
        = some s1 ∧
      s1.getTransaction sampleQueryTuple.hashable = some t1 ∧
      t1.notes = [duplicateQueryMsg] ∧
      t1.request = sampleStored.request ∧ t1.ts = sampleStored.ts ∧
      s1.records = sampleStateOutstanding.records := by
  have hst : sampleStateOutstanding.getTransaction sampleQueryTuple.hashable
      = some sampleStored :=
    getTransaction_putTransaction_self _ _ _
  refine ⟨hst, rfl, rfl, _, _,
    receivedDNSRequest_of_same_ts sampleEnv sampleStateOutstanding sampleQueryTuple sampleQuery
      sampleStored sampleQuery (by decide) hst rfl rfl,
    getTransaction_putTransaction_self _ _ _, rfl, rfl, rfl, rfl⟩

/-- C7: for a non-internal query that is not a same-timestamp duplicate (the
entry under its key, if any, being keyed by its own tuple and holding a
request of another timestamp, as every entry the correlator stores), the
map afterwards holds under the forward key a fresh transaction whose
request is the message, whose response is absent, whose timestamp is the
message timestamp and whose notes have no duplicate_query; the entries
under every other key are unchanged. -/
theorem C7_fresh_transaction_stored (env : Env) (s : State) (tuple : dnsTuple)
    (msg : dnsMessage)
    (hint : env.IsInternalCall (env.ipString msg.tuple.SrcIP) (env.ipString msg.tuple.DstIP)
      = false)
    (hstored : ∀ t, s.getTransaction tuple.hashable = some t →
      t.tuple.hashable = tuple.hashable ∧ ∃ r, t.request = some r ∧ r.ts ≠ msg.ts) :
    ∃ s1 tnew, receivedDNSRequest env s tuple msg = some s1 ∧
      s1.getTransaction tuple.hashable = some tnew ∧
      tnew.request = some msg ∧ tnew.response = none ∧ tnew.ts = msg.ts ∧
      duplicateQueryMsg ∉ tnew.notes ∧
      ∀ k, k ≠ tuple.hashable → s1.getTransaction k = s.getTransaction k := by
  obtain ⟨hq1, hq2, hq3, _, hq5⟩ := requestTransaction_fields env tuple msg
  cases hst : s.getTransaction tuple.hashable with
  | none =>
    exact ⟨_, _, receivedDNSRequest_of_absent env s tuple msg hint hst,
      recordNewRequest_getTransaction_self _ _ _ _ _, hq1, hq2, hq3, hq5,
      fun k hk => recordNewRequest_getTransaction_of_ne _ _ _ _ _ k hk⟩
  | some stored =>
    obtain ⟨hk0, r, hr, hts⟩ := hstored stored hst
    refine ⟨_, _, receivedDNSRequest_of_other_ts env s tuple msg stored r hint hst hr hts,
      recordNewRequest_getTransaction_self _ _ _ _ _, hq1, hq2, hq3, hq5, ?_⟩
    intro k hk
    rw [recordNewRequest_getTransaction_of_ne _ _ _ _ _ k hk, hk0,
      getTransaction_deleteTransaction_of_ne _ _ _ hk, getTransaction_publishTransaction,
      getTransaction_deleteTransaction_of_ne _ _ _ hk]

theorem C7_fresh_transaction_stored_witness :
    sampleEnv.IsInternalCall (sampleEnv.ipString sampleQueryLater.tuple.SrcIP)
      (sampleEnv.ipString sampleQueryLater.tuple.DstIP) = false ∧
    sampleStateOutstanding.getTransaction sampleQueryTuple.hashable = some sampleStored ∧
    (∀ t, sampleStateOutstanding.getTransaction sampleQueryTuple.hashable = some t →
      t.tuple.hashable = sampleQueryTuple.hashable ∧
        ∃ r, t.request = some r ∧ r.ts ≠ sampleQueryLater.ts) ∧
    ∃ s1 tnew, receivedDNSRequest sampleEnv sampleStateOutstanding sampleQueryTuple
        sampleQueryLater = some s1 ∧
      s1.getTransaction sampleQueryTuple.hashable = some tnew ∧
      tnew.request = some sampleQueryLater ∧ tnew.response = none ∧
      tnew.ts = sampleQueryLater.ts ∧ duplicateQueryMsg ∉ tnew.notes ∧
      ∀ k, k ≠ sampleQueryTuple.hashable →
        s1.getTransaction k = sampleStateOutstanding.getTransaction k :=
  have hst : sampleStateOutstanding.getTransaction sampleQueryTuple.hashable
      = some sampleStored :=
    getTransaction_putTransaction_self _ _ _
  have hall : ∀ t, sampleStateOutstanding.getTransaction sampleQueryTuple.hashable = some t →
      t.tuple.hashable = sampleQueryTuple.hashable ∧
        ∃ r, t.request = some r ∧ r.ts ≠ sampleQueryLater.ts := by
    intro t ht
    rw [hst] at ht
    cases ht
    exact ⟨rfl, sampleQuery, rfl, by decide⟩
  ⟨by decide, hst, hall,
    C7_fresh_transaction_stored sampleEnv sampleStateOutstanding sampleQueryTuple
      sampleQueryLater (by decide) hall⟩

/-- C8: for a non-internal query that is not a same-timestamp duplicate (the
entry under its key, if any, holding a request of another timestamp),
receivedDNSRequest pushes exactly one query statistic, whose duplicate flag
is true exactly when the map held under the forward key a transaction whose
request question list equals the question list of the message. -/
theorem C8_one_query_statistic (env : Env) (s : State) (tuple : dnsTuple) (msg : dnsMessage)
    (hint : env.IsInternalCall (env.ipString msg.tuple.SrcIP) (env.ipString msg.tuple.DstIP)
      = false)
    (hstored : ∀ t, s.getTransaction tuple.hashable = some t →
      ∃ r, t.request = some r ∧ r.ts ≠ msg.ts) :
    ∃ s1 q, receivedDNSRequest env s tuple msg = some s1 ∧
      s1.queries = s.queries ++ [q] ∧
      (q.IsDuplicated = true ↔
        ∃ t r, s.getTransaction tuple.hashable = some t ∧ t.request = some r ∧
          r.data.Question = msg.data.Question) := by
  cases hst : s.getTransaction tuple.hashable with
  | none =>
    refine ⟨_, _, receivedDNSRequest_of_absent env s tuple msg hint hst,
      recordNewRequest_queries _ _ _ _ _, ?_⟩
    simp
  | some stored =>
    obtain ⟨r, hr, hts⟩ := hstored stored hst
    refine ⟨_,
      { SrcIP := env.ipString msg.tuple.SrcIP, DstIP := env.ipString msg.tuple.DstIP,
        IsDuplicated := decide (r.data.Question = msg.data.Question) },
      receivedDNSRequest_of_other_ts env s tuple msg stored r hint hst hr hts, ?_, ?_⟩
    · rw [recordNewRequest_queries]
      simp [State.deleteTransaction, publishTransaction_queries]
    · simp [hr]

theorem C8_one_query_statistic_witness :
    sampleEnv.IsInternalCall (sampleEnv.ipString sampleQueryLater.tuple.SrcIP)
      (sampleEnv.ipString sampleQueryLater.tuple.DstIP) = false ∧
    sampleStateOutstanding.getTransaction sampleQueryTuple.hashable = some sampleStored ∧
    (∀ t, sampleStateOutstanding.getTransaction sampleQueryTuple.hashable = some t →
      ∃ r, t.request = some r ∧ r.ts ≠ sampleQueryLater.ts) ∧
    ∃ s1 q, receivedDNSRequest sampleEnv sampleStateOutstanding sampleQueryTuple
        sampleQueryLater = some s1 ∧
      s1.queries = sampleStateOutstanding.queries ++ [q] ∧
      (q.IsDuplicated = true ↔
        ∃ t r, sampleStateOutstanding.getTransaction sampleQueryTuple.hashable = some t ∧
          t.request = some r ∧ r.data.Question = sampleQueryLater.data.Question) :=
  have hst : sampleStateOutstanding.getTransaction sampleQueryTuple.hashable
      = some sampleStored :=
    getTransaction_putTransaction_self _ _ _
  have hall : ∀ t, sampleStateOutstanding.getTransaction sampleQueryTuple.hashable = some t →
      ∃ r, t.request = some r ∧ r.ts ≠ sampleQueryLater.ts := by
    intro t ht
    rw [hst] at ht
    cases ht
    exact ⟨sampleQuery, rfl, by decide⟩
  ⟨by decide, hst, hall,
    C8_one_query_statistic sampleEnv sampleStateOutstanding sampleQueryTuple sampleQueryLater
      (by decide) hall⟩

/-- C9, as stated, fails: with a reporter set and nothing dropped, sampleQuery
is observed, then observed again with another timestamp while the first is
still in the map; after the second call no record has been pushed. -/
theorem C9_second_query_pushes_no_record :
    sampleState.dns.results = true ∧ sampleState.dns.dropDecodedPacket = false ∧
    sampleQuery.ts ≠ sampleQueryLater.ts ∧
    sampleQuery.data.Question = sampleQueryLater.data.Question ∧
    ∃ s1 s2, receivedDNSRequest sampleEnv sampleState sampleQueryTuple sampleQuery = some s1 ∧
      s1.getTransaction sampleQueryTuple.hashable = some sampleStored ∧
      sampleStored.request = some sampleQuery ∧
      receivedDNSRequest sampleEnv s1 sampleQueryTuple sampleQueryLater = some s2 ∧
      s2.records = [] := by
  have h1 := receivedDNSRequest_of_absent sampleEnv sampleState sampleQueryTuple sampleQuery
    (by decide) rfl
  have hst : (recordNewRequest sampleEnv sampleState sampleQueryTuple sampleQuery
      false).getTransaction sampleQueryTuple.hashable = some sampleStored :=
    recordNewRequest_getTransaction_self _ _ _ _ _
  refine ⟨rfl, rfl, by decide, rfl, _, _, h1, hst, rfl,
    receivedDNSRequest_of_other_ts sampleEnv _ sampleQueryTuple sampleQueryLater sampleStored
      sampleQuery (by decide) hst rfl (by decide), ?_⟩
  rw [recordNewRequest_records,
    publishTransaction_request_only sampleEnv _ _ false sampleQuery rfl rfl]
  rfl

/-- C9, amended: when the same query (same key, same question) is observed
again with another timestamp while the first is still in the map (request
present, response absent), the second call to receivedDNSRequest pushes no
record downstream. The first transaction gets the duplicate_query note and
is handed to publishTransaction, whose record for it has notes containing
duplicate_query but is not pushed, the transaction having no response; the
map then holds the transaction of the second query under the key, and the
query statistic pushed is flagged as a duplicate. -/
theorem C9_duplicate_closes_first_without_record (env : Env) (s : State) (tuple : dnsTuple)
    (msg : dnsMessage) (stored : dnsTransaction) (first : dnsMessage)
    (hint : env.IsInternalCall (env.ipString msg.tuple.SrcIP) (env.ipString msg.tuple.DstIP)
      = false)
    (hst : s.getTransaction tuple.hashable = some stored)
    (hreq : stored.request = some first) (hresp : stored.response = none)
    (hts : first.ts ≠ msg.ts) (hq : first.data.Question = msg.data.Question) :
    ∃ s1 closed, receivedDNSRequest env s tuple msg = some s1 ∧
      s1.records = s.records ∧
      closed = { stored with notes := stored.notes ++ [duplicateQueryMsg] } ∧
      publishTransaction env (s.deleteTransaction tuple.hashable) closed false
        = s.deleteTransaction tuple.hashable ∧
      duplicateQueryMsg ∈ closed.notes ∧
      (buildRecord env s.dns.includeAuthorities s.dns.includeAdditionals closed).1.Notes
        = stringsJoin closed.notes " " ∧
      (buildRecord env s.dns.includeAuthorities s.dns.includeAdditionals closed).2 = false ∧
      s1.getTransaction tuple.hashable = some (requestTransaction env tuple msg) ∧
      s1.queries = s.queries ++
        [{ SrcIP := env.ipString msg.tuple.SrcIP, DstIP := env.ipString msg.tuple.DstIP,
           IsDuplicated := true }] := by
  have hpub : ∀ s0 : State, publishTransaction env s0
      { stored with notes := stored.notes ++ [duplicateQueryMsg] } false = s0 :=
    fun s0 => publishTransaction_request_only env s0 _ false first hreq hresp
  refine ⟨_, _, receivedDNSRequest_of_other_ts env s tuple msg stored first hint hst hreq hts,
    ?_, rfl, hpub _, by simp, buildRecord_Notes _ _ _ _, ?_,
    recordNewRequest_getTransaction_self _ _ _ _ _, ?_⟩
  · rw [recordNewRequest_records, hpub]
    rfl
  · simp [buildRecord, hreq, hresp]
  · rw [recordNewRequest_queries, hpub]
    simp [State.deleteTransaction, hq]

theorem C9_duplicate_closes_first_without_record_witness :
    sampleEnv.IsInternalCall (sampleEnv.ipString sampleQueryLater.tuple.SrcIP)
      (sampleEnv.ipString sampleQueryLater.tuple.DstIP) = false ∧
    sampleStateOutstanding.getTransaction sampleQueryTuple.hashable = some sampleStored ∧
    sampleStored.request = some sampleQuery ∧ sampleStored.response = none ∧
    sampleQuery.ts ≠ sampleQueryLater.ts ∧
    sampleQuery.data.Question = sampleQueryLater.data.Question ∧
    ∃ s1 closed, receivedDNSRequest sampleEnv sampleStateOutstanding sampleQueryTuple
        sampleQueryLater = some s1 ∧
      s1.records = sampleStateOutstanding.records ∧
      closed = { sampleStored with notes := sampleStored.notes ++ [duplicateQueryMsg] } ∧
      publishTransaction sampleEnv
          (sampleStateOutstanding.deleteTransaction sampleQueryTuple.hashable) closed false
        = sampleStateOutstanding.deleteTransaction sampleQueryTuple.hashable ∧
      duplicateQueryMsg ∈ closed.notes ∧
      (buildRecord sampleEnv sampleStateOutstanding.dns.includeAuthorities
        sampleStateOutstanding.dns.includeAdditionals closed).1.Notes
          = stringsJoin closed.notes " " ∧
      (buildRecord sampleEnv sampleStateOutstanding.dns.includeAuthorities
        sampleStateOutstanding.dns.includeAdditionals closed).2 = false ∧
      s1.getTransaction sampleQueryTuple.hashable
        = some (requestTransaction sampleEnv sampleQueryTuple sampleQueryLater) ∧
      s1.queries = sampleStateOutstanding.queries ++
        [{ SrcIP := sampleEnv.ipString sampleQueryLater.tuple.SrcIP,
           DstIP := sampleEnv.ipString sampleQueryLater.tuple.DstIP,
           IsDuplicated := true }] :=
  have hst : sampleStateOutstanding.getTransaction sampleQueryTuple.hashable
      = some sampleStored :=
    getTransaction_putTransaction_self _ _ _
  ⟨by decide, hst, rfl, rfl, by decide, rfl,
    C9_duplicate_closes_first_without_record sampleEnv sampleStateOutstanding sampleQueryTuple
      sampleQueryLater sampleStored sampleQuery (by decide) hst rfl rfl (by decide) rfl⟩

/-- C10, as stated, fails: with a reporter set and nothing dropped, a response
whose reversed key has no entry is received in the initial state, and no
record is pushed. -/
theorem C10_orphan_response_pushes_no_record :
    sampleState.dns.results = true ∧ sampleState.dns.dropDecodedPacket = false ∧
    sampleEnv.IsInternalCall (sampleEnv.ipString sampleResponse.tuple.SrcIP)
      (sampleEnv.ipString sampleResponse.tuple.DstIP) = false ∧
    sampleState.getTransaction sampleResponseTuple.revHashable = none ∧
    (receivedDNSResponse sampleEnv sampleState sampleResponseTuple sampleResponse).records = [] := by
  refine ⟨rfl, rfl, by decide, rfl, ?_⟩
  rw [receivedDNSResponse_of_absent sampleEnv sampleState sampleResponseTuple sampleResponse
    (by decide) rfl, publishTransaction_drop]
  rfl

/-- C10, amended: for every DNS response with no outstanding request under
its reversed key (endpoints not internal), receivedDNSResponse pushes no
record downstream: it hands the orphan transaction to publishTransaction
with isDrop set. The record built for that transaction has status Error and
notes containing orphaned_response. -/
theorem C10_orphan_record_built_not_pushed (env : Env) (s : State) (tuple : dnsTuple)
    (msg : dnsMessage)
    (hint : env.IsInternalCall (env.ipString msg.tuple.SrcIP) (env.ipString msg.tuple.DstIP)
      = false)
    (hnone : s.getTransaction tuple.revHashable = none) :
    ∃ orphan, orphan = respondedTransaction env none tuple msg ∧
      receivedDNSResponse env s tuple msg =
        (publishTransaction env { s with unmatchedResponses := s.unmatchedResponses + 1 }
          orphan true).deleteTransaction tuple.revHashable ∧
      (receivedDNSResponse env s tuple msg).records = s.records ∧
      orphan.request = none ∧ orphan.response = some msg ∧
      orphanedResponse ∈ orphan.notes ∧
      (buildRecord env s.dns.includeAuthorities s.dns.includeAdditionals orphan).1.Status
        = ERROR_STATUS ∧
      (buildRecord env s.dns.includeAuthorities s.dns.includeAdditionals orphan).1.Notes
        = stringsJoin orphan.notes " " := by
  have hr : (respondedTransaction env none tuple msg).request = none := by
    simp [respondedTransaction, newTransaction]
  have hp : (respondedTransaction env none tuple msg).response = some msg := by
    simp [respondedTransaction]
  refine ⟨_, rfl, receivedDNSResponse_of_absent env s tuple msg hint hnone, ?_, hr, hp, ?_,
    buildRecord_Status_of_no_request _ _ _ _ hr, buildRecord_Notes _ _ _ _⟩
  · rw [receivedDNSResponse_of_absent env s tuple msg hint hnone, publishTransaction_drop]
    rfl
  · simp [respondedTransaction, newTransaction]

theorem C10_orphan_record_built_not_pushed_witness :
    sampleEnv.IsInternalCall (sampleEnv.ipString sampleResponse.tuple.SrcIP)
      (sampleEnv.ipString sampleResponse.tuple.DstIP) = false ∧
    sampleState.getTransaction sampleResponseTuple.revHashable = none ∧
    ∃ orphan, orphan = respondedTransaction sampleEnv none sampleResponseTuple sampleResponse ∧
      receivedDNSResponse sampleEnv sampleState sampleResponseTuple sampleResponse =
        (publishTransaction sampleEnv
          { sampleState with unmatchedResponses := sampleState.unmatchedResponses + 1 }
          orphan true).deleteTransaction sampleResponseTuple.revHashable ∧
      (receivedDNSResponse sampleEnv sampleState sampleResponseTuple sampleResponse).records
        = sampleState.records ∧
      orphan.request = none ∧ orphan.response = some sampleResponse ∧
      orphanedResponse ∈ orphan.notes ∧
      (buildRecord sampleEnv sampleState.dns.includeAuthorities
        sampleState.dns.includeAdditionals orphan).1.Status = ERROR_STATUS ∧
      (buildRecord sampleEnv sampleState.dns.includeAuthorities
        sampleState.dns.includeAdditionals orphan).1.Notes = stringsJoin orphan.notes " " :=
  ⟨by decide, rfl,
    C10_orphan_record_built_not_pushed sampleEnv sampleState sampleResponseTuple sampleResponse
      (by decide) rfl⟩

/-! ## Notes of a query, expiry, and the fields of the record -/

/-- The notes of the transaction created for a query: the oversize note when
the transport is UDP, the message HAS an OPT record and is longer than 512
bytes, and nothing otherwise. -/
theorem requestTransaction_notes (env : Env) (tuple : dnsTuple) (msg : dnsMessage) :
    (requestTransaction env tuple msg).notes =
      if tuple.transport = transportUDP ∧ msg.data.IsEdns0.isSome ∧ msg.length > maxDNSPacketSize
      then [udpPacketTooLarge] else [] := by
  unfold requestTransaction newTransaction
  split_ifs <;> simp

theorem publishTransaction_unmatchedRequests (env : Env) (s : State) (t : dnsTransaction)
    (isDrop : Bool) :
    (publishTransaction env s t isDrop).unmatchedRequests = s.unmatchedRequests := by
  rcases publishTransaction_cases env s t isDrop with h | h <;> rw [h]

/-- The status of the record: OK for a transaction with both sides whose
response has rcode 0, Error otherwise. -/
theorem buildRecord_Status (env : Env) (a b : Bool) (t : dnsTransaction) :
    (buildRecord env a b t).1.Status =
      match t.request, t.response with
      | some _, some response => if response.data.Rcode = 0 then OK_STATUS else ERROR_STATUS
      | _, _ => ERROR_STATUS := by
  obtain ⟨ts, tuple, rt, src, dst, tr, notes, req0, resp0⟩ := t
  unfold buildRecord
  cases req0 <;> cases resp0 <;> simp only [] <;> (repeat' split) <;> simp_all

/-- The fields of the record of a transaction holding only a response. -/
theorem buildRecord_response_only (env : Env) (a b : Bool) (t : dnsTransaction)
    (response : dnsMessage) (hreq : t.request = none) (hresp : t.response = some response) :
    (buildRecord env a b t).1.BytesIn = 0 ∧
    (buildRecord env a b t).1.BytesOut = response.length ∧
    (buildRecord env a b t).1.Query =
      (match response.data.Question with
       | q :: _ => dnsQuestionToString env q
       | [] => "") ∧
    (buildRecord env a b t).2 = true := by
  obtain ⟨ts, tuple, rt, src, dst, tr, notes, req0, resp0⟩ := t
  simp only at hreq hresp
  subst hreq hresp
  unfold buildRecord
  refine ⟨?_, ?_, ?_, ?_⟩ <;> simp only [] <;> (repeat' split) <;> simp_all

/-! ## Claims C11, C14, C15, C17, C18, C20 -/

/-- C11, at the failing input: a UDP query of 700 bytes without an OPT record
creates a transaction without the udp_oversize note, and the same query
with an OPT record creates a transaction with the note; the test in
receivedDNSRequest is IsEdns0() != nil. -/
theorem C11_oversize_note_needs_an_OPT_record :
    sampleEnv.IsInternalCall (sampleEnv.ipString sampleBigQuery.tuple.SrcIP)
      (sampleEnv.ipString sampleBigQuery.tuple.DstIP) = false ∧
    sampleQueryTuple.transport = transportUDP ∧
    sampleBigQuery.data.IsEdns0 = none ∧ sampleBigQuery.length = 700 ∧
    (∃ s1 t, receivedDNSRequest sampleEnv sampleState sampleQueryTuple sampleBigQuery = some s1 ∧
      s1.getTransaction sampleQueryTuple.hashable = some t ∧ t.notes = []) ∧
    sampleBigQueryEdns.data.IsEdns0.isSome = true ∧ sampleBigQueryEdns.length = 700 ∧
    (∃ s1 t, receivedDNSRequest sampleEnv sampleState sampleQueryTuple sampleBigQueryEdns
        = some s1 ∧
      s1.getTransaction sampleQueryTuple.hashable = some t ∧ t.notes = [udpPacketTooLarge]) := by
  refine ⟨by decide, by decide, by decide, rfl, ⟨_, _,
    receivedDNSRequest_of_absent sampleEnv sampleState sampleQueryTuple sampleBigQuery
      (by decide) rfl,
    recordNewRequest_getTransaction_self _ _ _ _ _, ?_⟩, by decide, rfl, ⟨_, _,
    receivedDNSRequest_of_absent sampleEnv sampleState sampleQueryTuple sampleBigQueryEdns
      (by decide) rfl,
    recordNewRequest_getTransaction_self _ _ _ _ _, ?_⟩⟩
  · rw [requestTransaction_notes]
    decide
  · rw [requestTransaction_notes]
    decide

/-- C14: for every transaction, expireTransaction leaves the transaction with
its notes followed by exactly one no_response note (the earlier notes in
place and in order, nothing else changed) and increases the
unmatchedRequests counter by exactly 1. -/
theorem C14_expire_appends_no_response (env : Env) (s : State) (t : dnsTransaction) :
    (expireTransaction env s t).2.notes = t.notes ++ [noResponse] ∧
    (expireTransaction env s t).2 = { t with notes := t.notes ++ [noResponse] } ∧
    (expireTransaction env s t).1.unmatchedRequests = s.unmatchedRequests + 1 := by
  simp [expireTransaction, publishTransaction_unmatchedRequests]

/-- C15: for every transaction that has a request and no response,
publishTransaction pushes no record downstream (the state is left as it
was), whatever the value of isDrop and of the configuration flags. -/
theorem C15_request_only_is_not_pushed (env : Env) (s : State) (t : dnsTransaction)
    (isDrop : Bool) (request : dnsMessage) (hreq : t.request = some request)
    (hresp : t.response = none) :
    (publishTransaction env s t isDrop).records = s.records ∧
    publishTransaction env s t isDrop = s := by
  rw [publishTransaction_request_only env s t isDrop request hreq hresp]
  exact ⟨rfl, rfl⟩

theorem C15_request_only_is_not_pushed_witness :
    sampleStored.request = some sampleQuery ∧ sampleStored.response = none ∧
    sampleState.dns.results = true ∧ sampleState.dns.dropDecodedPacket = false ∧
    (publishTransaction sampleEnv sampleState sampleStored false).records = sampleState.records ∧
    publishTransaction sampleEnv sampleState sampleStored false = sampleState :=
  ⟨rfl, rfl, rfl, rfl,
    C15_request_only_is_not_pushed sampleEnv sampleState sampleStored false sampleQuery rfl rfl⟩

/-- C17: for every transaction, the record built by publishTransaction has
status OK if and only if both request and response are present and the
rcode of the response is 0; in every other case the status is Error. -/
theorem C17_status_ok_iff_both_and_rcode_zero (env : Env) (a b : Bool) (t : dnsTransaction) :
    ((buildRecord env a b t).1.Status = OK_STATUS ↔
      ∃ request response, t.request = some request ∧ t.response = some response ∧
        response.data.Rcode = 0) ∧
    ((¬ ∃ request response, t.request = some request ∧ t.response = some response ∧
        response.data.Rcode = 0) → (buildRecord env a b t).1.Status = ERROR_STATUS) := by
  have hne : ERROR_STATUS ≠ OK_STATUS := by decide
  rw [buildRecord_Status]
  cases hq : t.request <;> cases hp : t.response <;> simp [hne]
  intro h1 h2
  exact absurd h2 h1

/-- C18: for every transaction with a response and no request, the record
built by publishTransaction has status Error, bytes_in 0, bytes_out the
response length, and as query the formatted first question of the response
when it has one and the empty string otherwise. -/
theorem C18_orphan_record_fields (env : Env) (a b : Bool) (t : dnsTransaction)
    (response : dnsMessage) (hreq : t.request = none) (hresp : t.response = some response) :
    (buildRecord env a b t).1.Status = ERROR_STATUS ∧
    (buildRecord env a b t).1.BytesIn = 0 ∧
    (buildRecord env a b t).1.BytesOut = response.length ∧
    (buildRecord env a b t).1.Query =
      (match response.data.Question with
       | q :: _ => dnsQuestionToString env q
       | [] => "") := by
  obtain ⟨h1, h2, h3, _⟩ := buildRecord_response_only env a b t response hreq hresp
  exact ⟨buildRecord_Status_of_no_request env a b t hreq, h1, h2, h3⟩

theorem C18_orphan_record_fields_witness :
    sampleOrphan.request = none ∧ sampleOrphan.response = some sampleResponse ∧
    (buildRecord sampleEnv false false sampleOrphan).1.Status = ERROR_STATUS ∧
    (buildRecord sampleEnv false false sampleOrphan).1.BytesIn = 0 ∧
    (buildRecord sampleEnv false false sampleOrphan).1.BytesOut = sampleResponse.length ∧
    (buildRecord sampleEnv false false sampleOrphan).1.Query =
      (match sampleResponse.data.Question with
       | q :: _ => dnsQuestionToString sampleEnv q
       | [] => "") :=
  ⟨rfl, rfl, C18_orphan_record_fields sampleEnv false false sampleOrphan sampleResponse rfl rfl⟩

/-- C20: for every parser, transport and byte array, decodeDNSData returns
either a message with a nil error or a nil message with an error; never a
message together with an error, nor nil for both, also when the unpacker
panics or the slicing of the payload does. -/
theorem C20_decodeDNSData_message_xor_error (p : Unpacker) (transp : transport)
    (rawData : List Byte) :
    ((decodeDNSData p transp rawData).1.isSome = true ∧ (decodeDNSData p transp rawData).2 = none) ∨
    ((decodeDNSData p transp rawData).1 = none ∧
      (decodeDNSData p transp rawData).2.isSome = true) := by
  unfold decodeDNSData
  generalize (if transp = transportTCP then decodeOffset else 0) = offset
  by_cases h : offset > rawData.length
  · simp [h]
  · cases hu : p.Unpack (rawData.drop offset) with
    | panicked r => simp [h, hu]
    | returned a =>
      obtain ⟨msg, err⟩ := a
      by_cases hc : p.Len msg ≤ 12 ∨ err.isSome = true
      · simp [h, hu, hc]
      · simp [h, hu, hc]

/-! ## Notes of a response -/

/-- For a response that is not internal, receivedDNSResponse publishes the
transaction with the response attached and removes it by its own key; the
transaction is dropped exactly when no request was found. -/
theorem receivedDNSResponse_publishes (env : Env) (s : State) (tuple : dnsTuple)
    (msg : dnsMessage)
    (hint : env.IsInternalCall (env.ipString msg.tuple.SrcIP) (env.ipString msg.tuple.DstIP)
      = false) :
    ∃ s0 : State, receivedDNSResponse env s tuple msg =
      (publishTransaction env s0
        (respondedTransaction env (s.getTransaction tuple.revHashable) tuple msg)
        (s.getTransaction tuple.revHashable).isNone).deleteTransaction
          (respondedTransaction env (s.getTransaction tuple.revHashable) tuple msg).tuple.hashable := by
  simp only [receivedDNSResponse, hint]
  exact ⟨_, rfl⟩

/-- The notes of the transaction with the response attached: the notes it
had (the orphan note for a new transaction), then the notes for the
response. -/
theorem respondedTransaction_notes (env : Env) (found : Option dnsTransaction)
    (tuple : dnsTuple) (msg : dnsMessage) :
    (respondedTransaction env found tuple msg).notes =
      (match found with
       | some stored => stored.notes
       | none => [orphanedResponse]) ++
      responseNotes tuple msg
        (match found with
         | some stored => stored.request
         | none => none) := by
  cases found <;> simp [respondedTransaction, newTransaction]

theorem respondedTransaction_of_some (env : Env) (stored : dnsTransaction) (tuple : dnsTuple)
    (msg : dnsMessage) :
    (respondedTransaction env (some stored) tuple msg).request = stored.request ∧
    (respondedTransaction env (some stored) tuple msg).response = some msg ∧
    (respondedTransaction env (some stored) tuple msg).ts = stored.ts ∧
    (respondedTransaction env (some stored) tuple msg).tuple = stored.tuple := by
  simp [respondedTransaction]

/-- The oversize note is among the notes for a response exactly over UDP,
without an OPT record in the response, and above 512 bytes. -/
theorem responseNotes_oversize (tuple : dnsTuple) (msg : dnsMessage)
    (request : Option dnsMessage) :
    udpPacketTooLargeResponse ∈ responseNotes tuple msg request ↔
      tuple.transport = transportUDP ∧ msg.data.IsEdns0 = none ∧ msg.length > 512 := by
  have h1 : udpPacketTooLargeResponse ≠ respEdnsNoSupport := by decide
  have h2 : udpPacketTooLargeResponse ≠ respEdnsUnexpected := by decide
  unfold responseNotes
  by_cases hu : tuple.transport = transportUDP
  · cases hr : msg.data.IsEdns0 <;> cases request <;>
      simp [hu, hr, h1, h2, maxDNSPacketSize]
  · simp [hu]

/-- The two EDNS notes for a response over UDP matched to a request. -/
theorem responseNotes_edns (tuple : dnsTuple) (msg : dnsMessage) (request : dnsMessage)
    (hu : tuple.transport = transportUDP) :
    (respEdnsNoSupport ∈ responseNotes tuple msg (some request) ↔
      request.data.IsEdns0.isSome = true ∧ msg.data.IsEdns0 = none) ∧
    (respEdnsUnexpected ∈ responseNotes tuple msg (some request) ↔
      request.data.IsEdns0 = none ∧ msg.data.IsEdns0.isSome = true) := by
  have h1 : respEdnsNoSupport ≠ udpPacketTooLargeResponse := by decide
  have h2 : respEdnsUnexpected ≠ udpPacketTooLargeResponse := by decide
  have h3 : respEdnsNoSupport ≠ respEdnsUnexpected := by decide
  have h4 : respEdnsUnexpected ≠ respEdnsNoSupport := by decide
  unfold responseNotes
  cases hr : msg.data.IsEdns0 <;> cases hq : request.data.IsEdns0 <;>
    simp [hu, hr, hq, h1, h2, h3, h4]

/-- No EDNS note for a response that is not over UDP, nor for one without a request. -/
theorem responseNotes_no_edns (tuple : dnsTuple) (msg : dnsMessage)
    (request : Option dnsMessage) (h : tuple.transport ≠ transportUDP ∨ request = none) :
    respEdnsNoSupport ∉ responseNotes tuple msg request ∧
    respEdnsUnexpected ∉ responseNotes tuple msg request := by
  have h1 : respEdnsNoSupport ≠ udpPacketTooLargeResponse := by decide
  have h2 : respEdnsUnexpected ≠ udpPacketTooLargeResponse := by decide
  unfold responseNotes
  by_cases hu : tuple.transport = transportUDP
  · rcases h with h | h
    · exact absurd hu h
    · subst h
      simp only [hu, if_true]
      constructor <;> split_ifs <;> simp [h1, h2]
  · simp [hu]

/-! ## Request, then response or expiry -/

/-- A query that is stored: under the conditions of a query that is neither
internal nor a same-timestamp duplicate, receivedDNSRequest ends by
recording the new request. -/
theorem receivedDNSRequest_stores (env : Env) (s : State) (tuple : dnsTuple) (msg : dnsMessage)
    (hint : env.IsInternalCall (env.ipString msg.tuple.SrcIP) (env.ipString msg.tuple.DstIP)
      = false)
    (hstored : ∀ t, s.getTransaction tuple.hashable = some t →
      ∃ r, t.request = some r ∧ r.ts ≠ msg.ts) :
    ∃ s0 d, receivedDNSRequest env s tuple msg = some (recordNewRequest env s0 tuple msg d) := by
  cases hst : s.getTransaction tuple.hashable with
  | none => exact ⟨_, _, receivedDNSRequest_of_absent env s tuple msg hint hst⟩
  | some stored =>
    obtain ⟨r, hr, hts⟩ := hstored stored hst
    exact ⟨_, _, receivedDNSRequest_of_other_ts env s tuple msg stored r hint hst hr hts⟩

/-- The expiry of a key that holds a transaction: the entry is removed, the
counter is incremented, the transaction gets the no_response note, and
nothing is pushed (expireTransaction publishes with isDrop set). -/
theorem expireKey_of_some (env : Env) (s : State) (k : hashableDNSTuple)
    (t : dnsTransaction) (hget : s.getTransaction k = some t) :
    expireKey env s k =
      ({ s.deleteTransaction k with unmatchedRequests := s.unmatchedRequests + 1 },
        some { t with notes := t.notes ++ [noResponse] }) := by
  unfold expireKey
  rw [hget]
  simp only [expireTransaction]
  rw [publishTransaction_drop]
  rfl

/-- The record pushed by a request with a free key followed by its response. -/
theorem request_then_response_records (env : Env) (s : State)
    (reqTuple respTuple : dnsTuple) (req resp : dnsMessage)
    (hkey : respTuple.revHashable = reqTuple.hashable)
    (hreqInt : env.IsInternalCall (env.ipString req.tuple.SrcIP) (env.ipString req.tuple.DstIP)
      = false)
    (hrespInt : env.IsInternalCall (env.ipString resp.tuple.SrcIP)
      (env.ipString resp.tuple.DstIP) = false)
    (hres : s.dns.results = true) (hdrop : s.dns.dropDecodedPacket = false)
    (hfree : s.getTransaction reqTuple.hashable = none) :
    receivedDNSRequest env s reqTuple req = some (recordNewRequest env s reqTuple req false) ∧
    (receivedDNSResponse env (recordNewRequest env s reqTuple req false) respTuple resp).records =
      s.records ++ [(buildRecord env s.dns.includeAuthorities s.dns.includeAdditionals
        (respondedTransaction env (some (requestTransaction env reqTuple req)) respTuple
          resp)).1] := by
  obtain ⟨hq1, _, _, _, _⟩ := requestTransaction_fields env reqTuple req
  obtain ⟨hc1, hc2, hc3, hc4⟩ := recordNewRequest_config env s reqTuple req false
  have hget : (recordNewRequest env s reqTuple req false).getTransaction respTuple.revHashable =
      some (requestTransaction env reqTuple req) := by
    rw [hkey]
    exact recordNewRequest_getTransaction_self env s reqTuple req false
  obtain ⟨htr0, htp, _, _⟩ :=
    respondedTransaction_of_some env (requestTransaction env reqTuple req) respTuple resp
  have htr := htr0.trans hq1
  refine ⟨receivedDNSRequest_of_absent env s reqTuple req hreqInt hfree, ?_⟩
  rw [receivedDNSResponse_of_found env _ respTuple resp _ req hrespInt hget hq1]
  rw [publishTransaction_both env _ _ req resp htr htp
    (by simpa [State.putTransaction] using hc1.trans hres)
    (by simpa [State.putTransaction] using hc2.trans hdrop)]
  simp [State.deleteTransaction, State.putTransaction, hc3, hc4,
    recordNewRequest_records env s reqTuple req false]

/-- The response time of the record of a transaction with both sides. -/
theorem buildRecord_ResponseTime (env : Env) (a b : Bool) (t : dnsTransaction)
    (request response : dnsMessage) (hreq : t.request = some request)
    (hresp : t.response = some response) :
    (buildRecord env a b t).1.ResponseTime = ((timeSub response.ts t.ts : Int) : Rat) / 1000000 := by
  obtain ⟨ts, tuple, rt, src, dst, tr, notes, req0, resp0⟩ := t
  simp only at hreq hresp
  subst hreq hresp
  unfold buildRecord
  simp only []
  (repeat' split) <;> simp_all

/-- The saturated difference has the sign of the difference. -/
theorem timeSub_nonneg_iff (a b : Time) : 0 ≤ timeSub a b ↔ b ≤ a := by
  unfold timeSub
  have h1 : (0 : Int) ≤ 2 ^ 63 - 1 := by norm_num
  have h2 : ¬ (0 : Int) ≤ -2 ^ 63 := by norm_num
  constructor
  · intro h
    rcases le_max_iff.mp h with h | h
    · exact absurd h h2
    · exact sub_nonneg.mp (le_min_iff.mp h).2
  · intro h
    exact le_max_of_le_right (le_min h1 (sub_nonneg.mpr h))

theorem responseTime_nonneg_iff (a b : Time) :
    (0 : Rat) ≤ ((timeSub a b : Int) : Rat) / 1000000 ↔ b ≤ a := by
  rw [← timeSub_nonneg_iff a b]
  constructor
  · intro h
    by_contra hn
    have hlt : ((timeSub a b : Int) : Rat) < 0 := by exact_mod_cast lt_of_not_le hn
    have := div_neg_of_neg_of_pos hlt (by norm_num : (0 : Rat) < 1000000)
    exact absurd h (not_le.mpr this)
  · intro h
    exact div_nonneg (by exact_mod_cast h) (by norm_num)

/-! ## Claims C12, C13, C16, C19 -/

/-- C12: for every non-internal response, the transaction that
receivedDNSResponse publishes has the notes it had before followed by the
notes appended for the response, and udp_oversize_response is among the
appended notes if and only if the transport is UDP, the response has no
OPT record and its length is greater than 512. So a 700-byte UDP response
without OPT, matched to a request without OPT and without notes, is pushed
with notes equal to exactly that one note. -/
theorem C12_response_oversize_note (env : Env) (s : State) (tuple : dnsTuple)
    (msg : dnsMessage)
    (hint : env.IsInternalCall (env.ipString msg.tuple.SrcIP) (env.ipString msg.tuple.DstIP)
      = false) :
    (∃ s0 : State, receivedDNSResponse env s tuple msg =
      (publishTransaction env s0
        (respondedTransaction env (s.getTransaction tuple.revHashable) tuple msg)
        (s.getTransaction tuple.revHashable).isNone).deleteTransaction
          (respondedTransaction env (s.getTransaction tuple.revHashable) tuple
            msg).tuple.hashable) ∧
    (∃ appended,
      (respondedTransaction env (s.getTransaction tuple.revHashable) tuple msg).notes =
        (match s.getTransaction tuple.revHashable with
         | some stored => stored.notes
         | none => [orphanedResponse]) ++ appended ∧
      (udpPacketTooLargeResponse ∈ appended ↔
        tuple.transport = transportUDP ∧ msg.data.IsEdns0 = none ∧ msg.length > 512)) ∧
    (∀ stored request, s.getTransaction tuple.revHashable = some stored →
      stored.notes = [] → stored.request = some request → request.data.IsEdns0 = none →
      tuple.transport = transportUDP → msg.data.IsEdns0 = none → msg.length = 700 →
      s.dns.results = true → s.dns.dropDecodedPacket = false →
      ∃ r, (receivedDNSResponse env s tuple msg).records = s.records ++ [r] ∧
        r.Notes = udpPacketTooLargeResponse) := by
  refine ⟨receivedDNSResponse_publishes env s tuple msg hint,
    ⟨_, respondedTransaction_notes env _ tuple msg, responseNotes_oversize tuple msg _⟩, ?_⟩
  intro stored request hst hnotes hreq hqe hu hre hlen hres hdrop
  obtain ⟨htr0, htp, _, _⟩ := respondedTransaction_of_some env stored tuple msg
  have htr := htr0.trans hreq
  have hn : (respondedTransaction env (some stored) tuple msg).notes
      = [udpPacketTooLargeResponse] := by
    rw [respondedTransaction_notes]
    simp [hnotes, hreq, responseNotes, hu, hre, hqe, hlen, maxDNSPacketSize]
  refine ⟨(buildRecord env s.dns.includeAuthorities s.dns.includeAdditionals
    (respondedTransaction env (some stored) tuple msg)).1, ?_, ?_⟩
  · rw [receivedDNSResponse_of_found env s tuple msg stored request hint hst hreq,
      publishTransaction_both env _ _ request msg htr htp
        (by simpa [State.putTransaction] using hres)
        (by simpa [State.putTransaction] using hdrop)]
    simp only [State.deleteTransaction, State.putTransaction]
  · rw [buildRecord_Notes, hn]
    rfl

theorem C12_response_oversize_note_witness :
    sampleEnv.IsInternalCall (sampleEnv.ipString sampleBigResponse.tuple.SrcIP)
      (sampleEnv.ipString sampleBigResponse.tuple.DstIP) = false ∧
    sampleStateOutstanding.getTransaction sampleResponseTuple.revHashable = some sampleStored ∧
    sampleStored.notes = [] ∧ sampleStored.request = some sampleQuery ∧
    sampleQuery.data.IsEdns0 = none ∧ sampleResponseTuple.transport = transportUDP ∧
    sampleBigResponse.data.IsEdns0 = none ∧ sampleBigResponse.length = 700 ∧
    (∃ appended,
      (respondedTransaction sampleEnv
        (sampleStateOutstanding.getTransaction sampleResponseTuple.revHashable)
        sampleResponseTuple sampleBigResponse).notes =
        (match sampleStateOutstanding.getTransaction sampleResponseTuple.revHashable with
         | some stored => stored.notes
         | none => [orphanedResponse]) ++ appended ∧
      (udpPacketTooLargeResponse ∈ appended ↔
        sampleResponseTuple.transport = transportUDP ∧ sampleBigResponse.data.IsEdns0 = none ∧
          sampleBigResponse.length > 512)) ∧
    ∃ r, (receivedDNSResponse sampleEnv sampleStateOutstanding sampleResponseTuple
        sampleBigResponse).records = sampleStateOutstanding.records ++ [r] ∧
      r.Notes = udpPacketTooLargeResponse :=
  have hst : sampleStateOutstanding.getTransaction sampleResponseTuple.revHashable
      = some sampleStored := by
    rw [show sampleResponseTuple.revHashable = sampleQueryTuple.hashable by decide]
    exact getTransaction_putTransaction_self _ _ _
  have h := C12_response_oversize_note sampleEnv sampleStateOutstanding sampleResponseTuple
    sampleBigResponse (by decide)
  ⟨by decide, hst, rfl, rfl, by decide, by decide, by decide, rfl, h.2.1,
    h.2.2 sampleStored sampleQuery hst rfl rfl (by decide) (by decide) (by decide) rfl rfl rfl⟩

/-- C13: for every non-internal response, the notes appended to the
published transaction are those of responseNotes. For a response matched to
a stored request over UDP, resp_edns_no_support is appended exactly when
the request has EDNS0 and the response does not, resp_edns_unexpected
exactly when the request lacks EDNS0 and the response has it, and never
both; neither is appended when the transport is not UDP (TCP), nor for an
orphan response. -/
theorem C13_edns_notes (env : Env) (s : State) (tuple : dnsTuple) (msg : dnsMessage)
    (hint : env.IsInternalCall (env.ipString msg.tuple.SrcIP) (env.ipString msg.tuple.DstIP)
      = false) :
    (∃ s0 : State, receivedDNSResponse env s tuple msg =
      (publishTransaction env s0
        (respondedTransaction env (s.getTransaction tuple.revHashable) tuple msg)
        (s.getTransaction tuple.revHashable).isNone).deleteTransaction
          (respondedTransaction env (s.getTransaction tuple.revHashable) tuple
            msg).tuple.hashable) ∧
    ∃ appended,
      (respondedTransaction env (s.getTransaction tuple.revHashable) tuple msg).notes =
        (match s.getTransaction tuple.revHashable with
         | some stored => stored.notes
         | none => [orphanedResponse]) ++ appended ∧
      (∀ stored request, s.getTransaction tuple.revHashable = some stored →
        stored.request = some request → tuple.transport = transportUDP →
        (respEdnsNoSupport ∈ appended ↔
          request.data.IsEdns0.isSome = true ∧ msg.data.IsEdns0 = none) ∧
        (respEdnsUnexpected ∈ appended ↔
          request.data.IsEdns0 = none ∧ msg.data.IsEdns0.isSome = true) ∧
        ¬ (respEdnsNoSupport ∈ appended ∧ respEdnsUnexpected ∈ appended)) ∧
      (tuple.transport ≠ transportUDP →
        respEdnsNoSupport ∉ appended ∧ respEdnsUnexpected ∉ appended) ∧
      (s.getTransaction tuple.revHashable = none →
        respEdnsNoSupport ∉ appended ∧ respEdnsUnexpected ∉ appended) := by
  refine ⟨receivedDNSResponse_publishes env s tuple msg hint,
    ⟨_, respondedTransaction_notes env _ tuple msg, ?_, ?_, ?_⟩⟩
  · intro stored request hst hreq hu
    rw [hst]
    simp only [hreq]
    obtain ⟨h1, h2⟩ := responseNotes_edns tuple msg request hu
    refine ⟨h1, h2, ?_⟩
    rintro ⟨ha, hb⟩
    have h3 := (h1.mp ha).1
    have h4 := (h2.mp hb).1
    rw [h4] at h3
    cases h3
  · intro hu
    exact responseNotes_no_edns tuple msg _ (Or.inl hu)
  · intro hnone
    rw [hnone]
    exact responseNotes_no_edns tuple msg none (Or.inr rfl)

theorem C13_edns_notes_witness :
    sampleEnv.IsInternalCall (sampleEnv.ipString sampleResponse.tuple.SrcIP)
      (sampleEnv.ipString sampleResponse.tuple.DstIP) = false ∧
    ((∃ s0 : State,
      receivedDNSResponse sampleEnv sampleStateOutstanding sampleResponseTuple sampleResponse =
      (publishTransaction sampleEnv s0
        (respondedTransaction sampleEnv
          (sampleStateOutstanding.getTransaction sampleResponseTuple.revHashable)
          sampleResponseTuple sampleResponse)
        (sampleStateOutstanding.getTransaction
          sampleResponseTuple.revHashable).isNone).deleteTransaction
          (respondedTransaction sampleEnv
            (sampleStateOutstanding.getTransaction sampleResponseTuple.revHashable)
            sampleResponseTuple sampleResponse).tuple.hashable) ∧
    ∃ appended,
      (respondedTransaction sampleEnv
        (sampleStateOutstanding.getTransaction sampleResponseTuple.revHashable)
        sampleResponseTuple sampleResponse).notes =
        (match sampleStateOutstanding.getTransaction sampleResponseTuple.revHashable with
         | some stored => stored.notes
         | none => [orphanedResponse]) ++ appended ∧
      (∀ stored request,
        sampleStateOutstanding.getTransaction sampleResponseTuple.revHashable = some stored →
        stored.request = some request → sampleResponseTuple.transport = transportUDP →
        (respEdnsNoSupport ∈ appended ↔
          request.data.IsEdns0.isSome = true ∧ sampleResponse.data.IsEdns0 = none) ∧
        (respEdnsUnexpected ∈ appended ↔
          request.data.IsEdns0 = none ∧ sampleResponse.data.IsEdns0.isSome = true) ∧
        ¬ (respEdnsNoSupport ∈ appended ∧ respEdnsUnexpected ∈ appended)) ∧
      (sampleResponseTuple.transport ≠ transportUDP →
        respEdnsNoSupport ∉ appended ∧ respEdnsUnexpected ∉ appended) ∧
      (sampleStateOutstanding.getTransaction sampleResponseTuple.revHashable = none →
        respEdnsNoSupport ∉ appended ∧ respEdnsUnexpected ∉ appended)) :=
  ⟨by decide,
    C13_edns_notes sampleEnv sampleStateOutstanding sampleResponseTuple sampleResponse
      (by decide)⟩

/-- C16, as stated, fails: with a reporter set and nothing dropped, sampleQuery
is stored by receivedDNSRequest and then expires; the expired transaction
carries the no_response note and no record has been pushed. -/
theorem C16_expiry_pushes_no_record :
    sampleState.dns.results = true ∧ sampleState.dns.dropDecodedPacket = false ∧
    ∃ s1 expired,
      receivedDNSRequest sampleEnv sampleState sampleQueryTuple sampleQuery = some s1 ∧
      (expireKey sampleEnv s1 sampleQueryTuple.hashable).2 = some expired ∧
      expired.notes = [noResponse] ∧
      (expireKey sampleEnv s1 sampleQueryTuple.hashable).1.records = [] := by
  have h1 := receivedDNSRequest_of_absent sampleEnv sampleState sampleQueryTuple sampleQuery
    (by decide) rfl
  have hst : (recordNewRequest sampleEnv sampleState sampleQueryTuple sampleQuery
      false).getTransaction sampleQueryTuple.hashable = some sampleStored :=
    recordNewRequest_getTransaction_self _ _ _ _ _
  refine ⟨rfl, rfl, _, { sampleStored with notes := sampleStored.notes ++ [noResponse] }, h1,
    ?_, ?_, ?_⟩
  · rw [expireKey_of_some sampleEnv _ _ _ hst]
  · rfl
  · rw [expireKey_of_some sampleEnv _ _ _ hst]
    rfl

/-- C16, amended: for every request that is stored by receivedDNSRequest and
then expires without a response (the removal listener calls
expireTransaction on it), the correlator emits no record: the expired
transaction gets the no_response note after its notes and is handed to
publishTransaction with isDrop set, which pushes nothing (its record, with
notes containing no_response, is not even completed, the transaction having
no response). The entry is removed from the map and unmatched_requests
increases by 1. -/
theorem C16_expiry_counts_without_record (env : Env) (s : State) (tuple : dnsTuple)
    (msg : dnsMessage)
    (hint : env.IsInternalCall (env.ipString msg.tuple.SrcIP) (env.ipString msg.tuple.DstIP)
      = false)
    (hstored : ∀ t, s.getTransaction tuple.hashable = some t →
      ∃ r, t.request = some r ∧ r.ts ≠ msg.ts) :
    ∃ s1 expired, receivedDNSRequest env s tuple msg = some s1 ∧
      s1.getTransaction tuple.hashable = some (requestTransaction env tuple msg) ∧
      (expireKey env s1 tuple.hashable).2 = some expired ∧
      expired = (expireTransaction env (s1.deleteTransaction tuple.hashable)
        (requestTransaction env tuple msg)).2 ∧
      expired.notes = (requestTransaction env tuple msg).notes ++ [noResponse] ∧
      expired.request = some msg ∧ expired.response = none ∧
      (expireKey env s1 tuple.hashable).1.records = s1.records ∧
      (buildRecord env s1.dns.includeAuthorities s1.dns.includeAdditionals expired).1.Notes
        = stringsJoin expired.notes " " ∧
      (buildRecord env s1.dns.includeAuthorities s1.dns.includeAdditionals expired).2 = false ∧
      (expireKey env s1 tuple.hashable).1.unmatchedRequests = s1.unmatchedRequests + 1 ∧
      (expireKey env s1 tuple.hashable).1.getTransaction tuple.hashable = none := by
  obtain ⟨s0, d, h1⟩ := receivedDNSRequest_stores env s tuple msg hint hstored
  obtain ⟨hq1, hq2, _, _, _⟩ := requestTransaction_fields env tuple msg
  have hst : (recordNewRequest env s0 tuple msg d).getTransaction tuple.hashable =
      some (requestTransaction env tuple msg) :=
    recordNewRequest_getTransaction_self _ _ _ _ _
  have hk := expireKey_of_some env _ _ _ hst
  refine ⟨_, { requestTransaction env tuple msg with
      notes := (requestTransaction env tuple msg).notes ++ [noResponse] },
    h1, hst, by rw [hk], ?_, rfl, hq1, hq2, (by rw [hk]; rfl), buildRecord_Notes _ _ _ _, ?_,
    by rw [hk], ?_⟩
  · simp [expireTransaction]
  · simp [buildRecord, hq1, hq2]
  · rw [hk]
    exact getTransaction_deleteTransaction_self _ _

theorem C16_expiry_counts_without_record_witness :
    sampleEnv.IsInternalCall (sampleEnv.ipString sampleQuery.tuple.SrcIP)
      (sampleEnv.ipString sampleQuery.tuple.DstIP) = false ∧
    (∀ t, sampleState.getTransaction sampleQueryTuple.hashable = some t →
      ∃ r, t.request = some r ∧ r.ts ≠ sampleQuery.ts) ∧
    ∃ s1 expired, receivedDNSRequest sampleEnv sampleState sampleQueryTuple sampleQuery = some s1 ∧
      s1.getTransaction sampleQueryTuple.hashable
        = some (requestTransaction sampleEnv sampleQueryTuple sampleQuery) ∧
      (expireKey sampleEnv s1 sampleQueryTuple.hashable).2 = some expired ∧
      expired = (expireTransaction sampleEnv (s1.deleteTransaction sampleQueryTuple.hashable)
        (requestTransaction sampleEnv sampleQueryTuple sampleQuery)).2 ∧
      expired.notes = (requestTransaction sampleEnv sampleQueryTuple sampleQuery).notes
        ++ [noResponse] ∧
      expired.request = some sampleQuery ∧ expired.response = none ∧
      (expireKey sampleEnv s1 sampleQueryTuple.hashable).1.records = s1.records ∧
      (buildRecord sampleEnv s1.dns.includeAuthorities s1.dns.includeAdditionals
        expired).1.Notes = stringsJoin expired.notes " " ∧
      (buildRecord sampleEnv s1.dns.includeAuthorities s1.dns.includeAdditionals expired).2
        = false ∧
      (expireKey sampleEnv s1 sampleQueryTuple.hashable).1.unmatchedRequests
        = s1.unmatchedRequests + 1 ∧
      (expireKey sampleEnv s1 sampleQueryTuple.hashable).1.getTransaction
        sampleQueryTuple.hashable = none :=
  have hall : ∀ t, sampleState.getTransaction sampleQueryTuple.hashable = some t →
      ∃ r, t.request = some r ∧ r.ts ≠ sampleQuery.ts := by
    intro t ht
    cases ht
  ⟨by decide, hall,
    C16_expiry_counts_without_record sampleEnv sampleState sampleQueryTuple sampleQuery
      (by decide) hall⟩

/-- C19, as stated, fails: sampleQuery (captured at 1000 ns) is stored and then
answered by a response whose capture timestamp is 500 ns; the one record
pushed has a negative response_time. -/
theorem C19_response_time_can_be_negative :
    sampleResponseTuple.revHashable = sampleQueryTuple.hashable ∧
    sampleQuery.ts = 1000 ∧ sampleEarlyResponse.ts = 500 ∧
    ∃ s1 r, receivedDNSRequest sampleEnv sampleState sampleQueryTuple sampleQuery = some s1 ∧
      (receivedDNSResponse sampleEnv s1 sampleResponseTuple sampleEarlyResponse).records = [r] ∧
      r.ResponseTime < 0 := by
  obtain ⟨h1, h2⟩ := request_then_response_records sampleEnv sampleState sampleQueryTuple
    sampleResponseTuple sampleQuery sampleEarlyResponse (by decide) (by decide) (by decide)
    rfl rfl rfl
  obtain ⟨hq1, _, hq3, _, _⟩ := requestTransaction_fields sampleEnv sampleQueryTuple sampleQuery
  obtain ⟨htr0, htp, hts, _⟩ := respondedTransaction_of_some sampleEnv
    (requestTransaction sampleEnv sampleQueryTuple sampleQuery) sampleResponseTuple
    sampleEarlyResponse
  refine ⟨by decide, rfl, rfl, _, _, h1, h2, ?_⟩
  rw [buildRecord_ResponseTime sampleEnv _ _ _ sampleQuery sampleEarlyResponse
    (htr0.trans hq1) htp, hts, hq3]
  have hn : ¬ (0 : Rat) ≤ ((timeSub sampleEarlyResponse.ts sampleQuery.ts : Int) : Rat) / 1000000 := by
    rw [responseTime_nonneg_iff]
    decide
  exact lt_of_not_le hn

/-- C19, amended: for every request stored under a free key and every response
whose reversed key is the request key (no endpoint internal, reporter set,
nothing dropped), the record pushed after receivedDNSRequest then
receivedDNSResponse has as response_time the response timestamp minus the
request timestamp (saturated to 64 bits of nanoseconds) in milliseconds,
and it is greater than or equal to 0 if and only if the response timestamp
is not earlier than the request timestamp. -/
theorem C19_response_time_sign (env : Env) (s : State)
    (reqTuple respTuple : dnsTuple) (req resp : dnsMessage)
    (hkey : respTuple.revHashable = reqTuple.hashable)
    (hreqInt : env.IsInternalCall (env.ipString req.tuple.SrcIP) (env.ipString req.tuple.DstIP)
      = false)
    (hrespInt : env.IsInternalCall (env.ipString resp.tuple.SrcIP)
      (env.ipString resp.tuple.DstIP) = false)
    (hres : s.dns.results = true) (hdrop : s.dns.dropDecodedPacket = false)
    (hfree : s.getTransaction reqTuple.hashable = none) :
    ∃ s1 r, receivedDNSRequest env s reqTuple req = some s1 ∧
      (receivedDNSResponse env s1 respTuple resp).records = s.records ++ [r] ∧
      r.ResponseTime = ((timeSub resp.ts req.ts : Int) : Rat) / 1000000 ∧
      (0 ≤ r.ResponseTime ↔ req.ts ≤ resp.ts) := by
  obtain ⟨h1, h2⟩ := request_then_response_records env s reqTuple respTuple req resp hkey
    hreqInt hrespInt hres hdrop hfree
  obtain ⟨hq1, _, hq3, _, _⟩ := requestTransaction_fields env reqTuple req
  obtain ⟨htr0, htp, hts, _⟩ := respondedTransaction_of_some env
    (requestTransaction env reqTuple req) respTuple resp
  have hrt := buildRecord_ResponseTime env s.dns.includeAuthorities s.dns.includeAdditionals _
    req resp (htr0.trans hq1) htp
  rw [hts, hq3] at hrt
  refine ⟨_, _, h1, h2, hrt, ?_⟩
  rw [hrt]
  exact responseTime_nonneg_iff resp.ts req.ts

theorem C19_response_time_sign_witness :
    sampleResponseTuple.revHashable = sampleQueryTuple.hashable ∧
    sampleEnv.IsInternalCall (sampleEnv.ipString sampleQuery.tuple.SrcIP)
      (sampleEnv.ipString sampleQuery.tuple.DstIP) = false ∧
    sampleEnv.IsInternalCall (sampleEnv.ipString sampleResponse.tuple.SrcIP)
      (sampleEnv.ipString sampleResponse.tuple.DstIP) = false ∧
    sampleState.dns.results = true ∧ sampleState.dns.dropDecodedPacket = false ∧
    sampleState.getTransaction sampleQueryTuple.hashable = none ∧
    ∃ s1 r, receivedDNSRequest sampleEnv sampleState sampleQueryTuple sampleQuery = some s1 ∧
      (receivedDNSResponse sampleEnv s1 sampleResponseTuple sampleResponse).records
        = sampleState.records ++ [r] ∧
      r.ResponseTime = ((timeSub sampleResponse.ts sampleQuery.ts : Int) : Rat) / 1000000 ∧
      (0 ≤ r.ResponseTime ↔ sampleQuery.ts ≤ sampleResponse.ts) :=
  ⟨by decide, by decide, by decide, rfl, rfl, rfl,
    C19_response_time_sign sampleEnv sampleState sampleQueryTuple sampleResponseTuple
      sampleQuery sampleResponse (by decide) (by decide) (by decide) rfl rfl rfl⟩

/-! ## Decoding -/

/-- The result of decodeDNSData when the payload can be sliced and Unpack returns. -/
theorem decodeDNSData_of_returned (p : Unpacker) (transp : transport) (rawData : List Byte)
    (msg : Msg) (err : Option String)
    (hlen : (if transp = transportTCP then decodeOffset else 0) ≤ rawData.length)
    (hu : p.Unpack (rawData.drop (if transp = transportTCP then decodeOffset else 0))
      = Outcome.returned (msg, err)) :
    decodeDNSData p transp rawData =
      if p.Len msg ≤ 12 ∨ err.isSome = true then (none, some DecodeError.nonDNSMsg)
      else (some msg, none) := by
  unfold decodeDNSData
  simp only [not_lt.mpr hlen, if_false, hu]

/-- The result of decodeDNSData when the slicing of the payload or Unpack panics. -/
theorem decodeDNSData_of_panic (p : Unpacker) (transp : transport) (rawData : List Byte)
    (h : (if transp = transportTCP then decodeOffset else 0) > rawData.length ∨
      ∃ r, p.Unpack (rawData.drop (if transp = transportTCP then decodeOffset else 0))
        = Outcome.panicked r) :
    ∃ r, decodeDNSData p transp rawData = (none, some (DecodeError.recovered r)) := by
  unfold decodeDNSData
  by_cases hlen : (if transp = transportTCP then decodeOffset else 0) > rawData.length
  · exact ⟨"slice bounds out of range", by simp only [hlen, if_true]⟩
  · rcases h with h | ⟨r, hr⟩
    · exact absurd h hlen
    · exact ⟨r, by simp only [hlen, if_false, hr]⟩

/-- A message comes back from decodeDNSData exactly when the payload can be
sliced, Unpack returns it without error and its length is above 12. -/
theorem decodeDNSData_some_iff (p : Unpacker) (transp : transport) (rawData : List Byte)
    (m : Msg) :
    (decodeDNSData p transp rawData).1 = some m ↔
      (if transp = transportTCP then decodeOffset else 0) ≤ rawData.length ∧
      p.Unpack (rawData.drop (if transp = transportTCP then decodeOffset else 0))
        = Outcome.returned (m, none) ∧
      12 < p.Len m := by
  by_cases hlen : (if transp = transportTCP then decodeOffset else 0) ≤ rawData.length
  · cases hu : p.Unpack (rawData.drop (if transp = transportTCP then decodeOffset else 0)) with
    | panicked r =>
      obtain ⟨r2, h2⟩ := decodeDNSData_of_panic p transp rawData (Or.inr ⟨r, hu⟩)
      simp [h2]
    | returned a =>
      obtain ⟨msg, err⟩ := a
      rw [decodeDNSData_of_returned p transp rawData msg err hlen hu]
      by_cases hc : p.Len msg ≤ 12 ∨ err.isSome = true
      · simp only [hc, if_true, hlen, true_and, Outcome.returned.injEq, Prod.mk.injEq]
        constructor
        · intro h
          cases h
        · rintro ⟨⟨h1, h2⟩, h3⟩
          subst h1 h2
          rcases hc with hc | hc
          · exact absurd h3 (not_lt.mpr hc)
          · cases hc
      · simp only [hc, if_false, hlen, true_and, Outcome.returned.injEq, Prod.mk.injEq,
          Option.some.injEq]
        push_neg at hc
        constructor
        · intro h
          subst h
          refine ⟨⟨rfl, ?_⟩, hc.1⟩
          cases err with
          | none => rfl
          | some e => exact absurd rfl hc.2
        · rintro ⟨⟨h1, _⟩, _⟩
          exact h1
  · obtain ⟨r2, h2⟩ := decodeDNSData_of_panic p transp rawData (Or.inl (not_le.mp hlen))
    simp [h2, hlen]

/-! ## Claims C21, C22 -/

/-- C21: decodeDNSData hands the unpacker rawData from offset 2 for TCP and
from offset 0 for UDP; it returns a message only if the unpacker returns it
with no error and its length is greater than 12; and whenever the unpacker
returns normally but reports an error or the length is 12 or less, the
result is a nil message with the NonDNS error. -/
theorem C21_decodeDNSData_offset_and_length (p : Unpacker) (rawData : List Byte) :
    (∀ m, (decodeDNSData p transportTCP rawData).1 = some m ↔
      2 ≤ rawData.length ∧ p.Unpack (rawData.drop 2) = Outcome.returned (m, none) ∧
        12 < p.Len m) ∧
    (∀ m, (decodeDNSData p transportUDP rawData).1 = some m ↔
      p.Unpack rawData = Outcome.returned (m, none) ∧ 12 < p.Len m) ∧
    (∀ m err, 2 ≤ rawData.length → p.Unpack (rawData.drop 2) = Outcome.returned (m, err) →
      err.isSome = true ∨ p.Len m ≤ 12 →
      decodeDNSData p transportTCP rawData = (none, some DecodeError.nonDNSMsg)) ∧
    (∀ m err, p.Unpack rawData = Outcome.returned (m, err) →
      err.isSome = true ∨ p.Len m ≤ 12 →
      decodeDNSData p transportUDP rawData = (none, some DecodeError.nonDNSMsg)) := by
  have hT : (if transportTCP = transportTCP then decodeOffset else 0) = 2 := by decide
  have hU : (if transportUDP = transportTCP then decodeOffset else 0) = 0 := by decide
  refine ⟨?_, ?_, ?_, ?_⟩
  · intro m
    have h := decodeDNSData_some_iff p transportTCP rawData m
    rw [hT] at h
    exact h
  · intro m
    have h := decodeDNSData_some_iff p transportUDP rawData m
    rw [hU] at h
    simpa using h
  · intro m err hlen hu hc
    have h := decodeDNSData_of_returned p transportTCP rawData m err (by rw [hT]; exact hlen)
      (by rw [hT]; exact hu)
    rw [h, if_pos (Or.symm hc)]
  · intro m err hu hc
    have h := decodeDNSData_of_returned p transportUDP rawData m err (by rw [hU]; omega)
      (by rw [hU]; simpa using hu)
    rw [h, if_pos (Or.symm hc)]

/-- C22, as stated, fails: on the empty UDP payload the sample unpacker
panics, and a TCP payload of one byte cannot be sliced from offset 2; in
both cases decodeDNSData returns a nil message with the error made from the
panic value, which is not the NonDNS error. -/
theorem C22_panic_error_is_not_NonDNS :
    sampleUnpacker.Unpack [] = Outcome.panicked "index out of range" ∧
    decodeDNSData sampleUnpacker transportUDP []
      = (none, some (DecodeError.recovered "index out of range")) ∧
    decodeDNSData sampleUnpacker transportUDP [] ≠ (none, some DecodeError.nonDNSMsg) ∧
    decodeDNSData sampleUnpacker transportTCP [0]
      = (none, some (DecodeError.recovered "slice bounds out of range")) ∧
    decodeDNSData sampleUnpacker transportTCP [0] ≠ (none, some DecodeError.nonDNSMsg) := by
  refine ⟨rfl, rfl, ?_, rfl, ?_⟩
  · intro h
    have h2 : decodeDNSData sampleUnpacker transportUDP []
        = (none, some (DecodeError.recovered "index out of range")) := rfl
    rw [h2] at h
    cases h
  · intro h
    have h2 : decodeDNSData sampleUnpacker transportTCP [0]
        = (none, some (DecodeError.recovered "slice bounds out of range")) := rfl
    rw [h2] at h
    cases h

/-- C22, amended: for every transport and input on which parsing aborts
abruptly (the unpacker panics, or slicing off the TCP length prefix of a
payload shorter than 2 bytes panics), decodeDNSData returns a nil message
and a non-nil error, which is the error that the deferred function makes
from the recovered panic value and not the NonDNS error. -/
theorem C22_panic_gives_recovered_error (p : Unpacker) (transp : transport)
    (rawData : List Byte)
    (h : (if transp = transportTCP then decodeOffset else 0) > rawData.length ∨
      ∃ r, p.Unpack (rawData.drop (if transp = transportTCP then decodeOffset else 0))
        = Outcome.panicked r) :
    (decodeDNSData p transp rawData).1 = none ∧
    (∃ r, (decodeDNSData p transp rawData).2 = some (DecodeError.recovered r)) ∧
    (decodeDNSData p transp rawData).2 ≠ some DecodeError.nonDNSMsg := by
  obtain ⟨r, hr⟩ := decodeDNSData_of_panic p transp rawData h
  rw [hr]
  exact ⟨rfl, ⟨r, rfl⟩, by simp⟩

theorem C22_panic_gives_recovered_error_witness :
    ((if transportTCP = transportTCP then decodeOffset else 0) > [(0 : Byte)].length ∨
      ∃ r, sampleUnpacker.Unpack
        ([(0 : Byte)].drop (if transportTCP = transportTCP then decodeOffset else 0))
          = Outcome.panicked r) ∧
    (decodeDNSData sampleUnpacker transportTCP [0]).1 = none ∧
    (∃ r, (decodeDNSData sampleUnpacker transportTCP [0]).2
      = some (DecodeError.recovered r)) ∧
    (decodeDNSData sampleUnpacker transportTCP [0]).2 ≠ some DecodeError.nonDNSMsg :=
  ⟨Or.inl (by decide),
    C22_panic_gives_recovered_error sampleUnpacker transportTCP [0] (Or.inl (by decide))⟩

/-! ## The header-only decode -/

/-- The bytes handed to the unpacker by decodeDNSHeader over UDP: the first
twelve bytes of the payload (all of it when it is shorter). -/
theorem headerSlice_UDP (rawData : List Byte) :
    headerSlice transportUDP rawData = some (rawData.take 12) := by
  unfold headerSlice
  have hU : (if transportUDP = transportTCP then decodeOffset else 0) = 0 := by decide
  simp only [hU]
  by_cases h : rawData.length < 12
  · simp [h, List.take_of_length_le (le_of_lt h)]
  · simp [h]

/-- The bytes handed to the unpacker by decodeDNSHeader over TCP, for a
payload of at least 12 bytes: bytes 2 to 11 of the payload, ten bytes. -/
theorem headerSlice_TCP (rawData : List Byte) (h : 12 ≤ rawData.length) :
    headerSlice transportTCP rawData = some ((rawData.take 12).drop 2) ∧
    ((rawData.take 12).drop 2).length = 10 := by
  unfold headerSlice
  have hT : (if transportTCP = transportTCP then decodeOffset else 0) = 2 := by decide
  simp only [hT]
  have h2 : ¬ rawData.length < 12 := not_lt.mpr h
  simp [h2, decodeOffset]
  omega

/-- Over TCP a payload shorter than 2 bytes cannot be sliced. -/
theorem headerSlice_TCP_short (rawData : List Byte) (h : rawData.length < 2) :
    headerSlice transportTCP rawData = none := by
  unfold headerSlice
  have hT : (if transportTCP = transportTCP then decodeOffset else 0) = 2 := by decide
  simp only [hT]
  have h2 : rawData.length < 12 := by omega
  simp [h2, h, decodeOffset]

/-! ## Claims C23, C24, C25, C26, C28 -/

/-- C23: for every input on which the header decode yields a message,
handleErrorMsg calls exactly one statistics handler: the truncated-response
handler with (dstIP, srcIP) when the header is a response with the TC bit
set, the response-decode-error handler with (dstIP, srcIP) and the rcode
name when it is a response without TC, and the request-decode-error
handler with (srcIP, dstIP) when it is a query. -/
theorem C23_one_handler_per_header (env : Env) (p : Unpacker) (srcIP dstIP : String)
    (transp : transport) (rawData : List Byte) (tuple : IPPortTuple) (dnsHdr : Msg)
    (hdec : (decodeDNSHeader p transp rawData).1 = some dnsHdr) :
    ∃ call, handleErrorMsg env p srcIP dstIP transp rawData tuple = some [call] ∧
      (dnsHdr.Response = true → dnsHdr.Truncated = true →
        call = StatCall.HandleResponseTruncated dstIP srcIP) ∧
      (dnsHdr.Response = true → dnsHdr.Truncated = false →
        call = StatCall.HandleResponseDecodeErr dstIP srcIP
          (env.dnsResponseCodeToString dnsHdr.Rcode)) ∧
      (dnsHdr.Response = false → call = StatCall.HandleRequestDecodeErr srcIP dstIP) := by
  unfold handleErrorMsg
  rw [hdec]
  cases hr : dnsHdr.Response <;> cases ht : dnsHdr.Truncated <;> simp [hr, ht]

theorem C23_one_handler_per_header_witness :
    (decodeDNSHeader sampleUnpacker transportUDP samplePayload).1 = some sampleQueryData ∧
    ∃ call, handleErrorMsg sampleEnv sampleUnpacker "fe80::1" "fe80::2" transportUDP
        samplePayload sampleQueryIPPort = some [call] ∧
      (sampleQueryData.Response = true → sampleQueryData.Truncated = true →
        call = StatCall.HandleResponseTruncated "fe80::2" "fe80::1") ∧
      (sampleQueryData.Response = true → sampleQueryData.Truncated = false →
        call = StatCall.HandleResponseDecodeErr "fe80::2" "fe80::1"
          (sampleEnv.dnsResponseCodeToString sampleQueryData.Rcode)) ∧
      (sampleQueryData.Response = false →
        call = StatCall.HandleRequestDecodeErr "fe80::1" "fe80::2") :=
  ⟨rfl, C23_one_handler_per_header sampleEnv sampleUnpacker "fe80::1" "fe80::2" transportUDP
    samplePayload sampleQueryIPPort sampleQueryData rfl⟩

/-- C24, at the failing input: for a TCP payload of one byte (and of no byte)
the slice rawData[2:qrBit] panics, so decodeDNSHeader returns a nil message
with the recovered error, whatever the unpacker; handleErrorMsg ignores the
error and dereferences the nil header. The same happens on any payload on
which the unpacker panics, as the empty UDP payload for the sample one. -/
theorem C24_header_decode_can_return_nil (env : Env) (p : Unpacker) (srcIP dstIP : String)
    (tuple : IPPortTuple) :
    decodeDNSHeader p transportTCP [0]
      = (none, some (DecodeError.recovered "slice bounds out of range")) ∧
    handleErrorMsg env p srcIP dstIP transportTCP [0] tuple = none ∧
    decodeDNSHeader p transportTCP []
      = (none, some (DecodeError.recovered "slice bounds out of range")) ∧
    handleErrorMsg env p srcIP dstIP transportTCP [] tuple = none ∧
    (decodeDNSHeader sampleUnpacker transportUDP []).1 = none ∧
    handleErrorMsg env sampleUnpacker srcIP dstIP transportUDP [] tuple = none := by
  have h1 : decodeDNSHeader p transportTCP [0]
      = (none, some (DecodeError.recovered "slice bounds out of range")) := by
    unfold decodeDNSHeader
    rw [headerSlice_TCP_short [0] (by decide)]
  have h0 : decodeDNSHeader p transportTCP []
      = (none, some (DecodeError.recovered "slice bounds out of range")) := by
    unfold decodeDNSHeader
    rw [headerSlice_TCP_short [] (by decide)]
  refine ⟨h1, ?_, h0, ?_, rfl, rfl⟩
  · unfold handleErrorMsg
    rw [h1]
  · unfold handleErrorMsg
    rw [h0]

/-- C25, at the failing input: for the 16-byte payload 0, 1, ..., 15 over TCP
decodeDNSHeader hands the unpacker the ten bytes 2 to 11, not the twelve
bytes 2 to 13 of the DNS header; over UDP it hands bytes 0 to 11. -/
theorem C25_TCP_header_slice_has_ten_bytes :
    headerSlice transportTCP samplePayload = some [2, 3, 4, 5, 6, 7, 8, 9, 10, 11] ∧
    (samplePayload.drop 2).take 12 = [2, 3, 4, 5, 6, 7, 8, 9, 10, 11, 12, 13] ∧
    headerSlice transportTCP samplePayload ≠ some ((samplePayload.drop 2).take 12) ∧
    headerSlice transportUDP samplePayload = some [0, 1, 2, 3, 4, 5, 6, 7, 8, 9, 10, 11] ∧
    (∀ p : Unpacker, decodeDNSHeader p transportTCP samplePayload =
      match p.Unpack [2, 3, 4, 5, 6, 7, 8, 9, 10, 11] with
      | Outcome.panicked r => (none, some (DecodeError.recovered r))
      | Outcome.returned (msg, _) => (some msg, none)) := by
  refine ⟨by decide, by decide, by decide, by decide, ?_⟩
  intro p
  unfold decodeDNSHeader
  rw [show headerSlice transportTCP samplePayload = some [2, 3, 4, 5, 6, 7, 8, 9, 10, 11]
    by decide]

/-- C26: for every message whose source and destination are classified as an
internal call, receivedDNSRequest and receivedDNSResponse return with the
state unchanged: the transaction map, the unmatched counters, and the
pushed records and statistics. -/
theorem C26_internal_call_is_ignored (env : Env) (s : State) (tuple : dnsTuple)
    (msg : dnsMessage)
    (hint : env.IsInternalCall (env.ipString msg.tuple.SrcIP) (env.ipString msg.tuple.DstIP)
      = true) :
    receivedDNSRequest env s tuple msg = some s ∧ receivedDNSResponse env s tuple msg = s := by
  constructor
  · simp [receivedDNSRequest, hint]
  · simp [receivedDNSResponse, hint]

theorem C26_internal_call_is_ignored_witness :
    sampleEnv.IsInternalCall (sampleEnv.ipString sampleInternalQuery.tuple.SrcIP)
      (sampleEnv.ipString sampleInternalQuery.tuple.DstIP) = true ∧
    receivedDNSRequest sampleEnv sampleStateOutstanding sampleQueryTuple sampleInternalQuery
      = some sampleStateOutstanding ∧
    receivedDNSResponse sampleEnv sampleStateOutstanding sampleQueryTuple sampleInternalQuery
      = sampleStateOutstanding :=
  ⟨by decide,
    C26_internal_call_is_ignored sampleEnv sampleStateOutstanding sampleQueryTuple
      sampleInternalQuery (by decide)⟩

/-- C28: when dropDecodedPacket is set, or no reporter is configured,
publishTransaction pushes no record for any transaction and any isDrop
value: it returns before touching anything, so that the state, with the
transactions it holds, is as it was. (The function never assigns to a field
of the transaction it is given, which is an input only.) -/
theorem C28_no_reporter_or_drop_pushes_nothing (env : Env) (s : State) (t : dnsTransaction)
    (isDrop : Bool) (h : s.dns.dropDecodedPacket = true ∨ s.dns.results = false) :
    (publishTransaction env s t isDrop).records = s.records ∧
    publishTransaction env s t isDrop = s := by
  have : publishTransaction env s t isDrop = s := by
    unfold publishTransaction
    rcases h with h | h
    · by_cases hr : s.dns.results = false
      · simp [hr]
      · simp [hr, h]
    · simp [h]
  rw [this]
  exact ⟨rfl, rfl⟩

theorem C28_no_reporter_or_drop_pushes_nothing_witness :
    (sampleStateDropping.dns.dropDecodedPacket = true ∨ sampleStateDropping.dns.results = false) ∧
    sampleOrphan.request = none ∧ sampleOrphan.response = some sampleResponse ∧
    (publishTransaction sampleEnv sampleStateDropping sampleOrphan false).records
      = sampleStateDropping.records ∧
    publishTransaction sampleEnv sampleStateDropping sampleOrphan false = sampleStateDropping :=
  ⟨Or.inl rfl, rfl, rfl,
    C28_no_reporter_or_drop_pushes_nothing sampleEnv sampleStateDropping sampleOrphan false
      (Or.inl rfl)⟩

/-! ## Resource records of the dns sub-record -/

/-- The struct-based converter returns nothing exactly for the OPT pseudo-record. -/
theorem rrToDNSAnswer_eq_none_iff (env : Env) (rr : RR) :
    rrToDNSAnswer env rr = none ↔ rr.asOPT.isSome = true := by
  obtain ⟨hdr, body⟩ := rr
  cases body <;> simp [rrToDNSAnswer, RR.asOPT]
  case other r => cases r <;> simp

/-- The entry that rrsToDNSAnswers appends for a record: the answer of
rrToDNSAnswer with name, type, class and ttl taken from the header. -/
theorem rrsToDNSAnswers_eq_filterMap (env : Env) (records : List RR) :
    rrsToDNSAnswers env records =
      records.filterMap (fun rr =>
        (rrToDNSAnswer env rr).map (fun mapStr =>
          { mapStr with
            Name := rr.Header.Name
            Type_ := env.dnsTypeToString rr.Header.Rrtype
            Class := env.dnsClassToString rr.Header.Class
            TTL := Itoa rr.Header.Ttl.val })) := by
  unfold rrsToDNSAnswers
  suffices h : ∀ (acc : List Answer),
      List.foldl
        (fun mapStrSlice rr =>
          let rrHeader := rr.Header
          match rrToDNSAnswer env rr with
          | some mapStr =>
            mapStrSlice ++
              [{ mapStr with
                  Name := rrHeader.Name
                  Type_ := env.dnsTypeToString rrHeader.Rrtype
                  Class := env.dnsClassToString rrHeader.Class
                  TTL := Itoa rrHeader.Ttl.val }]
          | none => mapStrSlice)
        acc records =
      acc ++ records.filterMap (fun rr =>
        (rrToDNSAnswer env rr).map (fun mapStr =>
          { mapStr with
            Name := rr.Header.Name
            Type_ := env.dnsTypeToString rr.Header.Rrtype
            Class := env.dnsClassToString rr.Header.Class
            TTL := Itoa rr.Header.Ttl.val })) by
    simpa using h []
  induction records with
  | nil => intro acc; simp
  | cons rr rest ih =>
    intro acc
    rw [List.foldl_cons, ih]
    cases h : rrToDNSAnswer env rr with
    | none => simp [List.filterMap_cons, h]
    | some a => simp [List.filterMap_cons, h]

/-- The entries of rrsToDNSAnswers correspond, one to one and in order, to
the records that are not OPT. -/
theorem rrsToDNSAnswers_forall₂ (env : Env) (records : List RR) :
    List.Forall₂
      (fun rr a => ∃ mapStr, rrToDNSAnswer env rr = some mapStr ∧
        a = { mapStr with
              Name := rr.Header.Name
              Type_ := env.dnsTypeToString rr.Header.Rrtype
              Class := env.dnsClassToString rr.Header.Class
              TTL := Itoa rr.Header.Ttl.val })
      (records.filter (fun rr => rr.asOPT.isNone))
      (rrsToDNSAnswers env records) := by
  rw [rrsToDNSAnswers_eq_filterMap]
  induction records with
  | nil => simp
  | cons rr rest ih =>
    cases h : rrToDNSAnswer env rr with
    | none =>
      have ho : rr.asOPT.isSome = true := (rrToDNSAnswer_eq_none_iff env rr).mp h
      have ho2 : rr.asOPT.isNone = false := by
        cases hh : rr.asOPT with
        | none => rw [hh] at ho; cases ho
        | some o => rfl
      simp only [List.filterMap_cons, h, Option.map_none', List.filter_cons, ho2]
      exact ih
    | some a =>
      have ho2 : rr.asOPT.isNone = true := by
        cases hh : rr.asOPT with
        | none => rfl
        | some o =>
          have := (rrToDNSAnswer_eq_none_iff env rr).mpr (by rw [hh]; rfl)
          rw [this] at h
          cases h
      simp only [List.filterMap_cons, h, Option.map_some', List.filter_cons, ho2, if_true]
      exact List.Forall₂.cons ⟨a, h, rfl⟩ ih

/-- The additionals of the dns sub-record: none, or the entries for the
additional section. -/
theorem toDNSRecord_Additionals (env : Env) (dns : Msg) (authority additional : Bool) :
    (toDNSRecord env dns authority additional).Additionals = [] ∨
    (toDNSRecord env dns authority additional).Additionals = rrsToDNSAnswers env dns.Extra := by
  unfold toDNSRecord
  simp only []
  repeat' split
  all_goals first
    | (left; rfl)
    | (right; rfl)

/-! ## Claims C27, C29 -/

/-- C27: for every list of resource records, rrsToDNSAnswers returns exactly
one entry per record that is not OPT, in the original order, and no entry
for an OPT pseudo-record (for which rrToDNSAnswer returns nil); the name,
type, class and ttl of each entry come from the header of its record. Hence
the additionals of a record built by toDNSRecord are entries for records of
the additional section that are not OPT. -/
theorem C27_answers_skip_OPT (env : Env) (records : List RR) :
    (∀ rr, rrToDNSAnswer env rr = none ↔ rr.asOPT.isSome = true) ∧
    (rrsToDNSAnswers env records).length
      = (records.filter (fun rr => rr.asOPT.isNone)).length ∧
    List.Forall₂
      (fun rr a => (∃ mapStr, rrToDNSAnswer env rr = some mapStr ∧
          a = { mapStr with
                Name := rr.Header.Name
                Type_ := env.dnsTypeToString rr.Header.Rrtype
                Class := env.dnsClassToString rr.Header.Class
                TTL := Itoa rr.Header.Ttl.val }) ∧
        a.Name = rr.Header.Name ∧ a.Type_ = env.dnsTypeToString rr.Header.Rrtype ∧
        a.Class = env.dnsClassToString rr.Header.Class ∧ a.TTL = Itoa rr.Header.Ttl.val)
      (records.filter (fun rr => rr.asOPT.isNone))
      (rrsToDNSAnswers env records) ∧
    (∀ (dns : Msg) (authority additional : Bool),
      ∃ rs, rs.Sublist dns.Extra ∧ (∀ rr ∈ rs, rr.asOPT = none) ∧
        List.Forall₂
          (fun rr a => ∃ mapStr, rrToDNSAnswer env rr = some mapStr ∧
            a = { mapStr with
                  Name := rr.Header.Name
                  Type_ := env.dnsTypeToString rr.Header.Rrtype
                  Class := env.dnsClassToString rr.Header.Class
                  TTL := Itoa rr.Header.Ttl.val })
          rs (toDNSRecord env dns authority additional).Additionals) := by
  have hF := rrsToDNSAnswers_forall₂ env records
  refine ⟨rrToDNSAnswer_eq_none_iff env, hF.length_eq.symm, ?_, ?_⟩
  · refine hF.imp ?_
    rintro rr a ⟨mapStr, h1, h2⟩
    refine ⟨⟨mapStr, h1, h2⟩, ?_⟩
    subst h2
    exact ⟨rfl, rfl, rfl, rfl⟩
  · intro dns authority additional
    rcases toDNSRecord_Additionals env dns authority additional with h | h
    · exact ⟨[], List.nil_sublist _, by simp, by rw [h]; exact List.Forall₂.nil⟩
    · refine ⟨dns.Extra.filter (fun rr => rr.asOPT.isNone), List.filter_sublist _, ?_, ?_⟩
      · intro rr hrr
        have := (List.mem_filter.mp hrr).2
        cases hh : rr.asOPT with
        | none => rfl
        | some o => rw [hh] at this; cases this
      · rw [h]
        exact rrsToDNSAnswers_forall₂ env dns.Extra

/-- C29, as stated, fails: for the IPv4 flow 10.0.0.1 to 10.0.0.2 the two
address fields of the key are the four address bytes followed by twelve
zero bytes, not the IPv4-mapped form. -/
theorem C29_ipv4_field_is_not_the_mapped_form :
    sampleIPv4.SrcIP = [10, 0, 0, 1] ∧ sampleIPv4.DstIP = [10, 0, 0, 2] ∧
    (dnsTupleFromIPPort sampleIPv4 transportUDP 0x0100).hashable.take 16
      = [10, 0, 0, 1, 0, 0, 0, 0, 0, 0, 0, 0, 0, 0, 0, 0] ∧
    (dnsTupleFromIPPort sampleIPv4 transportUDP 0x0100).hashable.take 16
      ≠ specMappedIPv4 10 0 0 1 ∧
    ((dnsTupleFromIPPort sampleIPv4 transportUDP 0x0100).hashable.drop 18).take 16
      = [10, 0, 0, 2, 0, 0, 0, 0, 0, 0, 0, 0, 0, 0, 0, 0] ∧
    ((dnsTupleFromIPPort sampleIPv4 transportUDP 0x0100).hashable.drop 18).take 16
      ≠ specMappedIPv4 10 0 0 2 := by
  decide

/-! ## The address fields of the key for addresses of any length -/

theorem copySlice_length (arr : List Byte) (lo hi : Nat) (src : List Byte)
    (h1 : lo ≤ hi) (h2 : hi ≤ arr.length) :
    (copySlice arr lo hi src).length = arr.length := by
  simp only [copySlice, List.length_append, List.length_take, List.length_drop]
  omega

/-- A copy leaves what is before its start as it was. -/
theorem copySlice_take (arr : List Byte) (lo hi : Nat) (src : List Byte) (k : Nat)
    (hk : k ≤ lo) (hlo : lo ≤ arr.length) :
    (copySlice arr lo hi src).take k = arr.take k := by
  unfold copySlice
  simp only [List.append_assoc]
  rw [List.take_append_of_le_length (by rw [List.length_take]; omega), List.take_take,
    Nat.min_eq_left hk]

/-- A copy leaves what is after the bytes it writes as it was. -/
theorem copySlice_drop (arr : List Byte) (lo hi : Nat) (src : List Byte) (k : Nat)
    (hk : lo + min (hi - lo) src.length ≤ k) (hlo : lo ≤ arr.length) :
    (copySlice arr lo hi src).drop k = arr.drop k := by
  unfold copySlice
  have hlen : (List.take lo arr ++ List.take (min (hi - lo) src.length) src).length
      = lo + min (hi - lo) src.length := by
    simp only [List.length_append, List.length_take]
    omega
  obtain ⟨i, hi2⟩ : ∃ i, k = (List.take lo arr
      ++ List.take (min (hi - lo) src.length) src).length + i :=
    ⟨k - (lo + min (hi - lo) src.length), by rw [hlen]; omega⟩
  rw [hi2, List.drop_append, List.drop_drop, hlen]

/-- A copy leaves a window that ends before its start as it was. -/
theorem copySlice_window (arr : List Byte) (lo hi : Nat) (src : List Byte) (k m : Nat)
    (hk : k + m ≤ lo) (hlo : lo ≤ arr.length) :
    ((copySlice arr lo hi src).drop k).take m = (arr.drop k).take m := by
  rw [List.take_drop, List.take_drop, copySlice_take arr lo hi src (k + m) hk hlo]

/-- The source address field of the key: the first sixteen bytes of the
address, completed with zero bytes. -/
theorem hashable_src_field (p : IPPortTuple) (tr : transport) (id : UInt16) :
    (dnsTupleFromIPPort p tr id).hashable.take 16 =
      p.SrcIP.take 16 ++ List.replicate (16 - p.SrcIP.length) 0 := by
  simp only [dnsTupleFromIPPort, dnsTuple.computeHashables, dnsTuple.hashable]
  have hz : zeroHashable.length = 41 := by decide
  have l1 := copySlice_length zeroHashable 0 16 p.SrcIP (by omega) (by omega)
  have l2 := copySlice_length (copySlice zeroHashable 0 16 p.SrcIP) 16 18
    [byte (p.SrcPort.val >>> 8), byte p.SrcPort.val] (by omega) (by omega)
  have l3 := copySlice_length _ 18 34 p.DstIP (by omega) (le_of_le_of_eq (by omega) l2.symm)
  have l4 := copySlice_length _ 34 36 [byte (p.DstPort.val >>> 8), byte p.DstPort.val]
    (by omega) (le_of_le_of_eq (by omega) l3.symm)
  rw [List.take_set_of_lt _ _ (by omega),
    copySlice_take _ 36 38 _ 16 (by omega) (by omega),
    copySlice_take _ 34 36 _ 16 (by omega) (by omega),
    copySlice_take _ 18 34 _ 16 (by omega) (by omega),
    copySlice_take _ 16 18 _ 16 (by omega) (by omega)]
  unfold copySlice
  simp only [List.take_zero, List.nil_append, Nat.sub_zero, Nat.zero_add]
  rw [List.take_append_eq_append_take, List.take_take, List.length_take]
  simp only [zeroHashable, maxDNSTupleRawSize, List.drop_replicate, List.take_replicate]
  have ht : List.take (16 ⊓ (16 ⊓ p.SrcIP.length)) p.SrcIP = List.take 16 p.SrcIP := by
    by_cases h : p.SrcIP.length ≤ 16
    · rw [Nat.min_eq_right h, Nat.min_eq_right h, List.take_of_length_le (le_refl _),
        List.take_of_length_le h]
    · have h2 : 16 ≤ p.SrcIP.length := by omega
      rw [Nat.min_eq_left h2, Nat.min_self]
  have hn : (16 - 16 ⊓ p.SrcIP.length ⊓ p.SrcIP.length) ⊓
      (16 + 16 + 2 + 2 + 4 + 1 - 16 ⊓ p.SrcIP.length) = 16 - p.SrcIP.length := by
    omega
  rw [ht, hn]

/-- The destination address field of the key: the first sixteen bytes of the
address, completed with zero bytes. -/
theorem hashable_dst_field (p : IPPortTuple) (tr : transport) (id : UInt16) :
    ((dnsTupleFromIPPort p tr id).hashable.drop 18).take 16 =
      p.DstIP.take 16 ++ List.replicate (16 - p.DstIP.length) 0 := by
  simp only [dnsTupleFromIPPort, dnsTuple.computeHashables, dnsTuple.hashable]
  have hz : zeroHashable.length = 41 := by decide
  have l1 := copySlice_length zeroHashable 0 16 p.SrcIP (by omega) (by omega)
  have l2 := copySlice_length (copySlice zeroHashable 0 16 p.SrcIP) 16 18
    [byte (p.SrcPort.val >>> 8), byte p.SrcPort.val] (by omega) (by omega)
  have l3 := copySlice_length _ 18 34 p.DstIP (by omega) (le_of_le_of_eq (by omega) l2.symm)
  have l4 := copySlice_length _ 34 36 [byte (p.DstPort.val >>> 8), byte p.DstPort.val]
    (by omega) (le_of_le_of_eq (by omega) l3.symm)
  rw [List.take_drop, List.take_set_of_lt _ _ (by omega),
    copySlice_take _ 36 38 _ (18 + 16) (by omega) (by omega),
    copySlice_take _ 34 36 _ (18 + 16) (by omega) (by omega), ← List.take_drop]
  generalize hcs2 : copySlice (copySlice zeroHashable 0 16 p.SrcIP) 16 18
    [byte (p.SrcPort.val >>> 8), byte p.SrcPort.val] = cs2 at l2 ⊢
  have hd : ∀ k, 18 ≤ k → cs2.drop k = List.replicate (41 - k) 0 := by
    intro k hk
    rw [← hcs2, copySlice_drop _ 16 18 _ k (by simp; omega) (by omega),
      copySlice_drop _ 0 16 _ k (by omega) (by omega)]
    rw [show zeroHashable = List.replicate 41 0 from rfl, List.drop_replicate]
  have hlen18 : (List.take 18 cs2).length = 18 := by
    rw [List.length_take]
    omega
  unfold copySlice
  rw [List.append_assoc]
  have hdrop : List.drop 18 (List.take 18 cs2 ++
      (List.take (min (34 - 18) p.DstIP.length) p.DstIP
        ++ List.drop (18 + min (34 - 18) p.DstIP.length) cs2))
      = List.take (min (34 - 18) p.DstIP.length) p.DstIP
        ++ List.drop (18 + min (34 - 18) p.DstIP.length) cs2 := by
    have := @List.drop_append _ (List.take 18 cs2)
      (List.take (min (34 - 18) p.DstIP.length) p.DstIP
        ++ List.drop (18 + min (34 - 18) p.DstIP.length) cs2) 0
    rw [hlen18] at this
    simpa using this
  rw [hdrop, hd _ (by omega), List.take_append_eq_append_take, List.take_take, List.length_take,
    List.take_replicate]
  have ht : List.take (16 ⊓ min (34 - 18) p.DstIP.length) p.DstIP = List.take 16 p.DstIP := by
    by_cases h : p.DstIP.length ≤ 16
    · have h3 : min (34 - 18) p.DstIP.length = p.DstIP.length := by omega
      rw [h3, Nat.min_eq_right h, List.take_of_length_le (le_refl _), List.take_of_length_le h]
    · have h3 : min (34 - 18) p.DstIP.length = 16 := by omega
      rw [h3, Nat.min_self]
  have hn : (16 - min (34 - 18) p.DstIP.length ⊓ p.DstIP.length) ⊓
      (41 - (18 + min (34 - 18) p.DstIP.length)) = 16 - p.DstIP.length := by
    omega
  rw [ht, hn]

/-- C29, amended: for a tuple whose source or destination address is a 4-byte
IPv4 address a.b.c.d, the 16-byte address field of the canonical key is the
four address bytes followed by twelve zero bytes (the bytes are copied to
the start of the zeroed field; no mapped prefix is written). -/
theorem C29_ipv4_field_is_zero_padded_on_the_right (p : IPPortTuple) (tr : transport)
    (id : UInt16) (a b c d : Byte) :
    (dnsTupleFromIPPort { p with SrcIP := [a, b, c, d] } tr id).hashable.take 16
      = [a, b, c, d, 0, 0, 0, 0, 0, 0, 0, 0, 0, 0, 0, 0] ∧
    ((dnsTupleFromIPPort { p with DstIP := [a, b, c, d] } tr id).hashable.drop 18).take 16
      = [a, b, c, d, 0, 0, 0, 0, 0, 0, 0, 0, 0, 0, 0, 0] := by
  constructor
  · rw [hashable_src_field]
    rfl
  · rw [hashable_dst_field]
    rfl

/-! ## Reassembly of a datagram in two fragments -/

theorem find_store_self (d : IPv6Defragmenter) (k : FragmentKey) (fl : FragmentList) :
    (d.store k fl).find k = some fl := by
  simp [IPv6Defragmenter.store, IPv6Defragmenter.find]

/-- The first fragment of a datagram, with the M bit, is buffered when no
list is stored under its key. -/
theorem DefragIPv6_first_of_two (d : IPv6Defragmenter) (ip : IPv6) (now : Time) (nh : Byte)
    (ident : UInt32) (data : List Byte)
    (h44 : ip.NextHeader = 44)
    (hp : parseFragmentHeader ip.Payload =
      some ({ nextHeader := nh, offset := 0, more := true, identification := ident }, data))
    (h8 : data.length % 8 = 0) (hsize : data.length ≤ 65495)
    (hfree : d.find { src := ip.SrcIP, dst := ip.DstIP, identification := ident,
                      nextProtocol := nh } = none) :
    DefragIPv6 d ip now =
      (d.evictIfFull.store
          { src := ip.SrcIP, dst := ip.DstIP, identification := ident, nextProtocol := nh }
          { template := ip, nextProtocol := nh,
            fragments := [{ offset := 0, more := true, payload := data, arrival := now }],
            highestEnd := data.length, totalLength := none, lastSeen := now },
        DefragOutcome.Buffered) := by
  have hs : ¬ (data.length > 65535 - 40) := by omega
  simp [DefragIPv6, h44, hp, hfree, FragmentList.insert, FragmentRecord.length, h8, hs,
    insertOrdered, FragmentList.complete]

/-- The last fragment of a datagram in two fragments, arriving first, is
buffered when no list is stored under its key. -/
theorem DefragIPv6_last_of_two_first (d : IPv6Defragmenter) (ip : IPv6) (now : Time) (nh : Byte)
    (ident : UInt32) (data : List Byte) (offset : Nat)
    (h44 : ip.NextHeader = 44)
    (hp : parseFragmentHeader ip.Payload =
      some ({ nextHeader := nh, offset := offset, more := false, identification := ident },
        data))
    (hpos : 0 < offset) (hsize : data.length ≤ 65495)
    (hfree : d.find { src := ip.SrcIP, dst := ip.DstIP, identification := ident,
                      nextProtocol := nh } = none) :
    DefragIPv6 d ip now =
      (d.evictIfFull.store
          { src := ip.SrcIP, dst := ip.DstIP, identification := ident, nextProtocol := nh }
          { template := ip, nextProtocol := nh,
            fragments := [{ offset := offset, more := false, payload := data, arrival := now }],
            highestEnd := offset + data.length, totalLength := some (offset + data.length),
            lastSeen := now },
        DefragOutcome.Buffered) := by
  have hs : ¬ (data.length > 65535 - 40) := by omega
  have hne : ¬ offset = 0 := by omega
  simp [DefragIPv6, h44, hp, hfree, FragmentList.insert, FragmentRecord.length, hs,
    insertOrdered, FragmentList.complete, contiguousFrom, hne]

/-- The last fragment, arriving after the first, completes the datagram: the
delivered payload is the data of the first followed by the data of the last. -/
theorem DefragIPv6_last_after_first (d : IPv6Defragmenter) (ip : IPv6) (now : Time) (nh : Byte)
    (ident : UInt32) (data1 data2 : List Byte) (template : IPv6) (t1 : Time)
    (h44 : ip.NextHeader = 44)
    (hp : parseFragmentHeader ip.Payload =
      some ({ nextHeader := nh, offset := data1.length, more := false,
              identification := ident }, data2))
    (hpos : 0 < data1.length) (hsize : data1.length + data2.length ≤ 65495)
    (hfind : d.find { src := ip.SrcIP, dst := ip.DstIP, identification := ident,
                      nextProtocol := nh } =
      some { template := template, nextProtocol := nh,
             fragments := [{ offset := 0, more := true, payload := data1, arrival := t1 }],
             highestEnd := data1.length, totalLength := none, lastSeen := t1 }) :
    DefragIPv6 d ip now =
      (d.remove { src := ip.SrcIP, dst := ip.DstIP, identification := ident, nextProtocol := nh },
        DefragOutcome.Delivered
          { template with NextHeader := nh, Length := (data1 ++ data2).length,
                          Payload := data1 ++ data2 }) := by
  have hs : ¬ (data1.length + data2.length > 65535 - 40) := by omega
  have hne : ¬ (0 = data1.length) := by omega
  have hlt : ¬ (data1.length < 0) := by omega
  simp [DefragIPv6, h44, hp, hfind, FragmentList.insert, FragmentRecord.length, hs,
    insertOrdered, FragmentList.complete, contiguousFrom, hne, hlt, FragmentRecord.overlaps,
    FragmentList.rebuild]

/-- The first fragment, arriving after the last, completes the datagram with
the same payload. -/
theorem DefragIPv6_first_after_last (d : IPv6Defragmenter) (ip : IPv6) (now : Time) (nh : Byte)
    (ident : UInt32) (data1 data2 : List Byte) (template : IPv6) (t1 : Time)
    (h44 : ip.NextHeader = 44)
    (hp : parseFragmentHeader ip.Payload =
      some ({ nextHeader := nh, offset := 0, more := true, identification := ident }, data1))
    (h8 : data1.length % 8 = 0)
    (hpos : 0 < data1.length) (hsize : data1.length + data2.length ≤ 65495)
    (hfind : d.find { src := ip.SrcIP, dst := ip.DstIP, identification := ident,
                      nextProtocol := nh } =
      some { template := template, nextProtocol := nh,
             fragments := [{ offset := data1.length, more := false, payload := data2,
                             arrival := t1 }],
             highestEnd := data1.length + data2.length,
             totalLength := some (data1.length + data2.length), lastSeen := t1 }) :
    DefragIPv6 d ip now =
      (d.remove { src := ip.SrcIP, dst := ip.DstIP, identification := ident, nextProtocol := nh },
        DefragOutcome.Delivered
          { template with NextHeader := nh, Length := (data1 ++ data2).length,
                          Payload := data1 ++ data2 }) := by
  have hs : ¬ (data2.length + data1.length > 65535 - 40) := by omega
  have hne : ¬ (data1.length = 0) := by omega
  simp [DefragIPv6, h44, hp, hfind, FragmentList.insert, FragmentRecord.length, hs,
    insertOrdered, FragmentList.complete, contiguousFrom, hne, hpos, FragmentRecord.overlaps,
    FragmentList.rebuild, h8]

/-! ## The BCDNS fixtures -/

set_option maxRecDepth 100000 in
theorem testBCDNSFrag1_data_length : (testBCDNSFrag1.drop 62).length = 1448 := by
  rfl

set_option maxRecDepth 100000 in
theorem testBCDNSFrag2_data_length : (testBCDNSFrag2.drop 62).length = 51 := by
  rfl

set_option maxRecDepth 100000 in
theorem testBCDNSFrag1_header :
    (ipv6OfFrame testBCDNSFrag1).NextHeader = 44 ∧
    parseFragmentHeader (ipv6OfFrame testBCDNSFrag1).Payload =
      some ({ nextHeader := 17, offset := 0, more := true, identification := 1981035780 },
        testBCDNSFrag1.drop 62) := by
  constructor
  · rfl
  · rfl

set_option maxRecDepth 100000 in
theorem testBCDNSFrag2_header :
    (ipv6OfFrame testBCDNSFrag2).NextHeader = 44 ∧
    parseFragmentHeader (ipv6OfFrame testBCDNSFrag2).Payload =
      some ({ nextHeader := 17, offset := 1448, more := false, identification := 1981035780 },
        testBCDNSFrag2.drop 62) ∧
    (ipv6OfFrame testBCDNSFrag2).SrcIP = (ipv6OfFrame testBCDNSFrag1).SrcIP ∧
    (ipv6OfFrame testBCDNSFrag2).DstIP = (ipv6OfFrame testBCDNSFrag1).DstIP := by
  refine ⟨rfl, rfl, ?_, ?_⟩
  · decide
  · decide


/-- A datagram in two fragments, fed in either order to a defragmenter that
holds no list under its key: the fragment fed first is buffered, the other
one then delivers the data of the first fragment followed by the data of the
last, under the protocol that follows the Fragment header. -/
theorem DefragIPv6_two_fragments (d : IPv6Defragmenter) (ip1 ip2 : IPv6) (t1 t2 : Time)
    (nh : Byte) (ident : UInt32) (data1 data2 : List Byte)
    (h1 : ip1.NextHeader = 44) (h2 : ip2.NextHeader = 44)
    (hsrc : ip2.SrcIP = ip1.SrcIP) (hdst : ip2.DstIP = ip1.DstIP)
    (hp1 : parseFragmentHeader ip1.Payload =
      some ({ nextHeader := nh, offset := 0, more := true, identification := ident }, data1))
    (hp2 : parseFragmentHeader ip2.Payload =
      some ({ nextHeader := nh, offset := data1.length, more := false,
              identification := ident }, data2))
    (h8 : data1.length % 8 = 0) (hpos : 0 < data1.length)
    (hsize : data1.length + data2.length ≤ 65495)
    (hfree : d.find { src := ip1.SrcIP, dst := ip1.DstIP, identification := ident,
                      nextProtocol := nh } = none) :
    (DefragIPv6 d ip1 t1).2 = DefragOutcome.Buffered ∧
    (DefragIPv6 d ip2 t1).2 = DefragOutcome.Buffered ∧
    (∃ r, (DefragIPv6 (DefragIPv6 d ip1 t1).1 ip2 t2).2 = DefragOutcome.Delivered r ∧
          r.Payload = data1 ++ data2 ∧ r.NextHeader = nh) ∧
    (∃ r, (DefragIPv6 (DefragIPv6 d ip2 t1).1 ip1 t2).2 = DefragOutcome.Delivered r ∧
          r.Payload = data1 ++ data2 ∧ r.NextHeader = nh) := by
  have hfree2 : d.find { src := ip2.SrcIP, dst := ip2.DstIP, identification := ident,
                         nextProtocol := nh } = none := by rw [hsrc, hdst]; exact hfree
  have e1 := DefragIPv6_first_of_two d ip1 t1 nh ident data1 h1 hp1 h8 (by omega) hfree
  have e2 := DefragIPv6_last_of_two_first d ip2 t1 nh ident data2 data1.length h2 hp2 hpos
    (by omega) hfree2
  refine ⟨by rw [e1], by rw [e2], ?_, ?_⟩
  · rw [e1]
    have hfind := find_store_self d.evictIfFull
      { src := ip1.SrcIP, dst := ip1.DstIP, identification := ident, nextProtocol := nh }
      { template := ip1, nextProtocol := nh,
        fragments := [{ offset := 0, more := true, payload := data1, arrival := t1 }],
        highestEnd := data1.length, totalLength := none, lastSeen := t1 }
    rw [← hsrc, ← hdst] at hfind
    rw [← hsrc, ← hdst]
    have e := DefragIPv6_last_after_first _ ip2 t2 nh ident data1 data2 ip1 t1 h2 hp2 hpos hsize
      hfind
    exact ⟨_, by rw [e], rfl, rfl⟩
  · rw [e2]
    have hfind := find_store_self d.evictIfFull
      { src := ip2.SrcIP, dst := ip2.DstIP, identification := ident, nextProtocol := nh }
      { template := ip2, nextProtocol := nh,
        fragments := [{ offset := data1.length, more := false, payload := data2,
                        arrival := t1 }],
        highestEnd := data1.length + data2.length,
        totalLength := some (data1.length + data2.length), lastSeen := t1 }
    rw [hsrc, hdst] at hfind
    rw [hsrc, hdst]
    have e := DefragIPv6_first_after_last _ ip1 t2 nh ident data1 data2 ip2 t1 h1 hp1 h8 hpos
      hsize hfind
    exact ⟨_, by rw [e], rfl, rfl⟩

/-- The BCDNS fixtures: whichever of the two frames is fed first to a new
defragmenter is buffered, and the other then yields a packet of protocol 17
whose payload is the 1499 bytes of the first frame from byte 62 followed by
those of the second frame from byte 62. -/
theorem BCDNS_fixtures_reassemble (t1 t2 : Time) :
    (DefragIPv6 NewIPv6Defragmenter (ipv6OfFrame testBCDNSFrag1) t1).2 = DefragOutcome.Buffered ∧
    (DefragIPv6 NewIPv6Defragmenter (ipv6OfFrame testBCDNSFrag2) t1).2 = DefragOutcome.Buffered ∧
    (∃ r, (DefragIPv6 (DefragIPv6 NewIPv6Defragmenter (ipv6OfFrame testBCDNSFrag1) t1).1
            (ipv6OfFrame testBCDNSFrag2) t2).2 = DefragOutcome.Delivered r ∧
          r.Payload = testBCDNSFrag1.drop 62 ++ testBCDNSFrag2.drop 62 ∧ r.NextHeader = 17) ∧
    (∃ r, (DefragIPv6 (DefragIPv6 NewIPv6Defragmenter (ipv6OfFrame testBCDNSFrag2) t1).1
            (ipv6OfFrame testBCDNSFrag1) t2).2 = DefragOutcome.Delivered r ∧
          r.Payload = testBCDNSFrag1.drop 62 ++ testBCDNSFrag2.drop 62 ∧ r.NextHeader = 17) ∧
    (testBCDNSFrag1.drop 62 ++ testBCDNSFrag2.drop 62).length = 1499 := by
  obtain ⟨h1, hp1⟩ := testBCDNSFrag1_header
  obtain ⟨h2, hp2, hsrc, hdst⟩ := testBCDNSFrag2_header
  have hl1 := testBCDNSFrag1_data_length
  have hl2 := testBCDNSFrag2_data_length
  rw [← hl1] at hp2
  obtain ⟨a, b, c, e⟩ := DefragIPv6_two_fragments NewIPv6Defragmenter
    (ipv6OfFrame testBCDNSFrag1) (ipv6OfFrame testBCDNSFrag2) t1 t2 17 1981035780
    (testBCDNSFrag1.drop 62) (testBCDNSFrag2.drop 62) h1 h2 hsrc hdst hp1 hp2
    (by rw [hl1]) (by rw [hl1]; decide) (by rw [hl1, hl2]; decide) rfl
  exact ⟨a, b, c, e, by rw [List.length_append, hl1, hl2]⟩

/-- The offset read from a Fragment header is a multiple of 8 bytes. -/
theorem parseFragmentHeader_offset_mod (payload : List Byte) (hdr : FragmentHeader)
    (data : List Byte) (h : parseFragmentHeader payload = some (hdr, data)) :
    hdr.offset % 8 = 0 := by
  unfold parseFragmentHeader at h
  split at h
  · simp only [Option.some.injEq, Prod.mk.injEq] at h
    rw [← h.1]
    exact Nat.mul_mod_left _ _
  · exact absurd h (by simp)

/-! ## A datagram beyond the size bound -/

/-- The last fragment, arriving after the first, fails with
OversizedDatagram when the two hold more than 65495 bytes. -/
theorem DefragIPv6_last_after_first_oversized (d : IPv6Defragmenter) (ip : IPv6) (now : Time)
    (nh : Byte) (ident : UInt32) (data1 data2 : List Byte) (template : IPv6) (t1 : Time)
    (h44 : ip.NextHeader = 44)
    (hp : parseFragmentHeader ip.Payload =
      some ({ nextHeader := nh, offset := data1.length, more := false,
              identification := ident }, data2))
    (hpos : 0 < data1.length) (hsize : 65495 < data1.length + data2.length)
    (hfind : d.find { src := ip.SrcIP, dst := ip.DstIP, identification := ident,
                      nextProtocol := nh } =
      some { template := template, nextProtocol := nh,
             fragments := [{ offset := 0, more := true, payload := data1, arrival := t1 }],
             highestEnd := data1.length, totalLength := none, lastSeen := t1 }) :
    DefragIPv6 d ip now =
      (d.remove { src := ip.SrcIP, dst := ip.DstIP, identification := ident, nextProtocol := nh },
        DefragOutcome.Fails DefragError.OversizedDatagram) := by
  have hs : data1.length + data2.length > 65535 - 40 := by omega
  have hne : ¬ (0 = data1.length) := by omega
  have hlt : ¬ (data1.length < 0) := by omega
  simp [DefragIPv6, h44, hp, hfind, FragmentList.insert, FragmentRecord.length, hs,
    hne, hlt, FragmentRecord.overlaps]

/-- The first fragment, arriving after the last, fails with
OversizedDatagram when the two hold more than 65495 bytes. -/
theorem DefragIPv6_first_after_last_oversized (d : IPv6Defragmenter) (ip : IPv6) (now : Time)
    (nh : Byte) (ident : UInt32) (data1 data2 : List Byte) (template : IPv6) (t1 : Time)
    (h44 : ip.NextHeader = 44)
    (hp : parseFragmentHeader ip.Payload =
      some ({ nextHeader := nh, offset := 0, more := true, identification := ident }, data1))
    (h8 : data1.length % 8 = 0)
    (hpos : 0 < data1.length) (hsize : 65495 < data1.length + data2.length)
    (hfind : d.find { src := ip.SrcIP, dst := ip.DstIP, identification := ident,
                      nextProtocol := nh } =
      some { template := template, nextProtocol := nh,
             fragments := [{ offset := data1.length, more := false, payload := data2,
                             arrival := t1 }],
             highestEnd := data1.length + data2.length,
             totalLength := some (data1.length + data2.length), lastSeen := t1 }) :
    DefragIPv6 d ip now =
      (d.remove { src := ip.SrcIP, dst := ip.DstIP, identification := ident, nextProtocol := nh },
        DefragOutcome.Fails DefragError.OversizedDatagram) := by
  have hs : data2.length + data1.length > 65535 - 40 := by omega
  have hne : ¬ (data1.length = 0) := by omega
  simp [DefragIPv6, h44, hp, hfind, FragmentList.insert, FragmentRecord.length, hs,
    hne, hpos, FragmentRecord.overlaps, h8]

/-- A datagram in two fragments that hold more than 65495 bytes together,
each at most 65495 bytes: in either order the fragment fed first is
buffered and the other one fails with OversizedDatagram. -/
theorem DefragIPv6_two_fragments_oversized (d : IPv6Defragmenter) (ip1 ip2 : IPv6)
    (t1 t2 : Time) (nh : Byte) (ident : UInt32) (data1 data2 : List Byte)
    (h1 : ip1.NextHeader = 44) (h2 : ip2.NextHeader = 44)
    (hsrc : ip2.SrcIP = ip1.SrcIP) (hdst : ip2.DstIP = ip1.DstIP)
    (hp1 : parseFragmentHeader ip1.Payload =
      some ({ nextHeader := nh, offset := 0, more := true, identification := ident }, data1))
    (hp2 : parseFragmentHeader ip2.Payload =
      some ({ nextHeader := nh, offset := data1.length, more := false,
              identification := ident }, data2))
    (hpos : 0 < data1.length)
    (hfit1 : data1.length ≤ 65495) (hfit2 : data2.length ≤ 65495)
    (hsize : 65495 < data1.length + data2.length)
    (hfree : d.find { src := ip1.SrcIP, dst := ip1.DstIP, identification := ident,
                      nextProtocol := nh } = none) :
    (DefragIPv6 d ip1 t1).2 = DefragOutcome.Buffered ∧
    (DefragIPv6 d ip2 t1).2 = DefragOutcome.Buffered ∧
    (DefragIPv6 (DefragIPv6 d ip1 t1).1 ip2 t2).2
      = DefragOutcome.Fails DefragError.OversizedDatagram ∧
    (DefragIPv6 (DefragIPv6 d ip2 t1).1 ip1 t2).2
      = DefragOutcome.Fails DefragError.OversizedDatagram := by
  have h8 : data1.length % 8 = 0 := parseFragmentHeader_offset_mod _ _ _ hp2
  have hfree2 : d.find { src := ip2.SrcIP, dst := ip2.DstIP, identification := ident,
                         nextProtocol := nh } = none := by rw [hsrc, hdst]; exact hfree
  have e1 := DefragIPv6_first_of_two d ip1 t1 nh ident data1 h1 hp1 h8 hfit1 hfree
  have e2 := DefragIPv6_last_of_two_first d ip2 t1 nh ident data2 data1.length h2 hp2 hpos
    hfit2 hfree2
  refine ⟨by rw [e1], by rw [e2], ?_, ?_⟩
  · rw [e1]
    have hfind := find_store_self d.evictIfFull
      { src := ip1.SrcIP, dst := ip1.DstIP, identification := ident, nextProtocol := nh }
      { template := ip1, nextProtocol := nh,
        fragments := [{ offset := 0, more := true, payload := data1, arrival := t1 }],
        highestEnd := data1.length, totalLength := none, lastSeen := t1 }
    rw [← hsrc, ← hdst] at hfind
    rw [← hsrc, ← hdst]
    rw [DefragIPv6_last_after_first_oversized _ ip2 t2 nh ident data1 data2 ip1 t1 h2 hp2 hpos
      hsize hfind]
  · rw [e2]
    have hfind := find_store_self d.evictIfFull
      { src := ip2.SrcIP, dst := ip2.DstIP, identification := ident, nextProtocol := nh }
      { template := ip2, nextProtocol := nh,
        fragments := [{ offset := data1.length, more := false, payload := data2,
                        arrival := t1 }],
        highestEnd := data1.length + data2.length,
        totalLength := some (data1.length + data2.length), lastSeen := t1 }
    rw [hsrc, hdst] at hfind
    rw [hsrc, hdst]
    rw [DefragIPv6_first_after_last_oversized _ ip1 t2 nh ident data1 data2 ip2 t1 h1 hp1 h8
      hpos hsize hfind]

theorem sampleOversize_lengths :
    sampleOversizeData1.length = 65488 ∧ sampleOversizeData2.length = 8 :=
  ⟨List.length_replicate _ _, List.length_replicate _ _⟩

theorem sampleOversize_headers :
    parseFragmentHeader sampleOversizeFrag1.Payload =
      some ({ nextHeader := 17, offset := 0, more := true, identification := 7 },
        sampleOversizeData1) ∧
    parseFragmentHeader sampleOversizeFrag2.Payload =
      some ({ nextHeader := 17, offset := 65488, more := false, identification := 7 },
        sampleOversizeData2) :=
  ⟨rfl, rfl⟩

/-- C30, as stated, fails: a datagram of 65496 bytes split into a first
fragment of 65488 bytes and a last fragment of 8 bytes, fed to a new
defragmenter, is not reassembled. In either order the fragment fed first is
buffered and the other one fails with OversizedDatagram, so no packet is
returned for it. -/
theorem C30_oversized_datagram_is_not_reassembled :
    sampleOversizeFrag1.NextHeader = 44 ∧ sampleOversizeFrag2.NextHeader = 44 ∧
    parseFragmentHeader sampleOversizeFrag1.Payload =
      some ({ nextHeader := 17, offset := 0, more := true, identification := 7 },
        sampleOversizeData1) ∧
    parseFragmentHeader sampleOversizeFrag2.Payload =
      some ({ nextHeader := 17, offset := 65488, more := false, identification := 7 },
        sampleOversizeData2) ∧
    sampleOversizeData1.length = 65488 ∧ sampleOversizeData2.length = 8 ∧
    (DefragIPv6 NewIPv6Defragmenter sampleOversizeFrag1 0).2 = DefragOutcome.Buffered ∧
    (DefragIPv6 (DefragIPv6 NewIPv6Defragmenter sampleOversizeFrag1 0).1
        sampleOversizeFrag2 1).2 = DefragOutcome.Fails DefragError.OversizedDatagram ∧
    (DefragIPv6 (DefragIPv6 NewIPv6Defragmenter sampleOversizeFrag1 0).1
        sampleOversizeFrag2 1).2.out = none ∧
    (DefragIPv6 NewIPv6Defragmenter sampleOversizeFrag2 0).2 = DefragOutcome.Buffered ∧
    (DefragIPv6 (DefragIPv6 NewIPv6Defragmenter sampleOversizeFrag2 0).1
        sampleOversizeFrag1 1).2 = DefragOutcome.Fails DefragError.OversizedDatagram ∧
    (DefragIPv6 (DefragIPv6 NewIPv6Defragmenter sampleOversizeFrag2 0).1
        sampleOversizeFrag1 1).2.out = none := by
  obtain ⟨hl1, hl2⟩ := sampleOversize_lengths
  obtain ⟨hp1, hp2⟩ := sampleOversize_headers
  have hp2l : parseFragmentHeader sampleOversizeFrag2.Payload =
      some ({ nextHeader := 17, offset := sampleOversizeData1.length, more := false,
              identification := 7 }, sampleOversizeData2) := by
    rw [hl1]
    exact hp2
  obtain ⟨a, b, c, e⟩ := DefragIPv6_two_fragments_oversized NewIPv6Defragmenter
    sampleOversizeFrag1 sampleOversizeFrag2 0 1 17 7 sampleOversizeData1 sampleOversizeData2
    rfl rfl rfl rfl hp1 hp2l (by rw [hl1]; decide) (by rw [hl1]; decide) (by rw [hl2]; decide)
    (by rw [hl1, hl2]; decide) rfl
  exact ⟨rfl, rfl, hp1, hp2, hl1, hl2, a, c, by rw [c]; rfl, b, e, by rw [e]; rfl⟩

/-- C30: for a datagram split into two fragments (the first at offset 0
with the M bit and some data, the last at the offset where the data of the
first ends, at most 65495 bytes in all)
and a defragmenter that holds nothing under its key, DefragIPv6 returns no
packet and no error for the fragment fed first, and for the other one a
reassembled packet and no error; in either arrival order the reassembled
payload is the data of the first fragment followed by the data of the last.
For the BCDNS fixtures the payload has 1499 bytes, the first frame from byte
62 followed by the second frame from byte 62. -/
theorem C30_two_fragments_reassemble_in_either_order (d : IPv6Defragmenter) (ip1 ip2 : IPv6)
    (t1 t2 : Time) (nh : Byte) (ident : UInt32) (data1 data2 : List Byte)
    (h1 : ip1.NextHeader = 44) (h2 : ip2.NextHeader = 44)
    (hsrc : ip2.SrcIP = ip1.SrcIP) (hdst : ip2.DstIP = ip1.DstIP)
    (hp1 : parseFragmentHeader ip1.Payload =
      some ({ nextHeader := nh, offset := 0, more := true, identification := ident }, data1))
    (hp2 : parseFragmentHeader ip2.Payload =
      some ({ nextHeader := nh, offset := data1.length, more := false,
              identification := ident }, data2))
    (hpos : 0 < data1.length) (hsize : data1.length + data2.length ≤ 65495)
    (hfree : d.find { src := ip1.SrcIP, dst := ip1.DstIP, identification := ident,
                      nextProtocol := nh } = none) :
    ((DefragIPv6 d ip1 t1).2.out = none ∧ (DefragIPv6 d ip1 t1).2.err = none) ∧
    ((DefragIPv6 d ip2 t1).2.out = none ∧ (DefragIPv6 d ip2 t1).2.err = none) ∧
    (∃ r, (DefragIPv6 (DefragIPv6 d ip1 t1).1 ip2 t2).2.out = some r ∧
          (DefragIPv6 (DefragIPv6 d ip1 t1).1 ip2 t2).2.err = none ∧
          r.Payload = data1 ++ data2) ∧
    (∃ r, (DefragIPv6 (DefragIPv6 d ip2 t1).1 ip1 t2).2.out = some r ∧
          (DefragIPv6 (DefragIPv6 d ip2 t1).1 ip1 t2).2.err = none ∧
          r.Payload = data1 ++ data2) ∧
    (∀ u1 u2 : Time,
      (∃ r, (DefragIPv6 (DefragIPv6 NewIPv6Defragmenter (ipv6OfFrame testBCDNSFrag1) u1).1
              (ipv6OfFrame testBCDNSFrag2) u2).2.out = some r ∧
            r.Payload = testBCDNSFrag1.drop 62 ++ testBCDNSFrag2.drop 62 ∧
            r.Payload.length = 1499) ∧
      (∃ r, (DefragIPv6 (DefragIPv6 NewIPv6Defragmenter (ipv6OfFrame testBCDNSFrag2) u1).1
              (ipv6OfFrame testBCDNSFrag1) u2).2.out = some r ∧
            r.Payload = testBCDNSFrag1.drop 62 ++ testBCDNSFrag2.drop 62 ∧
            r.Payload.length = 1499)) := by
  have h8 : data1.length % 8 = 0 := parseFragmentHeader_offset_mod _ _ _ hp2
  obtain ⟨a, b, ⟨r, hr, hpay, _⟩, ⟨s, hs, hpay2, _⟩⟩ :=
    DefragIPv6_two_fragments d ip1 ip2 t1 t2 nh ident data1 data2 h1 h2 hsrc hdst hp1 hp2 h8
      hpos hsize hfree
  refine ⟨by rw [a]; exact ⟨rfl, rfl⟩, by rw [b]; exact ⟨rfl, rfl⟩,
    ⟨r, by rw [hr]; rfl, by rw [hr]; rfl, hpay⟩, ⟨s, by rw [hs]; rfl, by rw [hs]; rfl, hpay2⟩, ?_⟩
  intro u1 u2
  obtain ⟨_, _, ⟨r, hr, hpay, _⟩, ⟨s, hs, hpay2, _⟩, hlen⟩ := BCDNS_fixtures_reassemble u1 u2
  exact ⟨⟨r, by rw [hr]; rfl, hpay, by rw [hpay]; exact hlen⟩,
    ⟨s, by rw [hs]; rfl, hpay2, by rw [hpay2]; exact hlen⟩⟩

theorem C30_two_fragments_reassemble_in_either_order_witness :
    (ipv6OfFrame testBCDNSFrag1).NextHeader = 44 ∧
    (ipv6OfFrame testBCDNSFrag2).NextHeader = 44 ∧
    (DefragIPv6 NewIPv6Defragmenter (ipv6OfFrame testBCDNSFrag1) 0).2.out = none ∧
    (DefragIPv6 NewIPv6Defragmenter (ipv6OfFrame testBCDNSFrag2) 0).2.out = none ∧
    (∃ r, (DefragIPv6 (DefragIPv6 NewIPv6Defragmenter (ipv6OfFrame testBCDNSFrag1) 0).1
            (ipv6OfFrame testBCDNSFrag2) 1).2.out = some r ∧
          r.Payload = testBCDNSFrag1.drop 62 ++ testBCDNSFrag2.drop 62) ∧
    (∃ r, (DefragIPv6 (DefragIPv6 NewIPv6Defragmenter (ipv6OfFrame testBCDNSFrag2) 0).1
            (ipv6OfFrame testBCDNSFrag1) 1).2.out = some r ∧
          r.Payload = testBCDNSFrag1.drop 62 ++ testBCDNSFrag2.drop 62) := by
  have hl1 := testBCDNSFrag1_data_length
  have hl2 := testBCDNSFrag2_data_length
  have hp2 := testBCDNSFrag2_header.2.1
  rw [← hl1] at hp2
  obtain ⟨⟨a, _⟩, ⟨b, _⟩, ⟨r, hr, _, hpay⟩, ⟨s, hs, _, hpay2⟩, _⟩ :=
    C30_two_fragments_reassemble_in_either_order NewIPv6Defragmenter
      (ipv6OfFrame testBCDNSFrag1) (ipv6OfFrame testBCDNSFrag2) 0 1 17 1981035780
      (testBCDNSFrag1.drop 62) (testBCDNSFrag2.drop 62)
      testBCDNSFrag1_header.1 testBCDNSFrag2_header.1
      testBCDNSFrag2_header.2.2.1 testBCDNSFrag2_header.2.2.2
      testBCDNSFrag1_header.2 hp2
      (by rw [hl1]; decide) (by rw [hl1, hl2]; decide) rfl
  exact ⟨testBCDNSFrag1_header.1, testBCDNSFrag2_header.1, a, b, ⟨r, hr, hpay⟩, ⟨s, hs, hpay2⟩⟩

/-! ## A packet without Fragment header -/

set_option maxRecDepth 100000 in
theorem testBCDNSDontFrag_layer :
    (ipv6OfFrame testBCDNSDontFrag).NextHeader = 17 ∧
    (ipv6OfFrame testBCDNSDontFrag).Payload = testBCDNSDontFrag.drop 54 ∧
    (testBCDNSDontFrag.drop 54).length = 67 := by
  refine ⟨rfl, rfl, rfl⟩

/-- C31: an IPv6 packet whose next header is not the Fragment header (44) is
returned by DefragIPv6 as it is, payload included, with no error, and the
defragmenter is left as it was. For the BCDNSDontFrag fixture the returned
payload is the 67 bytes of the frame from byte 54. -/
theorem C31_unfragmented_packet_passes_through (d : IPv6Defragmenter) (ip : IPv6) (now : Time)
    (h : ip.NextHeader ≠ 44) :
    (DefragIPv6 d ip now).2 = DefragOutcome.Passthrough ip ∧
    (DefragIPv6 d ip now).2.out = some ip ∧
    (DefragIPv6 d ip now).2.err = none ∧
    (DefragIPv6 d ip now).1 = d ∧
    (∀ (d0 : IPv6Defragmenter) (t : Time),
      ∃ r, (DefragIPv6 d0 (ipv6OfFrame testBCDNSDontFrag) t).2.out = some r ∧
        r.Payload = testBCDNSDontFrag.drop 54 ∧ r.Payload.length = 67 ∧
        (DefragIPv6 d0 (ipv6OfFrame testBCDNSDontFrag) t).1 = d0) := by
  have key : ∀ (d0 : IPv6Defragmenter) (p : IPv6) (t : Time), p.NextHeader ≠ 44 →
      DefragIPv6 d0 p t = (d0, DefragOutcome.Passthrough p) := by
    intro d0 p t hp
    simp [DefragIPv6, hp]
  refine ⟨by rw [key d ip now h], by rw [key d ip now h]; rfl, by rw [key d ip now h]; rfl,
    by rw [key d ip now h], ?_⟩
  intro d0 t
  obtain ⟨hnh, hpay, hlen⟩ := testBCDNSDontFrag_layer
  have hne : (ipv6OfFrame testBCDNSDontFrag).NextHeader ≠ 44 := by rw [hnh]; decide
  rw [key d0 _ t hne]
  exact ⟨_, rfl, hpay, by rw [hpay]; exact hlen, rfl⟩

theorem C31_unfragmented_packet_passes_through_witness :
    (ipv6OfFrame testBCDNSDontFrag).NextHeader ≠ 44 ∧
    (DefragIPv6 NewIPv6Defragmenter (ipv6OfFrame testBCDNSDontFrag) 0).2.out =
      some (ipv6OfFrame testBCDNSDontFrag) ∧
    (DefragIPv6 NewIPv6Defragmenter (ipv6OfFrame testBCDNSDontFrag) 0).2.err = none ∧
    (DefragIPv6 NewIPv6Defragmenter (ipv6OfFrame testBCDNSDontFrag) 0).1 = NewIPv6Defragmenter :=
  have hne : (ipv6OfFrame testBCDNSDontFrag).NextHeader ≠ 44 := by
    rw [testBCDNSDontFrag_layer.1]; decide
  have h := C31_unfragmented_packet_passes_through NewIPv6Defragmenter
    (ipv6OfFrame testBCDNSDontFrag) 0 hne
  ⟨hne, h.2.1, h.2.2.1, h.2.2.2.1⟩

/-! ## The reachable states of the correlator -/

/-- The entries keep the stored shape across an expiry: the expired entry is
removed, and the removal listener changes the removed transaction only. -/
theorem expireKey_WellKeyed (env : Env) (s : State) (k : hashableDNSTuple) (h : s.WellKeyed) :
    (expireKey env s k).1.WellKeyed := by
  cases hst : s.getTransaction k with
  | none =>
    have e : expireKey env s k = (s, none) := by
      unfold expireKey
      rw [hst]
    rw [e]
    exact h
  | some t =>
    rw [expireKey_of_some env s k t hst]
    exact fun k2 t2 ht2 => WellKeyed_deleteTransaction s k h k2 t2 ht2

theorem Reachable_WellKeyed (env : Env) (s : State) (h : Reachable env s) : s.WellKeyed := by
  induction h with
  | start s h => exact WellKeyed_of_empty s h
  | request s s1 tuple msg _ hstep ih =>
    obtain ⟨s2, h2, hw⟩ := receivedDNSRequest_WellKeyed env s tuple msg ih
    rw [h2] at hstep
    cases hstep
    exact hw
  | response s tuple msg _ ih => exact receivedDNSResponse_WellKeyed env s tuple msg ih
  | expiry s k _ ih => exact expireKey_WellKeyed env s k ih

/-- C33: in every state reached from an empty map by calls of
receivedDNSRequest and receivedDNSResponse and by expiries, every entry
k -> t has t.tuple.hashable = k, a request, no response, and the timestamp
of its request; so receivedDNSRequest returns from such a state (it meets no
nil request), and deleting by t.tuple.hashable removes the entry under k
and no other. -/
theorem C33_reachable_entries_keep_their_shape (env : Env) (s : State)
    (h : Reachable env s) :
    (∀ k t, s.getTransaction k = some t →
      t.tuple.hashable = k ∧ (∃ r, t.request = some r ∧ t.ts = r.ts) ∧ t.response = none ∧
      (s.deleteTransaction t.tuple.hashable).getTransaction k = none ∧
      (∀ k2, k2 ≠ k →
        (s.deleteTransaction t.tuple.hashable).getTransaction k2 = s.getTransaction k2)) ∧
    (∀ tuple msg, ∃ s1, receivedDNSRequest env s tuple msg = some s1 ∧ Reachable env s1) := by
  have hw := Reachable_WellKeyed env s h
  constructor
  · intro k t ht
    obtain ⟨hk, hresp, r, hr, hts⟩ := hw k t ht
    refine ⟨hk, ⟨r, hr, hts⟩, hresp, ?_, ?_⟩
    · rw [hk, getTransaction_deleteTransaction_self]
    · intro k2 hk2
      rw [hk, getTransaction_deleteTransaction_of_ne _ _ _ hk2]
  · intro tuple msg
    obtain ⟨s1, h1, _⟩ := receivedDNSRequest_WellKeyed env s tuple msg hw
    exact ⟨s1, h1, Reachable.request s s1 tuple msg h h1⟩

theorem C33_reachable_entries_keep_their_shape_witness :
    Reachable sampleEnv sampleStateAfterQuery ∧
    (∀ k t, sampleStateAfterQuery.getTransaction k = some t →
      t.tuple.hashable = k ∧ (∃ r, t.request = some r ∧ t.ts = r.ts) ∧ t.response = none ∧
      (sampleStateAfterQuery.deleteTransaction t.tuple.hashable).getTransaction k = none ∧
      (∀ k2, k2 ≠ k →
        (sampleStateAfterQuery.deleteTransaction t.tuple.hashable).getTransaction k2
          = sampleStateAfterQuery.getTransaction k2)) ∧
    (∀ tuple msg, ∃ s1, receivedDNSRequest sampleEnv sampleStateAfterQuery tuple msg = some s1 ∧
      Reachable sampleEnv s1) :=
  have hr : Reachable sampleEnv sampleStateAfterQuery :=
    Reachable.request sampleState sampleStateAfterQuery sampleQueryTuple sampleQuery
      (Reachable.start sampleState rfl)
      (receivedDNSRequest_of_absent sampleEnv sampleState sampleQueryTuple sampleQuery
        (by decide) rfl)
  ⟨hr, C33_reachable_entries_keep_their_shape sampleEnv sampleStateAfterQuery hr⟩

/-! ## The count of additionals -/

theorem length_filter_OPT_split (records : List RR) :
    records.length = (records.filter (fun rr => rr.asOPT.isNone)).length +
      (records.filter (fun rr => rr.asOPT.isSome)).length := by
  induction records with
  | nil => rfl
  | cons rr rest ih =>
    cases h : rr.asOPT with
    | none => simp [List.filter_cons, h]; omega
    | some o => simp [List.filter_cons, h]; omega

theorem IsEdns0_isSome_iff (dns : Msg) :
    dns.IsEdns0.isSome = true ↔ 0 < (dns.Extra.filter (fun rr => rr.asOPT.isSome)).length := by
  unfold Msg.IsEdns0
  rw [List.findSome?_isSome_iff, List.length_pos_iff_exists_mem]
  constructor
  · rintro ⟨rr, hmem, hrr⟩
    exact ⟨rr, List.mem_filter.mpr ⟨List.mem_reverse.mp hmem, hrr⟩⟩
  · rintro ⟨rr, hmem⟩
    obtain ⟨h1, h2⟩ := List.mem_filter.mp hmem
    exact ⟨rr, List.mem_reverse.mpr h1, h2⟩

theorem toDNSRecord_AdditionalsCount (env : Env) (dns : Msg) (authority additional : Bool) :
    (toDNSRecord env dns authority additional).AdditionalsCount =
      if dns.IsEdns0.isSome then (dns.Extra.length : Int) - 1 else (dns.Extra.length : Int) := by
  unfold toDNSRecord
  simp only []
  repeat' split
  all_goals simp_all

theorem rrsToDNSAnswers_length (env : Env) (records : List RR) :
    (rrsToDNSAnswers env records).length
      = (records.filter (fun rr => rr.asOPT.isNone)).length :=
  (rrsToDNSAnswers_forall₂ env records).length_eq.symm

theorem toDNSRecord_Additionals_eq (env : Env) (dns : Msg) (authority additional : Bool) :
    (toDNSRecord env dns authority additional).Additionals =
      if additional && decide (dns.Extra.length > 0) then
        if (rrsToDNSAnswers env dns.Extra).length > 0 then rrsToDNSAnswers env dns.Extra else []
      else [] := by
  unfold toDNSRecord
  simp only []
  repeat' split
  all_goals rfl

theorem toDNSRecord_Additionals_length (env : Env) (dns : Msg) (authority : Bool) :
    (toDNSRecord env dns authority true).Additionals.length
      = (dns.Extra.filter (fun rr => rr.asOPT.isNone)).length := by
  have hl := rrsToDNSAnswers_length env dns.Extra
  rw [toDNSRecord_Additionals_eq]
  by_cases hx : dns.Extra.length > 0
  · by_cases hr : (rrsToDNSAnswers env dns.Extra).length > 0
    · simp only [Bool.true_and, hx, decide_True, if_true, hr]
      exact hl
    · simp only [Bool.true_and, hx, decide_True, if_true, hr, if_false, List.length_nil]
      omega
  · have he : dns.Extra = [] := List.eq_nil_of_length_eq_zero (by omega)
    simp [he]

/-- C35, as stated, fails on the code: toDNSRecord subtracts one from the
length of the additional section when the section holds an OPT record,
however many it holds, while rrsToDNSAnswers leaves out every OPT record.
The count is the number of records that are not OPT plus the number of OPT
records beyond the first; it is the number of records that are not OPT,
and the length of the additionals when they are included, exactly when the
section holds at most one OPT record. For a response with two OPT records
and nothing else the count is 1 and the additionals are empty. -/
theorem C35_additionals_count_subtracts_one_OPT (env : Env) (dns : Msg)
    (authority additional : Bool) :
    (toDNSRecord env dns authority additional).AdditionalsCount =
      (((dns.Extra.filter (fun rr => rr.asOPT.isNone)).length +
        ((dns.Extra.filter (fun rr => rr.asOPT.isSome)).length - 1) : Nat) : Int) ∧
    ((toDNSRecord env dns authority additional).AdditionalsCount =
        ((dns.Extra.filter (fun rr => rr.asOPT.isNone)).length : Int) ↔
      (dns.Extra.filter (fun rr => rr.asOPT.isSome)).length ≤ 1) ∧
    (toDNSRecord env dns authority true).Additionals.length
      = (dns.Extra.filter (fun rr => rr.asOPT.isNone)).length ∧
    (sampleTwoOPT.Extra.filter (fun rr => rr.asOPT.isNone)).length = 0 ∧
    (toDNSRecord sampleEnv sampleTwoOPT false true).AdditionalsCount = 1 ∧
    (toDNSRecord sampleEnv sampleTwoOPT false true).Additionals = [] := by
  have hsplit := length_filter_OPT_split dns.Extra
  have hiff := IsEdns0_isSome_iff dns
  have hcount : (toDNSRecord env dns authority additional).AdditionalsCount =
      (((dns.Extra.filter (fun rr => rr.asOPT.isNone)).length +
        ((dns.Extra.filter (fun rr => rr.asOPT.isSome)).length - 1) : Nat) : Int) := by
    rw [toDNSRecord_AdditionalsCount]
    by_cases h : dns.IsEdns0.isSome = true
    · have hpos := hiff.mp h
      rw [if_pos h]
      omega
    · have hzero : ¬ 0 < (dns.Extra.filter (fun rr => rr.asOPT.isSome)).length :=
        fun hp => h (hiff.mpr hp)
      rw [if_neg h]
      omega
  refine ⟨hcount, ?_, toDNSRecord_Additionals_length env dns authority, by decide, ?_, ?_⟩
  · rw [hcount]
    omega
  · rw [toDNSRecord_AdditionalsCount]
    decide
  · rw [toDNSRecord_Additionals_eq]
    decide

/-! ## The rendering of a record -/

theorem sortStrings_DNSKEY :
    sortStrings ["flags", "protocol", "algorithm"] = ["algorithm", "flags", "protocol"] := by
  decide

theorem sortStrings_DS :
    sortStrings ["key_tag", "algorithm", "digest_type"] = ["algorithm", "digest_type", "key_tag"] := by
  decide

theorem sortStrings_NSEC3 :
    sortStrings ["hash", "flags", "iterations", "salt", "type_bits"]
      = ["flags", "hash", "iterations", "salt", "type_bits"] := by
  decide

theorem sortStrings_NSEC3PARAM :
    sortStrings ["hash", "flags", "iterations"] = ["flags", "hash", "iterations"] := by
  decide

theorem sortStrings_RRSIG :
    sortStrings ["type_covered", "algorithm", "labels", "original_ttl", "expiration",
        "inception", "key_tag", "signer_name"]
      = ["algorithm", "expiration", "inception", "key_tag", "labels", "original_ttl",
          "signer_name", "type_covered"] := by
  decide

theorem sortStrings_SOA :
    sortStrings ["rname", "serial", "refresh", "retry", "expire", "minimum"]
      = ["expire", "minimum", "refresh", "retry", "rname", "serial"] := by
  decide

theorem sortStrings_SRV :
    sortStrings ["priority", "weight", "port"] = ["port", "priority", "weight"] := by
  decide

theorem sortStrings_singleton (k : String) : sortStrings [k] = [k] := rfl

theorem sortStrings_nil : sortStrings [] = [] := rfl

theorem TrimSuffix_empty : TrimSuffix "" ", " = "" := by
  decide

theorem sampleMX_rendering :
    rrToMapStr sampleEnv sampleMX =
      some { entries := [("preference", Value.uint16 10), ("data", Value.str "mail.example.com.")] } ∧
    rrToString sampleEnv sampleMX = "mail.example.com." ∧
    specRendering ((rrToMapStr sampleEnv sampleMX).getD {}) = "preference 10, mail.example.com." ∧
    rrToString sampleEnv sampleDNSKEY = "algorithm RSASHA256, flags 257, protocol 3, AwEAAa" ∧
    specRendering ((rrToMapStr sampleEnv sampleDNSKEY).getD {})
      = "algorithm RSASHA256, flags 257, protocol 3, AwEAAa" := by
  refine ⟨?_, ?_, ?_, ?_, ?_⟩
  · decide
  · decide
  · decide
  · decide
  · decide

/-- The entries of the map of rrToMapStr, in the order of the assignments. -/
theorem rrToMapStr_entries (env : Env) (rr : RR) :
    rrToMapStr env rr =
      match rr.body with
      | RData.other none => some { entries := [] }
      | RData.other (some rdata) =>
        some { entries := [("data", Value.str (env.hexStringToString rdata))] }
      | RData.A a => some { entries := [("data", Value.str (env.ipString a))] }
      | RData.AAAA a => some { entries := [("data", Value.str (env.ipString a))] }
      | RData.CNAME target => some { entries := [("data", Value.str target)] }
      | RData.DNSKEY flags protocol algorithm publicKey =>
        some { entries :=
          [("flags", Value.str (Itoa flags.val)), ("protocol", Value.str (Itoa protocol.val)),
           ("algorithm", Value.str (env.dnsAlgorithmToString algorithm)),
           ("data", Value.str publicKey)] }
      | RData.DS keyTag algorithm digestType digest =>
        some { entries :=
          [("key_tag", Value.str (Itoa keyTag.val)),
           ("algorithm", Value.str (env.dnsAlgorithmToString algorithm)),
           ("digest_type", Value.str (env.dnsHashToString digestType)),
           ("data", Value.str (env.ToUpper digest))] }
      | RData.MX preference mx =>
        some { entries := [("preference", Value.uint16 preference), ("data", Value.str mx)] }
      | RData.NS ns => some { entries := [("data", Value.str ns)] }
      | RData.NSEC nextDomain typeBitMap =>
        some { entries :=
          [("type_bits", Value.str (env.dnsTypeBitsMapToString typeBitMap)),
           ("data", Value.str nextDomain)] }
      | RData.NSEC3 hash flags iterations salt nextDomain typeBitMap =>
        some { entries :=
          [("hash", Value.str (env.dnsHashToString hash)), ("flags", Value.str (Itoa flags.val)),
           ("iterations", Value.str (Itoa iterations.val)),
           ("salt", Value.str (env.dnsSaltToString salt)),
           ("type_bits", Value.str (env.dnsTypeBitsMapToString typeBitMap)),
           ("data", Value.str nextDomain)] }
      | RData.NSEC3PARAM hash flags iterations salt =>
        some { entries :=
          [("hash", Value.str (env.dnsHashToString hash)), ("flags", Value.str (Itoa flags.val)),
           ("iterations", Value.str (Itoa iterations.val)),
           ("data", Value.str (env.dnsSaltToString salt))] }
      | RData.OPT _ => none
      | RData.PTR ptr => some { entries := [("data", Value.str ptr)] }
      | RData.RFC3597 rdata =>
        some { entries := [("data", Value.str (env.hexStringToString rdata))] }
      | RData.RRSIG typeCovered algorithm labels origTtl expiration inception keyTag signerName
          signature =>
        some { entries :=
          [("type_covered", Value.str (env.dnsTypeToString typeCovered)),
           ("algorithm", Value.str (env.dnsAlgorithmToString algorithm)),
           ("labels", Value.str (Itoa labels.val)),
           ("original_ttl", Value.str (Itoa origTtl.val)),
           ("expiration", Value.str (env.TimeToString expiration)),
           ("inception", Value.str (env.TimeToString inception)),
           ("key_tag", Value.str (Itoa keyTag.val)),
           ("signer_name", Value.str signerName),
           ("data", Value.str signature)] }
      | RData.SOA ns mbox serial refresh retry expire minttl =>
        some { entries :=
          [("rname", Value.str mbox), ("serial", Value.uint32 serial),
           ("refresh", Value.uint32 refresh), ("retry", Value.uint32 retry),
           ("expire", Value.uint32 expire), ("minimum", Value.uint32 minttl),
           ("data", Value.str ns)] }
      | RData.SRV priority weight port target =>
        some { entries :=
          [("priority", Value.uint16 priority), ("weight", Value.uint16 weight),
           ("port", Value.uint16 port), ("data", Value.str target)] }
      | RData.TXT txt => some { entries := [("data", Value.str (stringsJoin txt " "))] } := by
  obtain ⟨hdr, body⟩ := rr
  cases body
  case other r => cases r <;> rfl
  all_goals rfl

/-- What rrToString writes for a record: the rendering, as its documentation
words it, of the string-valued entries of the map of rrToMapStr. -/
theorem rrToString_eq_rendering_of_strings (env : Env) (rr : RR) :
    rrToString env rr = specRendering ((rrToMapStr env rr).getD {}).strings := by
  unfold rrToString
  rw [rrToMapStr_entries]
  obtain ⟨hdr, body⟩ := rr
  cases body
  case other r =>
    cases r <;>
    simp only [specRendering, MapStr.strings, MapStr.get,
      MapStr.delete, MapStr.keys, Option.getD_some, Option.getD_none, List.filter_cons,
      List.filter_nil, List.find?_cons, List.find?_nil, List.map_cons, List.map_nil, bne_iff_ne,
      beq_iff_eq] <;>
    simp [sortStrings_singleton, sortStrings_nil, TrimSuffix_empty, String.intercalate,
      String.intercalate.go, Value.text, String.append_assoc]
  all_goals
    simp only [specRendering, MapStr.strings, MapStr.get,
      MapStr.delete, MapStr.keys, Option.getD_some, Option.getD_none, List.filter_cons,
      List.filter_nil, List.find?_cons, List.find?_nil, List.map_cons, List.map_nil, bne_iff_ne,
      beq_iff_eq]
    simp [sortStrings_DNSKEY, sortStrings_DS, sortStrings_NSEC3,
      sortStrings_NSEC3PARAM, sortStrings_RRSIG, sortStrings_SOA, sortStrings_SRV,
      sortStrings_singleton, sortStrings_nil, TrimSuffix_empty, String.intercalate,
      String.intercalate.go, Value.text, String.append_assoc]

theorem strings_eq_self_of_no_unsigned (env : Env) (rr : RR)
    (h : rr.body.hasUnsignedField = false) :
    ((rrToMapStr env rr).getD {}).strings = (rrToMapStr env rr).getD {} := by
  rw [rrToMapStr_entries]
  obtain ⟨hdr, body⟩ := rr
  cases body
  case other r => cases r <;> rfl
  case MX => simp [RData.hasUnsignedField] at h
  case SOA => simp [RData.hasUnsignedField] at h
  case SRV => simp [RData.hasUnsignedField] at h
  all_goals rfl

/-- C32, as stated, fails on the code: the type switch of rrToString writes
a field whose value has the Go type int or string, and rrToMapStr stores
the preference of MX, the five counters of SOA and the priority, weight and
port of SRV as uint16 or uint32, so these fields are not written. What
rrToString returns is the rendering that its documentation describes (the
fields other than data as "key value" in ascending order of the keys, then
the data, separated by ", ") of the string-valued entries alone; it is the
rendering of the whole map for every record other than MX, SOA and SRV.
For an MX record with preference 10 it returns the exchange alone. -/
theorem C32_rrToString_omits_unsigned_fields (env : Env) (rr : RR) :
    rrToString env rr = specRendering ((rrToMapStr env rr).getD {}).strings ∧
    (rr.body.hasUnsignedField = false →
      rrToString env rr = specRendering ((rrToMapStr env rr).getD {})) ∧
    rrToMapStr sampleEnv sampleMX =
      some { entries := [("preference", Value.uint16 10),
                         ("data", Value.str "mail.example.com.")] } ∧
    rrToString sampleEnv sampleMX = "mail.example.com." ∧
    specRendering ((rrToMapStr sampleEnv sampleMX).getD {}) = "preference 10, mail.example.com." ∧
    rrToString sampleEnv sampleDNSKEY = "algorithm RSASHA256, flags 257, protocol 3, AwEAAa" := by
  obtain ⟨h1, h2, h3, h4, _⟩ := sampleMX_rendering
  refine ⟨rrToString_eq_rendering_of_strings env rr, ?_, h1, h2, h3, h4⟩
  intro h
  rw [rrToString_eq_rendering_of_strings, strings_eq_self_of_no_unsigned env rr h]

/-! ## The two record converters -/

theorem rrToMapStr_eq_none_iff (env : Env) (rr : RR) :
    rrToMapStr env rr = none ↔ rr.asOPT.isSome = true := by
  rw [rrToMapStr_entries]
  obtain ⟨hdr, body⟩ := rr
  cases body <;> simp [RR.asOPT]
  case other r => cases r <;> simp

set_option maxHeartbeats 1600000 in
/-- The two converters agree at every key, except at hash and flags for an
NSEC3PARAM record. -/
theorem converters_agree (env : Env) (rr : RR) (a : Answer) (m : MapStr)
    (ha : rrToDNSAnswer env rr = some a) (hm : rrToMapStr env rr = some m) (k : AnswerKey) :
    ((∃ h f i s, rr.body = RData.NSEC3PARAM h f i s) ∧
        (k = AnswerKey.hash ∨ k = AnswerKey.flags)) ∨
      agreesAt a m k := by
  rw [rrToMapStr_entries] at hm
  obtain ⟨hdr, body⟩ := rr
  cases body
  case OPT o => simp [rrToDNSAnswer] at ha
  case other r =>
    right
    cases r <;>
    · simp only [rrToDNSAnswer, Option.some.injEq] at ha hm
      subst ha hm
      cases k <;> simp [agreesAt, MapStr.get, AnswerKey.name, Answer.field, Value.isZero]
  case NSEC3PARAM h f i s =>
    simp only [rrToDNSAnswer, Option.some.injEq] at ha hm
    subst ha hm
    cases k
    case hash => exact Or.inl ⟨⟨h, f, i, s, rfl⟩, Or.inl rfl⟩
    case flags => exact Or.inl ⟨⟨h, f, i, s, rfl⟩, Or.inr rfl⟩
    all_goals
      right
      simp [agreesAt, MapStr.get, AnswerKey.name, Answer.field, Value.isZero]
  all_goals
    right
    simp only [rrToDNSAnswer, Option.some.injEq] at ha hm
    subst ha hm
    cases k <;> simp [agreesAt, MapStr.get, AnswerKey.name, Answer.field, Value.isZero]

theorem sampleNSEC3PARAM_converted :
    rrToDNSAnswer sampleEnv sampleNSEC3PARAM =
      some { Hash := "0", Iterations := "10", Data := "AABB" } ∧
    rrToMapStr sampleEnv sampleNSEC3PARAM =
      some { entries := [("hash", Value.str "SHA1"), ("flags", Value.str "0"),
                         ("iterations", Value.str "10"), ("data", Value.str "AABB")] } := by
  constructor
  · decide
  · decide

/-- C34, as stated, fails on the code: for an NSEC3PARAM record
rrToDNSAnswer assigns the Hash field twice, first the hash algorithm and
then the flags, and never assigns Flags, while rrToMapStr stores the hash
algorithm under hash and the flags under flags. The two converters return
nothing for the same records (OPT), and at every other key, and for every
other record at every key, the field of the answer is the value stored
under the key, or is empty when the map has no such key. For an NSEC3PARAM
record with hash algorithm 1 and flags 0 the answer has Hash "0" and empty
Flags, and the map has hash "SHA1" and flags "0". -/
theorem C34_converters_disagree_on_NSEC3PARAM (env : Env) (rr : RR) :
    (rrToDNSAnswer env rr = none ↔ rrToMapStr env rr = none) ∧
    (rrToDNSAnswer env rr = none ↔ rr.asOPT.isSome = true) ∧
    (∀ a m, rrToDNSAnswer env rr = some a → rrToMapStr env rr = some m → ∀ k : AnswerKey,
      ((∃ h f i s, rr.body = RData.NSEC3PARAM h f i s) ∧
          (k = AnswerKey.hash ∨ k = AnswerKey.flags)) ∨
        agreesAt a m k) ∧
    (∃ a m, rrToDNSAnswer sampleEnv sampleNSEC3PARAM = some a ∧
      rrToMapStr sampleEnv sampleNSEC3PARAM = some m ∧
      a.Hash = "0" ∧ a.Flags = "" ∧
      m.get "hash" = some (Value.str "SHA1") ∧ m.get "flags" = some (Value.str "0") ∧
      ¬ agreesAt a m AnswerKey.hash ∧ ¬ agreesAt a m AnswerKey.flags) := by
  refine ⟨?_, rrToDNSAnswer_eq_none_iff env rr,
    fun a m ha hm k => converters_agree env rr a m ha hm k, ?_⟩
  · rw [rrToDNSAnswer_eq_none_iff, rrToMapStr_eq_none_iff]
  · obtain ⟨h1, h2⟩ := sampleNSEC3PARAM_converted
    refine ⟨_, _, h1, h2, rfl, rfl, by decide, by decide, ?_, ?_⟩
    · simp [agreesAt, MapStr.get, AnswerKey.name, Answer.field]
    · intro h
      simp [agreesAt, MapStr.get, AnswerKey.name, Answer.field] at h
      exact absurd h (by decide)

end Dns
